import Mathlib

/-!
# Streaming client of binance-go: a shallow embedding

The development follows the Go sources under `binance/futures/fapi`, `binance/spot`,
`websocket`, `util` and `model`.  Conventions of the embedding:

* Go strings are Lean strings; the helpers of package `strings` that the sources use are
  written over the list of characters (`ToLower`/`ToUpper` act on ASCII letters).
* A `float64` is a finite number, an infinity or NaN (`F64`); a finite number is represented
  by a decimal that rounds to it.  `strconv.ParseFloat` is written after the standard library:
  decimal and hexadecimal spellings, infinities and NaN, and the range error.
* A value decoded by `encoding/json` into `interface{}` is a `JSON` tree; a frame is given
  to the dispatcher as the outcome of `json.Unmarshal(msg, &data)`.
* A user handler is identified by a number; invoking it is recorded in a trace of `Call`s.
* A failing unchecked type assertion or an index out of range is a `Panic`.
* The dispatcher is run by one goroutine, the receive loop; the read locks it takes around
  single map reads, the log lines, and the error branches of `json.Marshal` on a decoded
  value (which cannot fail) are left out.  `handleDepthMessage` of the futures client is
  not called by the dispatcher and is not embedded.
-/

namespace BinanceGo

/-! ## Package `strings` -/

/-- Mirror of `strings.ToLower` (ASCII letters). -/
def ToLower (s : String) : String := ⟨s.data.map Char.toLower⟩

/-- Mirror of `strings.ToUpper` (ASCII letters). -/
def ToUpper (s : String) : String := ⟨s.data.map Char.toUpper⟩

/-- Pieces of a character list between occurrences of `sep`; never empty. -/
def splitChars (sep : Char) : List Char → List (List Char)
  | [] => [[]]
  | c :: cs =>
    if c = sep then [] :: splitChars sep cs
    else match splitChars sep cs with
      | [] => [[c]]
      | w :: ws => (c :: w) :: ws

/-- Mirror of `strings.Split(s, sep)` for a one-character separator. -/
def Split (s : String) (sep : Char) : List String :=
  (splitChars sep s.data).map String.mk

/-- Mirror of `strings.HasPrefix`. -/
def HasPrefix (s pre : String) : Bool := pre.data.isPrefixOf s.data

/-! ## Numbers -/

/-- A `float64`: a finite number, an infinity or NaN.  A finite number is represented by a
finite decimal `mant * 10^(-scale)` that rounds to it, kept canonical (`scale = 0` or `mant`
is not a multiple of ten); the sign of a zero is not represented. -/
inductive F64 where
  | fin (mant : Int) (scale : Nat)
  | inf (neg : Bool)
  | nan
  deriving DecidableEq, Repr

/-- The power `b^k`, computed in chunks of 256. -/
def natPow (b k : Nat) : Nat := (b ^ 256) ^ (k / 256) * b ^ (k % 256)

namespace F64

/-- Strip trailing zeros of the mantissa, at most `scale` of them. -/
def normalize : Int → Nat → F64
  | m, 0 => fin m 0
  | m, n + 1 => if m % 10 = 0 then normalize (m / 10) n else fin m (n + 1)

/-- The float 0, the zero value of a Go `float64`. -/
def zero : F64 := fin 0 0

/-- Conversion `float64(i)` of an integer. -/
def ofInt (i : Int) : F64 := fin i 0

/-- The magnitudes from `2^1024 - 2^970` on round beyond the largest `float64`. -/
def overflowBound : Nat := (2 ^ 256) ^ 3 * (2 ^ 256 - 2 ^ 202)

/-- The factor `2^1075`: the magnitudes up to `2^(-1075)` round to zero. -/
def underflowScale : Nat := (2 ^ 256) ^ 4 * 2 ^ 51

/-- The `float64` nearest to the magnitude `num / den` with the sign `neg`, and whether it
is in range: the infinity and `false` when the magnitude rounds beyond the largest
`float64`, zero when it rounds to zero, and else `exact`, a decimal that denotes it. -/
def round (neg : Bool) (num den : Nat) (exact : F64) : F64 × Bool :=
  if overflowBound * den ≤ num then (inf neg, false)
  else if num * underflowScale ≤ den then (zero, true)
  else (exact, true)

/-- The `float64` nearest to `±m * 10^e`, and whether it is in range. -/
def ofDecimal (neg : Bool) (m : Nat) (e : Int) : F64 × Bool :=
  let sm : Int := if neg then -(m : Int) else (m : Int)
  if 0 ≤ e then round neg (m * natPow 10 e.toNat) 1 (fin (sm * natPow 10 e.toNat) 0)
  else round neg m (natPow 10 (-e).toNat) (normalize sm (-e).toNat)

/-- The `float64` nearest to `±m * 2^e`, and whether it is in range. -/
def ofBinary (neg : Bool) (m : Nat) (e : Int) : F64 × Bool :=
  let sm : Int := if neg then -(m : Int) else (m : Int)
  if 0 ≤ e then round neg (m * natPow 2 e.toNat) 1 (fin (sm * natPow 2 e.toNat) 0)
  else round neg m (natPow 2 (-e).toNat) (normalize (sm * natPow 5 (-e).toNat) (-e).toNat)

/-- Difference `a - b`. -/
def sub : F64 → F64 → F64
  | fin ma sa, fin mb sb =>
    let s := max sa sb
    let r := ma * 10 ^ (s - sa) - mb * 10 ^ (s - sb)
    (round (decide (r < 0)) r.natAbs (10 ^ s) (normalize r s)).1
  | nan, _ => nan
  | _, nan => nan
  | inf a, inf b => if a = b then nan else inf a
  | inf a, fin _ _ => inf a
  | fin _ _, inf b => inf (!b)

/-- Integer part of a finite number, rounding toward zero. -/
def trunc : F64 → Option Int
  | fin m s => some (m.tdiv (10 ^ s))
  | _ => none

/-- Test `a < 0`. -/
def isNeg : F64 → Bool
  | fin m _ => decide (m < 0)
  | inf neg => neg
  | nan => false

end F64

/-- Smallest `int64`. -/
def minInt64 : Int := -(2 ^ 63)

/-- Largest `int64`. -/
def maxInt64 : Int := 2 ^ 63 - 1

/-- Two's-complement wrap of an integer into `int64`. -/
def wrapInt64 (x : Int) : Int := (x + 2 ^ 63) % 2 ^ 64 - 2 ^ 63

/-- Conversion `int64(f)` of a float: truncation toward zero; a value outside the range of
`int64`, an infinity and NaN give the smallest `int64` (the result on amd64). -/
def float64ToInt64 (f : F64) : Int :=
  match f.trunc with
  | some t => if minInt64 ≤ t ∧ t ≤ maxInt64 then t else minInt64
  | none => minInt64

/-- Value of a decimal digit. -/
def digitVal (c : Char) : Option Nat :=
  if '0' ≤ c ∧ c ≤ '9' then some (c.toNat - '0'.toNat) else none

/-- Value of a run of decimal digits, continuing from `acc`; `none` on a non-digit. -/
def digitsVal : List Char → Nat → Option Nat
  | [], acc => some acc
  | c :: cs, acc =>
    match digitVal c with
    | some d => digitsVal cs (acc * 10 + d)
    | none => none

/-- Split off an optional leading sign; the flag is `true` for `-`. -/
def takeSign : List Char → Bool × List Char
  | '-' :: cs => (true, cs)
  | '+' :: cs => (false, cs)
  | cs => (false, cs)

/-- Signed value of an optionally signed, non-empty run of digits. -/
def signedDigits (cs : List Char) : Option Int :=
  match takeSign cs with
  | (_, []) => none
  | (neg, ds) =>
    match digitsVal ds 0 with
    | some n => some (if neg then -(n : Int) else (n : Int))
    | none => none

/-- Mirror of `strconv.ParseInt(s, 10, 64)`: value and success flag.  A syntax error gives
`(0, false)`; a value out of range gives the nearest bound and `false`. -/
def ParseInt (s : String) : Int × Bool :=
  match signedDigits s.data with
  | none => (0, false)
  | some v =>
    if v < minInt64 then (minInt64, false)
    else if maxInt64 < v then (maxInt64, false)
    else (v, true)

/-! ### `strconv.ParseFloat`

The function is part of the Go standard library; it is written here after its source
(`strconv/atof.go`): `special` recognises the infinities and NaN, `readFloat` scans a decimal
or hexadecimal spelling, `underscoreOK` checks the digit separators, and the conversion
rounds to the nearest `float64`. -/

/-- Mirror of `special` for a spelling that `ParseFloat` accepts only when it is consumed
whole: `inf` or `infinity` with an optional sign, and `nan` without a sign, in any letter
case. -/
def special (cs : List Char) : Option F64 :=
  match cs with
  | [] => none
  | c :: rest =>
    if c = '+' ∨ c = '-' then
      if rest.map Char.toLower = "inf".data ∨ rest.map Char.toLower = "infinity".data then
        some (F64.inf (decide (c = '-')))
      else none
    else if c = 'i' ∨ c = 'I' then
      if cs.map Char.toLower = "inf".data ∨ cs.map Char.toLower = "infinity".data then
        some (F64.inf false)
      else none
    else if c = 'n' ∨ c = 'N' then
      if cs.map Char.toLower = "nan".data then some F64.nan else none
    else none

/-- Value of a digit of a float spelling: a decimal digit, or in a hexadecimal spelling
also a letter `a` to `f` in either case. -/
def floatDigit (hex : Bool) (c : Char) : Option Nat :=
  if '0' ≤ c ∧ c ≤ '9' then some (c.toNat - '0'.toNat)
  else if hex = true ∧ 'a' ≤ c ∧ c ≤ 'f' then some (c.toNat - 'a'.toNat + 10)
  else if hex = true ∧ 'A' ≤ c ∧ c ≤ 'F' then some (c.toNat - 'A'.toNat + 10)
  else none

/-- What the digit loop of `readFloat` has read: the number that the digits spell, how many
of them follow the point, and whether a digit and the point were seen. -/
structure MantissaScan where
  value : Nat := 0
  fracLen : Nat := 0
  sawdigits : Bool := false
  sawdot : Bool := false
  deriving DecidableEq, Repr

/-- The digit loop of `readFloat`: an underscore is skipped, one point is accepted, and the
loop stops before the first other character; it returns what is left of the input. -/
def readMantissa (hex : Bool) : List Char → MantissaScan → MantissaScan × List Char
  | [], d => (d, [])
  | c :: cs, d =>
    if c = '_' then readMantissa hex cs d
    else if c = '.' then
      if d.sawdot then (d, c :: cs) else readMantissa hex cs { d with sawdot := true }
    else
      match floatDigit hex c with
      | some v =>
        readMantissa hex cs
          { d with
            value := d.value * (if hex then 16 else 10) + v,
            fracLen := if d.sawdot then d.fracLen + 1 else 0,
            sawdigits := true }
      | none => (d, c :: cs)

/-- The exponent loop of `readFloat`: decimal digits and underscores; the exponent stops
growing once it has reached 10000. -/
def readExponent : List Char → Nat → Nat × List Char
  | [], e => (e, [])
  | c :: cs, e =>
    if c = '_' then readExponent cs e
    else
      match digitVal c with
      | some v => readExponent cs (if e < 10000 then e * 10 + v else e)
      | none => (e, c :: cs)

/-- The loop of `underscoreOK`; `saw` is `0` after a digit or the base prefix, `_` after an
underscore, `!` after another character and `^` at the start. -/
def underscoreLoop (hex : Bool) : List Char → Char → Bool
  | [], saw => saw != '_'
  | c :: cs, saw =>
    if (floatDigit hex c).isSome then underscoreLoop hex cs '0'
    else if c = '_' then
      if saw != '0' then false else underscoreLoop hex cs '_'
    else if saw = '_' then false
    else underscoreLoop hex cs '!'

/-- Mirror of `underscoreOK`: every underscore stands between two digits, or between a base
prefix and a digit. -/
def underscoreOK (cs : List Char) : Bool :=
  match (takeSign cs).2 with
  | '0' :: x :: rest =>
    if x = 'b' ∨ x = 'B' ∨ x = 'o' ∨ x = 'O' ∨ x = 'x' ∨ x = 'X' then
      underscoreLoop (decide (x = 'x' ∨ x = 'X')) rest '0'
    else underscoreLoop false ('0' :: x :: rest) '^'
  | body => underscoreLoop false body '^'

/-- The exponent part of `readFloat`, from the character after the mantissa: the signed
exponent and what is left of the input; `none` when the marker is not followed by an
optional sign and a digit, and when a hexadecimal spelling has no exponent. -/
def readExponentPart (hex : Bool) (rest : List Char) : Option (Int × List Char) :=
  match rest with
  | c :: cs =>
    if (hex = false ∧ (c = 'e' ∨ c = 'E')) ∨ (hex = true ∧ (c = 'p' ∨ c = 'P')) then
      match takeSign cs with
      | (eneg, d :: ds) =>
        if (digitVal d).isSome then
          let r := readExponent (d :: ds) 0
          some (if eneg then -(r.1 : Int) else (r.1 : Int), r.2)
        else none
      | (_, []) => none
    else if hex then none
    else some (0, c :: cs)
  | [] => if hex then none else some (0, [])

/-- Whether `readFloat` reads a hexadecimal spelling: the base prefix `0x` is followed by at
least one character. -/
def hexPrefix : List Char → Bool
  | '0' :: x :: _ :: _ => decide (x = 'x' ∨ x = 'X')
  | _ => false

/-- Mirror of `readFloat` on the characters `digits` that follow the sign and the base
prefix of the spelling `whole`, and of the conversion of what it has read.  The spelling
must be read to its end. -/
def parseNumber (whole : List Char) (neg hex : Bool) (digits : List Char) : F64 × Bool :=
  let scan := readMantissa hex digits {}
  if scan.1.sawdigits = false then (F64.zero, false)
  else
    match readExponentPart hex scan.2 with
    | none => (F64.zero, false)
    | some (e, rest) =>
      if rest ≠ [] then (F64.zero, false)
      else if whole.contains '_' ∧ underscoreOK whole = false then (F64.zero, false)
      else if hex then F64.ofBinary neg scan.1.value (e - 4 * (scan.1.fracLen : Int))
      else F64.ofDecimal neg scan.1.value (e - (scan.1.fracLen : Int))

/-- Mirror of `strconv.ParseFloat(s, 64)`: the value and whether the error is nil.  A syntax
error gives `(0, false)`; a spelling beyond the range of `float64` gives the infinity of its
sign and `false`.  A spelling is `[+-]`, then decimal digits with at most one point and an
optional exponent `e[+-]digits`, or `0x`, hexadecimal digits with at most one point and the
exponent `p[+-]digits`; underscores may separate digits; or it is an infinity or NaN. -/
def ParseFloat (s : String) : F64 × Bool :=
  match special s.data with
  | some v => (v, true)
  | none =>
    let signed := takeSign s.data
    let hex := hexPrefix signed.2
    parseNumber s.data signed.1 hex (if hex then signed.2.drop 2 else signed.2)

/-! ## Values decoded by `encoding/json` -/

/-- A JSON document decoded into Go's `interface{}`: `nil`, `bool`, `float64`, `string`,
`[]interface{}` or `map[string]interface{}`. -/
inductive JSON where
  | null
  | bool (b : Bool)
  | num (v : F64)
  | str (s : String)
  | arr (items : List JSON)
  | obj (fields : List (String × JSON))

/-- A decoded `map[string]interface{}`; the nil map is the empty list. -/
abbrev JObj := List (String × JSON)

/-- Map read `m[k]`; `none` when the key is absent. -/
def JObj.get (m : JObj) (k : String) : Option JSON := m.lookup k

/-- Checked assertion `v, ok := x.(string)`. -/
def asString : Option JSON → Option String
  | some (JSON.str s) => some s
  | _ => none

/-- Checked assertion `v, ok := x.(float64)`. -/
def asFloat64 : Option JSON → Option F64
  | some (JSON.num v) => some v
  | _ => none

/-- Checked assertion `v, ok := x.(bool)`. -/
def asBool : Option JSON → Option Bool
  | some (JSON.bool b) => some b
  | _ => none

/-- Checked assertion `v, ok := x.([]interface{})`. -/
def asArray : Option JSON → Option (List JSON)
  | some (JSON.arr xs) => some xs
  | _ => none

/-- Checked assertion `v, ok := x.(map[string]interface{})`. -/
def asObject : Option JSON → Option JObj
  | some (JSON.obj m) => some m
  | _ => none

/-! ## Package `util` -/

/-- Mirror of `util.ToFloat64` on a decoded value: the value and whether the error is nil.
A decoded value is nil, a `float64`, a `string` or of a type the switch rejects; for a
string the result of `strconv.ParseFloat` is returned as it is, the value also when the
error is not nil. -/
def ToFloat64 : Option JSON → F64 × Bool
  | none => (F64.zero, false)
  | some JSON.null => (F64.zero, false)
  | some (JSON.num v) => (v, true)
  | some (JSON.str s) => ParseFloat s
  | some _ => (F64.zero, false)

/-- Mirror of `util.ToFloat64` on a Go string. -/
def ToFloat64Str (s : String) : F64 × Bool := ToFloat64 (some (JSON.str s))

/-- Mirror of `util.ToInt64` on a decoded value: result and success flag. -/
def ToInt64 : Option JSON → Int × Bool
  | none => (0, false)
  | some JSON.null => (0, false)
  | some (JSON.num v) => (float64ToInt64 v, true)
  | some (JSON.str s) => ParseInt s
  | some _ => (0, false)

/-- Mirror of `util.ToInt`: zero when `ToInt64` fails. -/
def ToInt (v : Option JSON) : Int × Bool :=
  match ToInt64 v with
  | (i, true) => (i, true)
  | (_, false) => (0, false)

/-! ## Decoding into a Go struct (`json.Marshal` of the payload, `json.Unmarshal` into a struct)

The combined-stream handlers re-encode the payload and decode it into an anonymous struct.
`json.Marshal` writes the keys of a map in sorted order and `json.Unmarshal` assigns each
key to the field whose tag equals it, or else to the first field whose tag equals it up to
letter case; a later key overwrites an earlier one, `null` leaves the field alone, and an
ill-typed value makes `Unmarshal` return an error. -/

/-- Go type of a scalar struct field. -/
inductive ScalarTy where
  | string
  | int64
  | bool
  deriving DecidableEq, Repr

/-- Value of a scalar struct field. -/
inductive ScalarVal where
  | str (s : String)
  | int (i : Int)
  | bool (b : Bool)
  deriving DecidableEq, Repr

/-- Tags and types of a struct of scalar fields, in declaration order. -/
abbrev Schema := List (String × ScalarTy)

/-- Go type of a struct field. -/
inductive FieldTy where
  | scalar (t : ScalarTy)
  | rows
  | nested (inner : Schema)

/-- Value of a struct field; `rows` is a `[][]string`. -/
inductive FieldVal where
  | scalar (v : ScalarVal)
  | rows (r : List (List String))
  | nested (st : List (String × ScalarVal))

/-- The field a JSON key is assigned to: exact tag first, else the first tag equal up to
(ASCII) letter case. -/
def fieldFor (tags : List String) (key : String) : Option String :=
  if tags.contains key then some key
  else tags.find? (fun t => ToLower t == ToLower key)

/-- Entries of a map, each key once. -/
def JObj.entries : JObj → JObj
  | [] => []
  | (k, v) :: rest => (k, v) :: (JObj.entries rest).filter (fun e => e.1 != k)

/-- Lexicographic order on character lists, by code point (the byte order of UTF-8). -/
def ltChars : List Char → List Char → Bool
  | [], [] => false
  | [], _ :: _ => true
  | _ :: _, [] => false
  | a :: as, b :: bs =>
    if a.toNat < b.toNat then true
    else if b.toNat < a.toNat then false
    else ltChars as bs

/-- Insert an entry into a list sorted by key. -/
def insertByKey (e : String × JSON) : List (String × JSON) → List (String × JSON)
  | [] => [e]
  | x :: xs => if ltChars e.1.data x.1.data then e :: x :: xs else x :: insertByKey e xs

/-- Entries of a map in the key order in which `json.Marshal` writes them. -/
def JObj.sorted (m : JObj) : List (String × JSON) :=
  (JObj.entries m).foldr insertByKey []

/-- Decode one value into a scalar field: the value to store (`none` keeps the field) and
whether the value was well typed.  A number is accepted by an `int64` field when it is
integral and in range. -/
def decodeScalar : ScalarTy → JSON → Option ScalarVal × Bool
  | _, JSON.null => (none, true)
  | ScalarTy.string, JSON.str s => (some (ScalarVal.str s), true)
  | ScalarTy.int64, JSON.num (F64.fin mant scale) =>
    if scale = 0 ∧ minInt64 ≤ mant ∧ mant ≤ maxInt64 then (some (ScalarVal.int mant), true)
    else (none, false)
  | ScalarTy.bool, JSON.bool b => (some (ScalarVal.bool b), true)
  | _, _ => (none, false)

/-- Decode the sorted entries of an object into a struct of scalar fields, starting from
the state `st`; the flag is `false` as soon as one value is ill typed. -/
def decodeScalars (sch : Schema) :
    List (String × JSON) → List (String × ScalarVal) × Bool → List (String × ScalarVal) × Bool
  | [], acc => acc
  | (k, v) :: rest, (st, ok) =>
    match fieldFor (sch.map Prod.fst) k with
    | none => decodeScalars sch rest (st, ok)
    | some tag =>
      match sch.lookup tag with
      | none => decodeScalars sch rest (st, ok)
      | some t =>
        match decodeScalar t v with
        | (some x, good) => decodeScalars sch rest ((tag, x) :: st, ok && good)
        | (none, good) => decodeScalars sch rest (st, ok && good)

/-- Decode one element of a `[]string`: a string, or `null` for the empty string. -/
def decodeCell : JSON → Option String
  | JSON.str s => some s
  | JSON.null => some ""
  | _ => none

/-- Decode one element of a `[][]string`: an array of cells, or `null` for the nil row. -/
def decodeRow : JSON → Option (List String)
  | JSON.arr cells => cells.mapM decodeCell
  | JSON.null => some []
  | _ => none

/-- Decode a value into a `[][]string` field. -/
def decodeRows : JSON → Option (List (List String)) × Bool
  | JSON.null => (none, true)
  | JSON.arr rs =>
    match rs.mapM decodeRow with
    | some rows => (some rows, true)
    | none => (none, false)
  | _ => (none, false)

/-- Decode the sorted entries of an object into a struct, starting from the state `st`. -/
def decodeFields (sch : List (String × FieldTy)) :
    List (String × JSON) → List (String × FieldVal) × Bool → List (String × FieldVal) × Bool
  | [], acc => acc
  | (k, v) :: rest, (st, ok) =>
    match fieldFor (sch.map Prod.fst) k with
    | none => decodeFields sch rest (st, ok)
    | some tag =>
      match sch.lookup tag with
      | none => decodeFields sch rest (st, ok)
      | some (FieldTy.scalar t) =>
        match decodeScalar t v with
        | (some x, good) => decodeFields sch rest ((tag, FieldVal.scalar x) :: st, ok && good)
        | (none, good) => decodeFields sch rest (st, ok && good)
      | some FieldTy.rows =>
        match decodeRows v with
        | (some r, good) => decodeFields sch rest ((tag, FieldVal.rows r) :: st, ok && good)
        | (none, good) => decodeFields sch rest (st, ok && good)
      | some (FieldTy.nested inner) =>
        match v with
        | JSON.null => decodeFields sch rest (st, ok)
        | JSON.obj m =>
          let old : List (String × ScalarVal) :=
            match st.lookup tag with
            | some (FieldVal.nested s) => s
            | _ => []
          let r := decodeScalars inner (JObj.sorted m) (old, true)
          decodeFields sch rest ((tag, FieldVal.nested r.1) :: st, ok && r.2)
        | _ => decodeFields sch rest (st, false)

/-- A decoded struct: the fields that were assigned. -/
abbrev StructVal := List (String × FieldVal)

/-- Mirror of `json.Marshal(data)` followed by `json.Unmarshal(bytes, &s)` for a payload of
type `interface{}`: `none` when `Unmarshal` returns an error.  A nil payload and `null`
decode into the zero struct; a payload that is not an object is an error. -/
def unmarshalStruct (sch : List (String × FieldTy)) : Option JSON → Option StructVal
  | none => some []
  | some JSON.null => some []
  | some (JSON.obj m) =>
    match decodeFields sch (JObj.sorted m) ([], true) with
    | (st, true) => some st
    | (_, false) => none
  | some _ => none

/-- Read a `string` field; the zero value is the empty string. -/
def StructVal.str (st : StructVal) (tag : String) : String :=
  match st.lookup tag with
  | some (FieldVal.scalar (ScalarVal.str s)) => s
  | _ => ""

/-- Read an `int64` field; the zero value is 0. -/
def StructVal.int (st : StructVal) (tag : String) : Int :=
  match st.lookup tag with
  | some (FieldVal.scalar (ScalarVal.int i)) => i
  | _ => 0

/-- Read a `bool` field; the zero value is `false`. -/
def StructVal.bool (st : StructVal) (tag : String) : Bool :=
  match st.lookup tag with
  | some (FieldVal.scalar (ScalarVal.bool b)) => b
  | _ => false

/-- Read a `[][]string` field; the zero value is the nil slice. -/
def StructVal.rows (st : StructVal) (tag : String) : List (List String) :=
  match st.lookup tag with
  | some (FieldVal.rows r) => r
  | _ => []

/-- Read a field of a nested struct of scalars. -/
def StructVal.nested (st : StructVal) (tag : String) : List (String × ScalarVal) :=
  match st.lookup tag with
  | some (FieldVal.nested s) => s
  | _ => []

/-- Read a `string` field of a nested struct. -/
def nestedStr (st : List (String × ScalarVal)) (tag : String) : String :=
  match st.lookup tag with
  | some (ScalarVal.str s) => s
  | _ => ""

/-- Read an `int64` field of a nested struct. -/
def nestedInt (st : List (String × ScalarVal)) (tag : String) : Int :=
  match st.lookup tag with
  | some (ScalarVal.int i) => i
  | _ => 0

/-! ## Package `model` -/

/-- Mirror of `model.KlinePeriod`, a string type. -/
abbrev KlinePeriod := String

/-- The constant `model.Kline_1min`. -/
def Kline_1min : KlinePeriod := "1min"
/-- The constant `model.Kline_5min`. -/
def Kline_5min : KlinePeriod := "5min"
/-- The constant `model.Kline_15min`. -/
def Kline_15min : KlinePeriod := "15min"
/-- The constant `model.Kline_30min`. -/
def Kline_30min : KlinePeriod := "30min"
/-- The constant `model.Kline_60min`. -/
def Kline_60min : KlinePeriod := "60min"
/-- The constant `model.Kline_1h`. -/
def Kline_1h : KlinePeriod := "1h"
/-- The constant `model.Kline_4h`. -/
def Kline_4h : KlinePeriod := "4h"
/-- The constant `model.Kline_6h`. -/
def Kline_6h : KlinePeriod := "6h"
/-- The constant `model.Kline_1day`. -/
def Kline_1day : KlinePeriod := "1day"
/-- The constant `model.Kline_1week`. -/
def Kline_1week : KlinePeriod := "1week"

/-- The constant `model.KLINE_PERIOD_1MIN`. -/
def KLINE_PERIOD_1MIN : KlinePeriod := "1m"
/-- The constant `model.KLINE_PERIOD_3MIN`. -/
def KLINE_PERIOD_3MIN : KlinePeriod := "3m"
/-- The constant `model.KLINE_PERIOD_5MIN`. -/
def KLINE_PERIOD_5MIN : KlinePeriod := "5m"
/-- The constant `model.KLINE_PERIOD_15MIN`. -/
def KLINE_PERIOD_15MIN : KlinePeriod := "15m"
/-- The constant `model.KLINE_PERIOD_30MIN`. -/
def KLINE_PERIOD_30MIN : KlinePeriod := "30m"
/-- The constant `model.KLINE_PERIOD_60MIN`. -/
def KLINE_PERIOD_60MIN : KlinePeriod := "1h"
/-- The constant `model.KLINE_PERIOD_2H`. -/
def KLINE_PERIOD_2H : KlinePeriod := "2h"
/-- The constant `model.KLINE_PERIOD_4H`. -/
def KLINE_PERIOD_4H : KlinePeriod := "4h"
/-- The constant `model.KLINE_PERIOD_6H`. -/
def KLINE_PERIOD_6H : KlinePeriod := "6h"
/-- The constant `model.KLINE_PERIOD_8H`. -/
def KLINE_PERIOD_8H : KlinePeriod := "8h"
/-- The constant `model.KLINE_PERIOD_12H`. -/
def KLINE_PERIOD_12H : KlinePeriod := "12h"
/-- The constant `model.KLINE_PERIOD_1D`. -/
def KLINE_PERIOD_1D : KlinePeriod := "1d"
/-- The constant `model.KLINE_PERIOD_3D`. -/
def KLINE_PERIOD_3D : KlinePeriod := "3d"
/-- The constant `model.KLINE_PERIOD_1W`. -/
def KLINE_PERIOD_1W : KlinePeriod := "1w"
/-- The constant `model.KLINE_PERIOD_1M`. -/
def KLINE_PERIOD_1M : KlinePeriod := "1M"
/-- The constant `model.KLINE_PERIOD_1DAY`. -/
def KLINE_PERIOD_1DAY : KlinePeriod := KLINE_PERIOD_1D
/-- The constant `model.KLINE_PERIOD_3DAY`. -/
def KLINE_PERIOD_3DAY : KlinePeriod := KLINE_PERIOD_3D
/-- The constant `model.KLINE_PERIOD_1WEEK`. -/
def KLINE_PERIOD_1WEEK : KlinePeriod := KLINE_PERIOD_1W
/-- The constant `model.KLINE_PERIOD_1MONTH`. -/
def KLINE_PERIOD_1MONTH : KlinePeriod := KLINE_PERIOD_1M

/-- Every `KlinePeriod` constant declared in `model/const.go`, both families. -/
def klinePeriodConstants : List KlinePeriod :=
  [Kline_1min, Kline_5min, Kline_15min, Kline_30min, Kline_60min, Kline_1h, Kline_4h,
   Kline_6h, Kline_1day, Kline_1week,
   KLINE_PERIOD_1MIN, KLINE_PERIOD_3MIN, KLINE_PERIOD_5MIN, KLINE_PERIOD_15MIN,
   KLINE_PERIOD_30MIN, KLINE_PERIOD_60MIN, KLINE_PERIOD_2H, KLINE_PERIOD_4H, KLINE_PERIOD_6H,
   KLINE_PERIOD_8H, KLINE_PERIOD_12H, KLINE_PERIOD_1D, KLINE_PERIOD_3D, KLINE_PERIOD_1W,
   KLINE_PERIOD_1M, KLINE_PERIOD_1DAY, KLINE_PERIOD_3DAY, KLINE_PERIOD_1WEEK,
   KLINE_PERIOD_1MONTH]

/-- The constant `model.OrderStatus_Pending`. -/
def OrderStatus_Pending : Int := 1
/-- The constant `model.OrderStatus_Finished`. -/
def OrderStatus_Finished : Int := 2
/-- The constant `model.OrderStatus_Canceled`. -/
def OrderStatus_Canceled : Int := 3
/-- The constant `model.OrderStatus_PartFinished`. -/
def OrderStatus_PartFinished : Int := 4
/-- The constant `model.OrderStatus_Canceling`. -/
def OrderStatus_Canceling : Int := 5
/-- The constant `model.ORDER_UNFINISH`. -/
def ORDER_UNFINISH : Int := OrderStatus_Pending
/-- The constant `model.ORDER_PART_FINISH`. -/
def ORDER_PART_FINISH : Int := OrderStatus_PartFinished
/-- The constant `model.ORDER_FINISH`. -/
def ORDER_FINISH : Int := OrderStatus_Finished
/-- The constant `model.ORDER_CANCEL`. -/
def ORDER_CANCEL : Int := OrderStatus_Canceled
/-- The constant `model.ORDER_REJECT`. -/
def ORDER_REJECT : Int := OrderStatus_Canceled

/-- The constant `model.BUY` (`Spot_Buy`). -/
def BUY : String := "buy"
/-- The constant `model.SELL` (`Spot_Sell`). -/
def SELL : String := "sell"
/-- The constant `model.Futures_OpenBuy`. -/
def Futures_OpenBuy : String := "futures_open_buy"
/-- The constant `model.Futures_OpenSell`. -/
def Futures_OpenSell : String := "futures_open_sell"
/-- The constant `model.LIMIT` (`OrderType_Limit`). -/
def LIMIT : String := "limit"
/-- The constant `model.MARKET` (`OrderType_Market`). -/
def MARKET : String := "market"
/-- The constant `model.STOP`. -/
def STOP : String := "stop"
/-- The constant `model.STOP_MARKET`. -/
def STOP_MARKET : String := "stop_market"
/-- The constant `model.USDT`. -/
def USDT : String := "USDT"

/-- Mirror of `model.CurrencyPair`, with the fields the sources assign or read. -/
structure CurrencyPair where
  Symbol : String := ""
  BaseSymbol : String := ""
  QuoteSymbol : String := ""
  ContractAlias : String := ""
  PricePrecision : Int := 0
  QtyPrecision : Int := 0
  ContractDeliveryDate : Int := 0
  ContractVal : F64 := F64.zero
  ContractValCurrency : String := ""
  MinQty : F64 := F64.zero
  MaxQty : F64 := F64.zero
  deriving DecidableEq, Repr

/-- Mirror of `model.DepthItem`. -/
structure DepthItem where
  Price : F64
  Amount : F64
  deriving DecidableEq, Repr

/-- Mirror of `model.Depth`; `UTime` is the instant in nanoseconds since the epoch. -/
structure Depth where
  Pair : CurrencyPair
  UTime : Int
  Asks : List DepthItem
  Bids : List DepthItem
  deriving DecidableEq, Repr

/-- Mirror of `model.Ticker`. -/
structure Ticker where
  Pair : CurrencyPair
  Last : F64
  Buy : F64
  Sell : F64
  High : F64
  Low : F64
  Vol : F64
  Percent : F64
  Timestamp : Int
  deriving DecidableEq, Repr

/-- Mirror of `model.Kline`. -/
structure Kline where
  Pair : CurrencyPair
  Timestamp : Int
  Open : F64
  Close : F64
  High : F64
  Low : F64
  Vol : F64
  deriving DecidableEq, Repr

/-- Mirror of `model.Trade` (`model/trade.go`). -/
structure Trade where
  Pair : CurrencyPair
  Tid : String
  Price : F64
  Amount : F64
  Direction : String
  Timestamp : Int
  deriving DecidableEq, Repr

/-- Mirror of `model.FundingRate`. -/
structure FundingRate where
  Symbol : String
  Rate : F64
  Tm : Int
  deriving DecidableEq, Repr

/-- Mirror of `model.Order`. -/
structure Order where
  Pair : CurrencyPair
  Id : String
  CId : String
  Price : F64
  Qty : F64
  ExecutedQty : F64
  PriceAvg : F64
  OrderTy : String
  Side : String
  Status : Int
  CreatedAt : Int
  deriving DecidableEq, Repr

/-- Mirror of `model.FuturesPosition`. -/
structure FuturesPosition where
  Pair : CurrencyPair
  Qty : F64
  AvgPx : F64
  Lever : F64
  UplRatio : F64
  Upl : F64
  PosSide : String
  AvailQty : F64 := F64.zero
  LiqPx : F64 := F64.zero
  deriving DecidableEq, Repr

/-- Mirror of `model.FuturesAccount`. -/
structure FuturesAccount where
  Coin : String
  Eq : F64
  AvailEq : F64
  FrozenBal : F64
  deriving DecidableEq, Repr

/-! ## Handlers, traces and panics -/

/-- A map from key to handler function; `none` as a value is the nil function. -/
abbrev Handlers := List (String × Option Nat)

/-- The test `handler, ok := m[key]; ok && handler != nil`. -/
def Handlers.find (m : Handlers) (key : String) : Option Nat :=
  match m.lookup key with
  | some (some h) => some h
  | _ => none

/-- Assignment `m[key] = v` on a Go map. -/
def mapSet {α : Type} (m : List (String × α)) (key : String) (v : α) : List (String × α) :=
  (key, v) :: m.filter (fun e => e.1 != key)

/-- Statement `delete(m, key)` on a Go map. -/
def mapDelete {α : Type} (m : List (String × α)) (key : String) : List (String × α) :=
  m.filter (fun e => e.1 != key)

/-- One invocation of a user handler: which handler, with which argument. -/
inductive Call where
  | depth (h : Nat) (d : Depth)
  | ticker (h : Nat) (t : Ticker)
  | kline (h : Nat) (ks : List Kline)
  | trade (h : Nat) (ts : List Trade)
  | fundingRate (h : Nat) (f : FundingRate)
  | order (h : Nat) (o : Order)
  | position (h : Nat) (ps : List FuturesPosition)
  | account (h : Nat) (m : List (String × FuturesAccount))
  deriving DecidableEq, Repr

/-- A run-time panic of the Go program. -/
inductive Panic where
  | typeAssertion
  | indexOutOfRange
  deriving DecidableEq, Repr

deriving instance DecidableEq for Except

/-- Index expression `xs[i]`, which panics when `i` is out of range. -/
def index {α : Type} (xs : List α) (i : Nat) : Except Panic α :=
  match xs.get? i with
  | some x => Except.ok x
  | none => Except.error Panic.indexOutOfRange

/-- An error value returned by the futures dispatcher. -/
inductive HandlerError where
  | decode (e : String)
  | exchange (code : F64) (msg : String)
  | invalidStream (stream : String)
  | unknownSymbol (symbol : String)
  deriving DecidableEq, Repr

/-- Invoke the handler found for `key`, if any, on the argument built by `mk`. -/
def invoke (m : Handlers) (key : String) (mk : Nat → Call) : List Call :=
  match m.find key with
  | some h => [mk h]
  | none => []

/-- Mirror of `fmt.Sprintf("%d", i)`. -/
def formatInt (i : Int) : String := toString i

/-! ## Locks and the transport: `websocket/default_websocket_client.go`

A call is run to its end by one goroutine.  `sync.RWMutex` is not reentrant: a goroutine
that requests a lock which is held parks, and the call is `blocked`.  In a run that starts
with every lock free, a held lock is held by the running call itself, which is parked, so
a `blocked` call never returns. -/

/-- State of a `sync.RWMutex`: whether a writer holds it, and the number of readers. -/
structure RWMutex where
  writer : Bool := false
  readers : Nat := 0
  deriving DecidableEq, Repr

/-- Method `Lock`: granted when nobody holds the mutex. -/
def RWMutex.lock (m : RWMutex) : Option RWMutex :=
  if m.writer = false ∧ m.readers = 0 then some { m with writer := true } else none

/-- Method `Unlock`. -/
def RWMutex.unlock (m : RWMutex) : RWMutex := { m with writer := false }

/-- Method `RLock`: granted when no writer holds the mutex. -/
def RWMutex.rlock (m : RWMutex) : Option RWMutex :=
  if m.writer = false then some { m with readers := m.readers + 1 } else none

/-- Method `RUnlock`. -/
def RWMutex.runlock (m : RWMutex) : RWMutex := { m with readers := m.readers - 1 }

/-- Result of running a call: it returns a value in a final state, it parks on a lock, or
it panics (closing a closed channel). -/
inductive Outcome (σ α : Type) where
  | returned (s : σ) (a : α)
  | blocked (s : σ)
  | panicked (s : σ)

/-- Mirror of `model.OptionParameter`. -/
structure OptionParameter where
  Key : String
  Value : String
  deriving DecidableEq, Repr

/-- The control message that a subscribe or unsubscribe call marshals and sends:
`{"method": ..., "params": [...], "id": ...}`. -/
structure ControlMessage where
  method : String
  params : List String
  id : String
  deriving DecidableEq, Repr

/-- What the transport does to the network and to its goroutines, in order. -/
inductive TransportEffect where
  | dial (url : String)
  | writeText (msg : ControlMessage)
  | setReadLimit
  | spawnReceiveMessages
  | spawnKeepAlive
  | writeClose
  | closeDone (generation : Nat)
  | closeConn
  | writePing
  deriving DecidableEq, Repr

/-- Mirror of `DefaultWebSocketClient`.  The callbacks are closures over the state `C` of
the exchange client that installed them; `conn` tells whether `c.conn` is non-nil and the
`done` channel is given by the number of `make` calls so far and whether it is closed. -/
structure DefaultWebSocketClient (C : Type) where
  conn : Bool := false
  url : String := ""
  mutex : RWMutex := {}
  connected : Bool := false
  errorHandler : Option (String → C → Outcome C Unit) := none
  connectedHandler : Option (C → Outcome C Unit) := none
  disconnectedHandler : Option (Option String → C → Outcome C Unit) := none
  subscriptions : List (String × List CurrencyPair) := []
  subscriptionsMutex : RWMutex := {}
  doneGeneration : Nat := 0
  doneClosed : Bool := false
  effects : List TransportEffect := []

/-- An exchange client together with the transport it drives. -/
structure World (C : Type) where
  client : C
  transport : DefaultWebSocketClient C

namespace DefaultWebSocketClient

/-- Mirror of `DefaultWebSocketClient.Subscribe`. -/
def Subscribe {C : Type} (c : DefaultWebSocketClient C) (channel : String)
    (pairs : List CurrencyPair) : Outcome (DefaultWebSocketClient C) (Option String) :=
  match c.mutex.rlock with
  | none => Outcome.blocked c
  | some m =>
    let c1 := { c with mutex := m.runlock }
    if c.connected = false then Outcome.returned c1 (some "not connected")
    else
      match c1.subscriptionsMutex.lock with
      | none => Outcome.blocked c1
      | some sm =>
        Outcome.returned
          { c1 with
            subscriptions := mapSet c1.subscriptions channel pairs,
            subscriptionsMutex := sm.unlock }
          (some "subscribe method should be implemented by specific exchange")

/-- The loop of `resubscribe` over the saved subscriptions. -/
def resubscribeLoop {C : Type} :
    List (String × List CurrencyPair) → DefaultWebSocketClient C →
      Outcome (DefaultWebSocketClient C) Unit
  | [], c => Outcome.returned c ()
  | (channel, pairs) :: rest, c =>
    match Subscribe c channel pairs with
    | Outcome.blocked c1 => Outcome.blocked c1
    | Outcome.panicked c1 => Outcome.panicked c1
    | Outcome.returned c1 _ => resubscribeLoop rest c1

/-- Mirror of `DefaultWebSocketClient.resubscribe`. -/
def resubscribe {C : Type} (c : DefaultWebSocketClient C) :
    Outcome (DefaultWebSocketClient C) Unit :=
  match c.subscriptionsMutex.rlock with
  | none => Outcome.blocked c
  | some sm =>
    match resubscribeLoop c.subscriptions { c with subscriptionsMutex := sm } with
    | Outcome.blocked c1 => Outcome.blocked c1
    | Outcome.panicked c1 => Outcome.panicked c1
    | Outcome.returned c1 _ =>
      Outcome.returned { c1 with subscriptionsMutex := c1.subscriptionsMutex.runlock } ()

/-- Mirror of `DefaultWebSocketClient.Connect`; `dialErr` is the error of `dialer.Dial`,
`none` when the dial succeeds. -/
def Connect {C : Type} (w : World C) (url : String) (dialErr : Option String) :
    Outcome (World C) (Option String) :=
  let c := w.transport
  match c.mutex.lock with
  | none => Outcome.blocked w
  | some m =>
    if c.connected then
      Outcome.returned { w with transport := { c with mutex := m.unlock } }
        (some "already connected")
    else
      let c1 := { c with mutex := m, url := url, effects := c.effects ++ [TransportEffect.dial url] }
      match dialErr with
      | some e =>
        Outcome.returned { w with transport := { c1 with mutex := c1.mutex.unlock } } (some e)
      | none =>
        let c2 :=
          { c1 with
            conn := true, connected := true,
            doneGeneration := c1.doneGeneration + 1, doneClosed := false,
            effects := c1.effects ++ [TransportEffect.setReadLimit,
              TransportEffect.spawnReceiveMessages, TransportEffect.spawnKeepAlive] }
        let afterHandler : Outcome C Unit :=
          match c2.connectedHandler with
          | some f => f w.client
          | none => Outcome.returned w.client ()
        match afterHandler with
        | Outcome.blocked cl => Outcome.blocked { client := cl, transport := c2 }
        | Outcome.panicked cl => Outcome.panicked { client := cl, transport := c2 }
        | Outcome.returned cl _ =>
          match resubscribe c2 with
          | Outcome.blocked c3 => Outcome.blocked { client := cl, transport := c3 }
          | Outcome.panicked c3 => Outcome.panicked { client := cl, transport := c3 }
          | Outcome.returned c3 _ =>
            Outcome.returned { client := cl, transport := { c3 with mutex := c3.mutex.unlock } }
              none

/-- Mirror of `DefaultWebSocketClient.Close`; `closeErr` is the result of `c.conn.Close()`.
Closing the `done` channel panics when it is closed already. -/
def Close {C : Type} (w : World C) (closeErr : Option String) :
    Outcome (World C) (Option String) :=
  let c := w.transport
  match c.mutex.lock with
  | none => Outcome.blocked w
  | some m =>
    if c.connected = false then
      Outcome.returned { w with transport := { c with mutex := m.unlock } }
        (some "not connected")
    else if c.doneClosed then
      Outcome.panicked
        { w with transport :=
            { c with mutex := m.unlock, effects := c.effects ++ [TransportEffect.writeClose] } }
    else
      Outcome.returned
        { w with transport :=
            { c with
              mutex := m.unlock, doneClosed := true, connected := false,
              effects := c.effects ++ [TransportEffect.writeClose,
                TransportEffect.closeDone c.doneGeneration, TransportEffect.closeConn] } }
        closeErr

/-- Mirror of `DefaultWebSocketClient.SendMessage`; `writeErr` is the result of the write. -/
def SendMessage {C : Type} (w : World C) (message : ControlMessage) (writeErr : Option String) :
    Outcome (World C) (Option String) :=
  let c := w.transport
  match c.mutex.rlock with
  | none => Outcome.blocked w
  | some m =>
    if c.connected = false then
      Outcome.returned { w with transport := { c with mutex := m.runlock } }
        (some "not connected")
    else
      Outcome.returned
        { w with transport :=
            { c with mutex := m.runlock,
                     effects := c.effects ++ [TransportEffect.writeText message] } }
        writeErr

/-- Mirror of `DefaultWebSocketClient.IsConnected`. -/
def IsConnected {C : Type} (c : DefaultWebSocketClient C) : Outcome (DefaultWebSocketClient C) Bool :=
  match c.mutex.rlock with
  | none => Outcome.blocked c
  | some m => Outcome.returned { c with mutex := m.runlock } c.connected

/-- Run a callback of the transport on the client, if one is installed. -/
def runCallback {C : Type} (handler : Option (C → Outcome C Unit)) (client : C) : Outcome C Unit :=
  match handler with
  | some f => f client
  | none => Outcome.returned client ()

/-- The deferred function of `receiveMessages`, run when the receive loop returns: the flag
is cleared under `c.mutex`, the socket is closed, the `done` channel is closed (a panic when
it is closed already) and the disconnected handler is invoked with `connection closed`. -/
def receiveExit {C : Type} (w : World C) : Outcome (World C) Unit :=
  let c := w.transport
  match c.mutex.lock with
  | none => Outcome.blocked w
  | some m =>
    let c1 := { c with connected := false, mutex := m.unlock }
    let c2 := if c1.conn then { c1 with effects := c1.effects ++ [TransportEffect.closeConn] } else c1
    if c2.doneClosed then Outcome.panicked { w with transport := c2 }
    else
      let c3 :=
        { c2 with doneClosed := true,
                  effects := c2.effects ++ [TransportEffect.closeDone c2.doneGeneration] }
      match runCallback (c3.disconnectedHandler.map (fun f => f (some "connection closed")))
          w.client with
      | Outcome.blocked cl => Outcome.blocked { client := cl, transport := c3 }
      | Outcome.panicked cl => Outcome.panicked { client := cl, transport := c3 }
      | Outcome.returned cl _ => Outcome.returned { client := cl, transport := c3 } ()

/-- The receive loop at a failing read: the error handler is invoked with the error, the
loop returns and the deferred function runs. -/
def receiveFailure {C : Type} (w : World C) (err : String) : Outcome (World C) Unit :=
  match runCallback (w.transport.errorHandler.map (fun f => f err)) w.client with
  | Outcome.blocked cl => Outcome.blocked { w with client := cl }
  | Outcome.panicked cl => Outcome.panicked { w with client := cl }
  | Outcome.returned cl _ => receiveExit { w with client := cl }

/-- One tick of `keepAlive`; `writeErr` is the result of the ping write.  The value tells
whether the heartbeat goes on: it returns when the client is not connected and, after
invoking the error handler, when the write fails. -/
def keepAliveTick {C : Type} (w : World C) (writeErr : Option String) :
    Outcome (World C) Bool :=
  let c := w.transport
  match c.mutex.rlock with
  | none => Outcome.blocked w
  | some m =>
    if c.connected = false then
      Outcome.returned { w with transport := { c with mutex := m.runlock } } false
    else
      let c1 := { c with mutex := m.runlock, effects := c.effects ++ [TransportEffect.writePing] }
      match writeErr with
      | none => Outcome.returned { w with transport := c1 } true
      | some err =>
        match runCallback (c1.errorHandler.map (fun f => f err)) w.client with
        | Outcome.blocked cl => Outcome.blocked { client := cl, transport := c1 }
        | Outcome.panicked cl => Outcome.panicked { client := cl, transport := c1 }
        | Outcome.returned cl _ => Outcome.returned { client := cl, transport := c1 } false

end DefaultWebSocketClient

/-- What an exchange client does besides driving the transport: requests to the REST
collaborator (exchange info, mint and renewal of the session key), log lines of its
callbacks, invocations of the user callbacks, and the start of the renewal goroutine. -/
inductive ClientEvent where
  | exchangeInfoRequest
  | logConnected
  | logDisconnected (err : Option String)
  | logError (err : String)
  | userConnected (h : Nat)
  | userDisconnected (h : Nat) (err : Option String)
  | userError (h : Nat) (err : String)
  | mintRequest
  | renewRequest
  | spawnKeepAliveListenKey
  deriving DecidableEq, Repr

/-! ## The futures client: `binance/futures/fapi` -/

namespace Futures

/-- Mirror of `WebSocketBase`.  The transport `ws.ws` is the other component of the `World`;
a user callback is a number or nil; `listenKeyExpireTime` is an instant in nanoseconds;
`events` records what the client did. -/
structure WebSocketBase where
  name : String := "binance.com"
  baseURL : String := "wss://fstream.binance.com/ws"
  connected : Bool := false
  mutex : RWMutex := {}
  errorHandler : Option Nat := none
  connectedHandler : Option Nat := none
  disconnectedHandler : Option Nat := none
  apiKey : String := ""
  apiSecret : String := ""
  listenKey : String := ""
  listenKeyExpireTime : Int := 0
  events : List ClientEvent := []
  depthHandlers : Handlers := []
  tickerHandlers : Handlers := []
  klineHandlers : Handlers := []
  tradeHandlers : Handlers := []
  fundingRateHandlers : Handlers := []
  positionHandlers : Handlers := []
  accountHandlers : Handlers := []
  orderHandlers : Handlers := []
  currencyPairM : List (String × CurrencyPair) := []

/-- Mirror of `reverseAdaptKlinePeriod` (`websocket.go`). -/
def reverseAdaptKlinePeriod (interval : String) : KlinePeriod :=
  if interval = "1m" then Kline_1min
  else if interval = "3m" then KLINE_PERIOD_3MIN
  else if interval = "5m" then Kline_5min
  else if interval = "15m" then Kline_15min
  else if interval = "30m" then Kline_30min
  else if interval = "1h" then Kline_1h
  else if interval = "2h" then KLINE_PERIOD_2H
  else if interval = "4h" then Kline_4h
  else if interval = "6h" then Kline_6h
  else if interval = "8h" then KLINE_PERIOD_8H
  else if interval = "12h" then KLINE_PERIOD_12H
  else if interval = "1d" then Kline_1day
  else if interval = "3d" then KLINE_PERIOD_3DAY
  else if interval = "1w" then Kline_1week
  else if interval = "1M" then KLINE_PERIOD_1MONTH
  else interval

/-- Mirror of `adaptKlinePeriod` (`websocket_subscribe.go`). -/
def adaptKlinePeriod (period : KlinePeriod) : String :=
  if period = Kline_1min then "1m"
  else if period = KLINE_PERIOD_3MIN then "3m"
  else if period = Kline_5min then "5m"
  else if period = Kline_15min then "15m"
  else if period = Kline_30min then "30m"
  else if period = Kline_1h then "1h"
  else if period = KLINE_PERIOD_2H then "2h"
  else if period = Kline_4h then "4h"
  else if period = Kline_6h then "6h"
  else if period = KLINE_PERIOD_8H then "8h"
  else if period = KLINE_PERIOD_12H then "12h"
  else if period = Kline_1day then "1d"
  else if period = KLINE_PERIOD_3DAY then "3d"
  else if period = Kline_1week then "1w"
  else if period = KLINE_PERIOD_1MONTH then "1M"
  else period

/-- One iteration of the level loops of `handleDepthUpdateMessage`: an item that is not an
array, or is shorter than two, is skipped. -/
def depthLevel (item : JSON) : Except Panic (Option DepthItem) :=
  match asArray (some item) with
  | none => Except.ok none
  | some bid =>
    if bid.length < 2 then Except.ok none
    else do
      let p ← index bid 0
      let a ← index bid 1
      pure (some ⟨(ToFloat64 (some p)).1, (ToFloat64 (some a)).1⟩)

/-- The level loops of `handleDepthUpdateMessage`, in input order. -/
def depthLevels : List JSON → Except Panic (List DepthItem)
  | [] => Except.ok []
  | item :: rest => do
    let l ← depthLevel item
    let ls ← depthLevels rest
    pure (l.toList ++ ls)

/-- Mirror of `handleDepthUpdateMessage`: the returned error and the handler calls. -/
def handleDepthUpdateMessage (ws : WebSocketBase) (msg : JObj) :
    Except Panic (Option HandlerError × List Call) :=
  let symbol := (asString (msg.get "s")).getD ""
  let eventTime := (asFloat64 (msg.get "E")).getD F64.zero
  let bidsData := (asArray (msg.get "b")).getD []
  let asksData := (asArray (msg.get "a")).getD []
  match ws.currencyPairM.lookup symbol with
  | none => Except.ok (some (HandlerError.unknownSymbol symbol), [])
  | some pair => do
    let bids ← depthLevels bidsData
    let asks ← depthLevels asksData
    let depth : Depth :=
      { Pair := pair, UTime := wrapInt64 (float64ToInt64 eventTime * 1000000),
        Asks := asks, Bids := bids }
    pure (none, invoke ws.depthHandlers (ToLower symbol) (fun h => Call.depth h depth))

/-- The order-type switch of `handleOrderUpdateMessage`. -/
def orderTypeOf (orderType : String) : String :=
  if orderType = "LIMIT" then LIMIT
  else if orderType = "MARKET" then MARKET
  else if orderType = "STOP" then STOP
  else if orderType = "STOP_MARKET" then STOP_MARKET
  else LIMIT

/-- The status switch of `handleOrderUpdateMessage`. -/
def orderStatusOf (status : String) : Int :=
  if status = "NEW" then ORDER_UNFINISH
  else if status = "PARTIALLY_FILLED" then ORDER_PART_FINISH
  else if status = "FILLED" then ORDER_FINISH
  else if status = "CANCELED" then ORDER_CANCEL
  else if status = "REJECTED" then ORDER_REJECT
  else if status = "EXPIRED" then ORDER_CANCEL
  else ORDER_UNFINISH

/-- Mirror of `handleOrderUpdateMessage`. -/
def handleOrderUpdateMessage (ws : WebSocketBase) (msg : JObj) : Except Panic (List Call) :=
  match asObject (msg.get "o") with
  | none => Except.ok []
  | some data =>
    let symbol := (asString (data.get "s")).getD ""
    match ws.currencyPairM.lookup symbol with
    | none => Except.ok []
    | some pair =>
      let side := (asString (data.get "S")).getD ""
      let order : Order :=
        { Pair := pair,
          CId := (asString (data.get "c")).getD "",
          Id := formatInt (ToInt64 (data.get "i")).1,
          Price := (ToFloat64 (data.get "p")).1,
          Qty := (ToFloat64 (data.get "q")).1,
          ExecutedQty := (ToFloat64 (data.get "z")).1,
          PriceAvg := (ToFloat64 (data.get "ap")).1,
          OrderTy := orderTypeOf ((asString (data.get "o")).getD ""),
          Side := if side = "BUY" then BUY else SELL,
          Status := orderStatusOf ((asString (data.get "X")).getD ""),
          CreatedAt := (ToInt64 (data.get "T")).1 }
      Except.ok (invoke ws.orderHandlers "order" (fun h => Call.order h order))

/-- One iteration of the position loop of `handleAccountUpdateMessage`. -/
def positionOf (ws : WebSocketBase) (p : JSON) : Option FuturesPosition :=
  match asObject (some p) with
  | none => none
  | some pos =>
    let symbol := (asString (pos.get "s")).getD ""
    match ws.currencyPairM.lookup symbol with
    | none => none
    | some pair =>
      let side := (asString (pos.get "ps")).getD ""
      some
        { Pair := pair,
          Qty := (ToFloat64 (pos.get "pa")).1,
          AvgPx := (ToFloat64 (pos.get "ep")).1,
          Lever := F64.ofInt (ToInt (pos.get "pa")).1,
          UplRatio := (ToFloat64 (pos.get "up")).1,
          Upl := (ToFloat64 (pos.get "up")).1,
          PosSide := if side = "LONG" then BUY else SELL }

/-- One iteration of the balance loop of `handleAccountUpdateMessage`. -/
def balanceInto (accountMap : List (String × FuturesAccount)) (b : JSON) :
    List (String × FuturesAccount) :=
  match asObject (some b) with
  | none => accountMap
  | some bal =>
    let asset := (asString (bal.get "a")).getD ""
    let eq := (ToFloat64 (bal.get "wb")).1
    let availEq := (ToFloat64 (bal.get "cw")).1
    mapSet accountMap asset
      { Coin := asset, Eq := eq, AvailEq := availEq, FrozenBal := F64.sub eq availEq }

/-- Mirror of `handleAccountUpdateMessage`. -/
def handleAccountUpdateMessage (ws : WebSocketBase) (msg : JObj) : Except Panic (List Call) :=
  match asObject (msg.get "a") with
  | none => Except.ok []
  | some data =>
    let positionCalls : List Call :=
      match asArray (data.get "P") with
      | none => []
      | some positions =>
        if 0 < positions.length then
          let positionList := positions.filterMap (positionOf ws)
          match ws.positionHandlers.find "position" with
          | some h => if 0 < positionList.length then [Call.position h positionList] else []
          | none => []
        else []
    let accountCalls : List Call :=
      match asArray (data.get "B") with
      | none => []
      | some balances =>
        if 0 < balances.length then
          let accountMap := balances.foldl balanceInto []
          match ws.accountHandlers.find "account" with
          | some h => if 0 < accountMap.length then [Call.account h accountMap] else []
          | none => []
        else []
    Except.ok (positionCalls ++ accountCalls)

/-- Fields of the anonymous struct of `handleTradeMessage`. -/
def tradeSchema : List (String × FieldTy) :=
  [("e", FieldTy.scalar ScalarTy.string), ("E", FieldTy.scalar ScalarTy.int64),
   ("s", FieldTy.scalar ScalarTy.string), ("a", FieldTy.scalar ScalarTy.int64),
   ("p", FieldTy.scalar ScalarTy.string), ("q", FieldTy.scalar ScalarTy.string),
   ("f", FieldTy.scalar ScalarTy.int64), ("l", FieldTy.scalar ScalarTy.int64),
   ("T", FieldTy.scalar ScalarTy.int64), ("m", FieldTy.scalar ScalarTy.bool)]

/-- Mirror of `handleTradeMessage`: the returned error and the handler calls. -/
def handleTradeMessage (ws : WebSocketBase) (symbol : String) (data : JObj) :
    Except Panic (Option HandlerError × List Call) :=
  match unmarshalStruct tradeSchema (some (JSON.obj data)) with
  | none => Except.ok (some (HandlerError.decode "trade"), [])
  | some tradeData =>
    match ws.currencyPairM.lookup (tradeData.str "s") with
    | none => Except.ok (some (HandlerError.unknownSymbol (tradeData.str "s")), [])
    | some pair =>
      let trade : Trade :=
        { Pair := pair,
          Tid := formatInt (tradeData.int "a"),
          Price := (ToFloat64Str (tradeData.str "p")).1,
          Amount := (ToFloat64Str (tradeData.str "q")).1,
          Timestamp := tradeData.int "T",
          Direction := if tradeData.bool "m" then SELL else BUY }
      Except.ok (none, invoke ws.tradeHandlers (ToLower symbol) (fun h => Call.trade h [trade]))

/-- Mirror of `handleTradeUpdateMessage`. -/
def handleTradeUpdateMessage (ws : WebSocketBase) (msg : JObj) : Except Panic (List Call) :=
  let symbol := (asString (msg.get "s")).getD ""
  let aggTradeID := (ToInt64 (msg.get "a")).1
  let price := (ToFloat64 (msg.get "p")).1
  let quantity := (ToFloat64 (msg.get "q")).1
  let tradeTime := (ToInt64 (msg.get "T")).1
  let isBuyerMaker := (asBool (msg.get "m")).getD false
  match ws.currencyPairM.lookup symbol with
  | none => Except.ok []
  | some pair =>
    let trade : Trade :=
      { Pair := pair, Tid := formatInt aggTradeID, Price := price, Amount := quantity,
        Timestamp := tradeTime, Direction := if isBuyerMaker then SELL else BUY }
    Except.ok (invoke ws.tradeHandlers (ToLower symbol) (fun h => Call.trade h [trade]))

/-- Fields of the anonymous struct of `handleFundingRateMessage`. -/
def fundingRateSchema : List (String × FieldTy) :=
  [("e", FieldTy.scalar ScalarTy.string), ("E", FieldTy.scalar ScalarTy.int64),
   ("s", FieldTy.scalar ScalarTy.string), ("p", FieldTy.scalar ScalarTy.string),
   ("i", FieldTy.scalar ScalarTy.string), ("P", FieldTy.scalar ScalarTy.string),
   ("r", FieldTy.scalar ScalarTy.string), ("T", FieldTy.scalar ScalarTy.int64)]

/-- Mirror of `handleFundingRateMessage`. -/
def handleFundingRateMessage (ws : WebSocketBase) (symbol : String) (data : JObj) :
    Except Panic (List Call) :=
  match unmarshalStruct fundingRateSchema (some (JSON.obj data)) with
  | none => Except.ok []
  | some fundingRateData =>
    match ws.currencyPairM.lookup (fundingRateData.str "s") with
    | none => Except.ok []
    | some pair =>
      let fundingRate : FundingRate :=
        { Symbol := pair.Symbol,
          Rate := (ToFloat64Str (fundingRateData.str "r")).1,
          Tm := fundingRateData.int "E" }
      Except.ok
        (invoke ws.fundingRateHandlers (ToLower symbol) (fun h => Call.fundingRate h fundingRate))

/-- Mirror of `handleFundingRateUpdateMessage`. -/
def handleFundingRateUpdateMessage (ws : WebSocketBase) (msg : JObj) :
    Except Panic (List Call) :=
  let symbol := (asString (msg.get "s")).getD ""
  let eventTime := (ToInt64 (msg.get "E")).1
  let fundingRate := (ToFloat64 (msg.get "r")).1
  match ws.currencyPairM.lookup symbol with
  | none => Except.ok []
  | some pair =>
    let fr : FundingRate := { Symbol := pair.Symbol, Rate := fundingRate, Tm := eventTime }
    Except.ok (invoke ws.fundingRateHandlers (ToLower symbol) (fun h => Call.fundingRate h fr))

/-- Fields of the anonymous struct of `handleTickerMessage`. -/
def tickerSchema : List (String × FieldTy) :=
  [("s", FieldTy.scalar ScalarTy.string), ("p", FieldTy.scalar ScalarTy.string),
   ("P", FieldTy.scalar ScalarTy.string), ("w", FieldTy.scalar ScalarTy.string),
   ("c", FieldTy.scalar ScalarTy.string), ("Q", FieldTy.scalar ScalarTy.string),
   ("b", FieldTy.scalar ScalarTy.string), ("B", FieldTy.scalar ScalarTy.string),
   ("a", FieldTy.scalar ScalarTy.string), ("A", FieldTy.scalar ScalarTy.string),
   ("o", FieldTy.scalar ScalarTy.string), ("h", FieldTy.scalar ScalarTy.string),
   ("l", FieldTy.scalar ScalarTy.string), ("v", FieldTy.scalar ScalarTy.string),
   ("q", FieldTy.scalar ScalarTy.string), ("O", FieldTy.scalar ScalarTy.int64),
   ("C", FieldTy.scalar ScalarTy.int64), ("F", FieldTy.scalar ScalarTy.int64),
   ("L", FieldTy.scalar ScalarTy.int64), ("n", FieldTy.scalar ScalarTy.int64)]

/-- Mirror of `handleTickerMessage`. -/
def handleTickerMessage (ws : WebSocketBase) (symbol : String) (data : JObj) :
    Except Panic (List Call) :=
  match unmarshalStruct tickerSchema (some (JSON.obj data)) with
  | none => Except.ok []
  | some tickerData =>
    match ws.currencyPairM.lookup (tickerData.str "s") with
    | none => Except.ok []
    | some pair =>
      let ticker : Ticker :=
        { Pair := pair,
          Last := (ToFloat64Str (tickerData.str "c")).1,
          Buy := (ToFloat64Str (tickerData.str "b")).1,
          Sell := (ToFloat64Str (tickerData.str "a")).1,
          High := (ToFloat64Str (tickerData.str "h")).1,
          Low := (ToFloat64Str (tickerData.str "l")).1,
          Vol := (ToFloat64Str (tickerData.str "v")).1,
          Percent := (ToFloat64Str (tickerData.str "P")).1,
          Timestamp := tickerData.int "C" }
      Except.ok (invoke ws.tickerHandlers (ToLower symbol) (fun h => Call.ticker h ticker))

/-- Mirror of `handleTickerUpdateMessage`. -/
def handleTickerUpdateMessage (ws : WebSocketBase) (msg : JObj) : Except Panic (List Call) :=
  let symbol := (asString (msg.get "s")).getD ""
  match ws.currencyPairM.lookup symbol with
  | none => Except.ok []
  | some pair =>
    let ticker : Ticker :=
      { Pair := pair,
        Last := (ToFloat64 (msg.get "c")).1,
        Buy := (ToFloat64 (msg.get "b")).1,
        Sell := (ToFloat64 (msg.get "a")).1,
        High := (ToFloat64 (msg.get "h")).1,
        Low := (ToFloat64 (msg.get "l")).1,
        Vol := (ToFloat64 (msg.get "v")).1,
        Percent := (ToFloat64 (msg.get "P")).1,
        Timestamp := (ToInt64 (msg.get "C")).1 }
    Except.ok (invoke ws.tickerHandlers (ToLower symbol) (fun h => Call.ticker h ticker))

/-- Fields of the inner struct `k` of `handleKlineMessage`. -/
def klineInnerSchema : Schema :=
  [("t", ScalarTy.int64), ("T", ScalarTy.int64), ("s", ScalarTy.string),
   ("i", ScalarTy.string), ("f", ScalarTy.int64), ("L", ScalarTy.int64),
   ("o", ScalarTy.string), ("c", ScalarTy.string), ("h", ScalarTy.string),
   ("l", ScalarTy.string), ("v", ScalarTy.string), ("n", ScalarTy.int64),
   ("x", ScalarTy.bool), ("q", ScalarTy.string), ("V", ScalarTy.string),
   ("Q", ScalarTy.string)]

/-- Fields of the anonymous struct of `handleKlineMessage`. -/
def klineSchema : List (String × FieldTy) :=
  [("s", FieldTy.scalar ScalarTy.string), ("k", FieldTy.nested klineInnerSchema),
   ("E", FieldTy.scalar ScalarTy.int64)]

/-- Mirror of `handleKlineMessage`. -/
def handleKlineMessage (ws : WebSocketBase) (symbol streamType : String) (data : JObj) :
    Except Panic (List Call) :=
  match unmarshalStruct klineSchema (some (JSON.obj data)) with
  | none => Except.ok []
  | some klineData =>
    let parts := Split streamType '_'
    if parts.length < 2 then Except.ok []
    else do
      let interval ← index parts 1
      let period := reverseAdaptKlinePeriod interval
      match ws.currencyPairM.lookup (klineData.str "s") with
      | none => pure []
      | some pair =>
        let k := klineData.nested "k"
        let kline : Kline :=
          { Pair := pair,
            Timestamp := nestedInt k "t",
            Open := (ToFloat64Str (nestedStr k "o")).1,
            Close := (ToFloat64Str (nestedStr k "c")).1,
            High := (ToFloat64Str (nestedStr k "h")).1,
            Low := (ToFloat64Str (nestedStr k "l")).1,
            Vol := (ToFloat64Str (nestedStr k "v")).1 }
        pure (invoke ws.klineHandlers (ToLower symbol ++ "_" ++ period)
          (fun h => Call.kline h [kline]))

/-- Mirror of `handleKlineUpdateMessage`. -/
def handleKlineUpdateMessage (ws : WebSocketBase) (msg : JObj) : Except Panic (List Call) :=
  let symbol := (asString (msg.get "s")).getD ""
  match asObject (msg.get "k") with
  | none => Except.ok []
  | some kData =>
    let interval := (asString (kData.get "i")).getD ""
    let period := reverseAdaptKlinePeriod interval
    match ws.currencyPairM.lookup symbol with
    | none => Except.ok []
    | some pair =>
      let kline : Kline :=
        { Pair := pair,
          Timestamp := (ToInt64 (kData.get "t")).1,
          Open := (ToFloat64 (kData.get "o")).1,
          Close := (ToFloat64 (kData.get "c")).1,
          High := (ToFloat64 (kData.get "h")).1,
          Low := (ToFloat64 (kData.get "l")).1,
          Vol := (ToFloat64 (kData.get "v")).1 }
      Except.ok (invoke ws.klineHandlers (ToLower symbol ++ "_" ++ period)
        (fun h => Call.kline h [kline]))

/-- Drop the error of a handler whose result the dispatcher ignores. -/
def ignoreError (r : Except Panic (Option HandlerError × List Call)) :
    Except Panic (Option HandlerError × List Call) :=
  r.map (fun x => (none, x.2))

/-- Attach the nil error to the calls of a handler without result. -/
def noError (r : Except Panic (List Call)) : Except Panic (Option HandlerError × List Call) :=
  r.map (fun cs => (none, cs))

/-- Mirror of `handleMessage`, applied to the outcome of `json.Unmarshal(msg, &data)`:
the returned error and the handler calls, or a panic. -/
def handleMessage (ws : WebSocketBase) (decoded : Except String JObj) :
    Except Panic (Option HandlerError × List Call) :=
  match decoded with
  | Except.error e => Except.ok (some (HandlerError.decode e), [])
  | Except.ok data =>
    match asFloat64 (data.get "code") with
    | some code =>
      Except.ok (some (HandlerError.exchange code ((asString (data.get "msg")).getD "")), [])
    | none =>
      match asString (data.get "stream") with
      | some stream =>
        let parts := Split stream '@'
        if parts.length < 2 then Except.ok (some (HandlerError.invalidStream stream), [])
        else do
          let symbol ← index parts 0
          let streamType ← index parts 1
          let payload := (asObject (data.get "data")).getD []
          if HasPrefix streamType "depth" then handleDepthUpdateMessage ws payload
          else if streamType = "ticker" then noError (handleTickerMessage ws symbol payload)
          else if HasPrefix streamType "kline" then
            noError (handleKlineMessage ws symbol streamType payload)
          else if streamType = "trade" then ignoreError (handleTradeMessage ws symbol payload)
          else if streamType = "markPrice" then
            noError (handleFundingRateMessage ws symbol payload)
          else pure (none, [])
      | none =>
        match asString (data.get "e") with
        | some e =>
          if e = "ORDER_TRADE_UPDATE" then noError (handleOrderUpdateMessage ws data)
          else if e = "ACCOUNT_UPDATE" then noError (handleAccountUpdateMessage ws data)
          else if e = "depthUpdate" then ignoreError (handleDepthUpdateMessage ws data)
          else if e = "24hrTicker" then noError (handleTickerUpdateMessage ws data)
          else if e = "kline" then noError (handleKlineUpdateMessage ws data)
          else if e = "aggTrade" then noError (handleTradeUpdateMessage ws data)
          else if e = "markPriceUpdate" then noError (handleFundingRateUpdateMessage ws data)
          else Except.ok (none, [])
        | none => Except.ok (none, [])

/-- The error handler that `NewWebSocketBase` installs on the transport. -/
def onError (err : String) (ws : WebSocketBase) : Outcome WebSocketBase Unit :=
  let ws1 := { ws with events := ws.events ++ [ClientEvent.logError err] }
  match ws1.errorHandler with
  | some h => Outcome.returned { ws1 with events := ws1.events ++ [ClientEvent.userError h err] } ()
  | none => Outcome.returned ws1 ()

/-- The connected handler that `NewWebSocketBase` installs on the transport: it takes
`ws.mutex` to set the flag. -/
def onConnected (ws : WebSocketBase) : Outcome WebSocketBase Unit :=
  match ws.mutex.lock with
  | none => Outcome.blocked ws
  | some m =>
    let ws1 :=
      { ws with connected := true, mutex := m.unlock,
                events := ws.events ++ [ClientEvent.logConnected] }
    match ws1.connectedHandler with
    | some h => Outcome.returned { ws1 with events := ws1.events ++ [ClientEvent.userConnected h] } ()
    | none => Outcome.returned ws1 ()

/-- The disconnected handler that `NewWebSocketBase` installs on the transport. -/
def onDisconnected (err : Option String) (ws : WebSocketBase) : Outcome WebSocketBase Unit :=
  match ws.mutex.lock with
  | none => Outcome.blocked ws
  | some m =>
    let ws1 :=
      { ws with connected := false, mutex := m.unlock,
                events := ws.events ++ [ClientEvent.logDisconnected err] }
    match ws1.disconnectedHandler with
    | some h =>
      Outcome.returned { ws1 with events := ws1.events ++ [ClientEvent.userDisconnected h err] } ()
    | none => Outcome.returned ws1 ()

/-- Mirror of `NewWebSocketBase`: a fresh client and the transport with its callbacks. -/
def NewWebSocketBase (apiKey apiSecret : String) : World WebSocketBase :=
  { client := { apiKey := apiKey, apiSecret := apiSecret },
    transport :=
      { errorHandler := some onError, connectedHandler := some onConnected,
        disconnectedHandler := some onDisconnected } }

/-- Mirror of `WebSocketBase.Connect`; `exchangeInfo` is the result of `GetExchangeInfo`
and `dialErr` the error of the dial, `none` when it succeeds. -/
def Connect (w : World WebSocketBase) (exchangeInfo : Except String (List (String × CurrencyPair)))
    (dialErr : Option String) : Outcome (World WebSocketBase) (Option String) :=
  let ws := w.client
  match ws.mutex.lock with
  | none => Outcome.blocked w
  | some m =>
    if ws.connected then
      Outcome.returned { w with client := { ws with mutex := m.unlock } }
        (some "already connected")
    else
      let ws1 := { ws with mutex := m, events := ws.events ++ [ClientEvent.exchangeInfoRequest] }
      match exchangeInfo with
      | Except.error e =>
        Outcome.returned { w with client := { ws1 with mutex := ws1.mutex.unlock } }
          (some ("failed to get exchange info: " ++ e))
      | Except.ok currencyPairM =>
        let ws2 := { ws1 with currencyPairM := currencyPairM }
        match DefaultWebSocketClient.Connect { w with client := ws2 } ws2.baseURL dialErr with
        | Outcome.blocked w1 => Outcome.blocked w1
        | Outcome.panicked w1 => Outcome.panicked w1
        | Outcome.returned w1 r =>
          Outcome.returned
            { w1 with client := { w1.client with mutex := w1.client.mutex.unlock } } r

/-- Mirror of `WebSocketBase.Close`; `closeErr` is the result of closing the socket. -/
def Close (w : World WebSocketBase) (closeErr : Option String) :
    Outcome (World WebSocketBase) (Option String) :=
  let ws := w.client
  match ws.mutex.lock with
  | none => Outcome.blocked w
  | some m =>
    if ws.connected = false then
      Outcome.returned { w with client := { ws with mutex := m.unlock } } (some "not connected")
    else
      match DefaultWebSocketClient.Close { w with client := { ws with mutex := m } } closeErr with
      | Outcome.blocked w1 => Outcome.blocked w1
      | Outcome.panicked w1 => Outcome.panicked w1
      | Outcome.returned w1 r =>
        Outcome.returned
          { w1 with client := { w1.client with mutex := w1.client.mutex.unlock } } r

/-- Mirror of `WebSocketBase.IsConnected`. -/
def IsConnected (ws : WebSocketBase) : Outcome WebSocketBase Bool :=
  match ws.mutex.rlock with
  | none => Outcome.blocked ws
  | some m => Outcome.returned { ws with mutex := m.runlock } ws.connected

/-- The loop of `SubscribeDepth` over the options: the last `speed` option wins. -/
def speedOf : List OptionParameter → String → String
  | [], speed => speed
  | opt :: rest, speed => speedOf rest (if opt.Key = "speed" then opt.Value else speed)

/-- The depth level that `SubscribeDepth` chooses for a size. -/
def depthLevelOf (size : Int) : String :=
  if size ≤ 5 then "5" else if size ≤ 10 then "10" else if size ≤ 20 then "20" else "20"

/-- The channel string that `SubscribeDepth` formats: `%s@depth%s@%s`. -/
def depthChannel (pair : CurrencyPair) (size : Int) (opts : List OptionParameter) : String :=
  ToLower pair.Symbol ++ "@depth" ++ depthLevelOf size ++ "@" ++ speedOf opts "100ms"

/-- The channel string that `SubscribeTicker` formats: `%s@ticker`. -/
def tickerChannel (pair : CurrencyPair) : String := ToLower pair.Symbol ++ "@ticker"

/-- The channel string that `SubscribeKline` formats: `%s@kline_%s`. -/
def klineChannel (pair : CurrencyPair) (period : KlinePeriod) : String :=
  ToLower pair.Symbol ++ "@kline_" ++ adaptKlinePeriod period

/-- The channel string that `SubscribeTrade` formats: `%s@aggTrade`. -/
def tradeChannel (pair : CurrencyPair) : String := ToLower pair.Symbol ++ "@aggTrade"

/-- The channel string that `SubscribeFundingRate` formats: `%s@markPrice`. -/
def fundingRateChannel (pair : CurrencyPair) : String := ToLower pair.Symbol ++ "@markPrice"

/-- The common body of the public `Subscribe*` methods: the connection test, the handler
assignment `register` under `ws.mutex`, and the send of a `SUBSCRIBE` message for `channel`.
`id` is the value of `util.GenerateOrderClientId(32)`. -/
def subscribe (w : World WebSocketBase) (register : WebSocketBase → WebSocketBase)
    (channel id : String) (writeErr : Option String) :
    Outcome (World WebSocketBase) (Option String) :=
  match IsConnected w.client with
  | Outcome.blocked ws => Outcome.blocked { w with client := ws }
  | Outcome.panicked ws => Outcome.panicked { w with client := ws }
  | Outcome.returned ws false => Outcome.returned { w with client := ws } (some "not connected")
  | Outcome.returned ws true =>
    match ws.mutex.lock with
    | none => Outcome.blocked { w with client := ws }
    | some m =>
      let ws1 := register { ws with mutex := m }
      DefaultWebSocketClient.SendMessage { w with client := { ws1 with mutex := ws1.mutex.unlock } }
        { method := "SUBSCRIBE", params := [channel], id := id } writeErr

/-- Mirror of `WebSocketBase.SubscribeDepth`. -/
def SubscribeDepth (w : World WebSocketBase) (pair : CurrencyPair) (size : Int)
    (handler : Option Nat) (opts : List OptionParameter) (id : String)
    (writeErr : Option String) : Outcome (World WebSocketBase) (Option String) :=
  subscribe w
    (fun ws => { ws with depthHandlers := mapSet ws.depthHandlers (ToLower pair.Symbol) handler })
    (depthChannel pair size opts) id writeErr

/-- Mirror of `WebSocketBase.SubscribeTicker`. -/
def SubscribeTicker (w : World WebSocketBase) (pair : CurrencyPair) (handler : Option Nat)
    (id : String) (writeErr : Option String) : Outcome (World WebSocketBase) (Option String) :=
  subscribe w
    (fun ws => { ws with tickerHandlers := mapSet ws.tickerHandlers (ToLower pair.Symbol) handler })
    (tickerChannel pair) id writeErr

/-- Mirror of `WebSocketBase.SubscribeKline`. -/
def SubscribeKline (w : World WebSocketBase) (pair : CurrencyPair) (period : KlinePeriod)
    (handler : Option Nat) (id : String) (writeErr : Option String) :
    Outcome (World WebSocketBase) (Option String) :=
  subscribe w
    (fun ws =>
      { ws with
        klineHandlers := mapSet ws.klineHandlers (ToLower pair.Symbol ++ "_" ++ period) handler })
    (klineChannel pair period) id writeErr

/-- Mirror of `WebSocketBase.SubscribeTrade`. -/
def SubscribeTrade (w : World WebSocketBase) (pair : CurrencyPair) (handler : Option Nat)
    (id : String) (writeErr : Option String) : Outcome (World WebSocketBase) (Option String) :=
  subscribe w
    (fun ws => { ws with tradeHandlers := mapSet ws.tradeHandlers (ToLower pair.Symbol) handler })
    (tradeChannel pair) id writeErr

/-- Mirror of `WebSocketBase.SubscribeFundingRate`. -/
def SubscribeFundingRate (w : World WebSocketBase) (pair : CurrencyPair) (handler : Option Nat)
    (id : String) (writeErr : Option String) : Outcome (World WebSocketBase) (Option String) :=
  subscribe w
    (fun ws =>
      { ws with
        fundingRateHandlers := mapSet ws.fundingRateHandlers (ToLower pair.Symbol) handler })
    (fundingRateChannel pair) id writeErr

/-! ### The exchange-info listing: `unmarshaler.go` -/

/-- A JSON value as package `jsonparser` hands it to a callback: the bytes of the value
(for a string, the bytes between the quotes) and, for an array or object, its members. -/
inductive Raw where
  | string (content : String)
  | other (text : String)
  | array (text : String) (items : List Raw)
  | object (text : String) (fields : List (String × Raw))

/-- The bytes of a value, `string(val)`. -/
def Raw.text : Raw → String
  | Raw.string s => s
  | Raw.other t => t
  | Raw.array t _ => t
  | Raw.object t _ => t

/-- The conversions of package `cast` that the unmarshaler calls on the text of a value. -/
structure Cast where
  ToInt : String → Int
  ToInt64 : String → Int
  ToFloat64 : String → F64

/-- The conversions of package `cast` on decimal spellings; zero on a failure. -/
def decimalCast : Cast :=
  { ToInt := fun s => if (ParseInt s).2 then (ParseInt s).1 else 0,
    ToInt64 := fun s => if (ParseInt s).2 then (ParseInt s).1 else 0,
    ToFloat64 := fun s => if (ParseFloat s).2 then (ParseFloat s).1 else F64.zero }

/-- Mirror of `jsonparser.GetString(data, key)` with the error dropped: the content of the
string under `key`, else the empty string. -/
def getString (data : Raw) (key : String) : String :=
  match data with
  | Raw.object _ fields =>
    match fields.lookup key with
    | some (Raw.string s) => s
    | _ => ""
  | _ => ""

/-- Mirror of `jsonparser.Get(data, key)` with the error dropped: the bytes of the value
under `key`, else no bytes. -/
def getBytes (data : Raw) (key : String) : String :=
  match data with
  | Raw.object _ fields =>
    match fields.lookup key with
    | some v => v.text
    | none => ""
  | _ => ""

/-- The callback of the inner `ArrayEach` over `filters`. -/
def applyFilter (cast : Cast) (currencyPair : CurrencyPair) (filterData : Raw) : CurrencyPair :=
  if getString filterData "filterType" = "LOT_SIZE" then
    { currencyPair with
      MinQty := cast.ToFloat64 (getBytes filterData "minQty"),
      MaxQty := cast.ToFloat64 (getBytes filterData "maxQty") }
  else currencyPair

/-- The callback of `ObjectEach` over the members of one listing entry, in order.  A
`filters` member that is not an array makes the inner `ArrayEach` fail, and the error
returned by the callback ends the iteration. -/
def applyMembers (cast : Cast) : List (String × Raw) → CurrencyPair → CurrencyPair
  | [], currencyPair => currencyPair
  | (key, val) :: rest, currencyPair =>
    if key = "symbol" then applyMembers cast rest { currencyPair with Symbol := val.text }
    else if key = "baseAsset" then
      applyMembers cast rest { currencyPair with BaseSymbol := val.text }
    else if key = "quoteAsset" then
      applyMembers cast rest { currencyPair with QuoteSymbol := val.text }
    else if key = "contractType" then
      applyMembers cast rest { currencyPair with ContractAlias := val.text }
    else if key = "pricePrecision" then
      applyMembers cast rest { currencyPair with PricePrecision := cast.ToInt val.text }
    else if key = "quantityPrecision" then
      applyMembers cast rest { currencyPair with QtyPrecision := cast.ToInt val.text }
    else if key = "deliveryDate" then
      applyMembers cast rest { currencyPair with ContractDeliveryDate := cast.ToInt64 val.text }
    else if key = "filters" then
      match val with
      | Raw.array _ filters =>
        applyMembers cast rest (filters.foldl (applyFilter cast) currencyPair)
      | _ => currencyPair
    else applyMembers cast rest currencyPair

/-- The callback of the outer `ArrayEach`: one listing entry is decoded and stored under
the key `BaseSymbol + QuoteSymbol + ContractAlias`. -/
def addListing (cast : Cast) (currencyPairMap : List (String × CurrencyPair)) (value : Raw) :
    List (String × CurrencyPair) :=
  let start : CurrencyPair := { ContractVal := F64.ofInt 1, ContractValCurrency := USDT }
  let currencyPair :=
    match value with
    | Raw.object _ fields => applyMembers cast fields start
    | _ => start
  let k := currencyPair.BaseSymbol ++ currencyPair.QuoteSymbol ++ currencyPair.ContractAlias
  mapSet currencyPairMap k currencyPair

/-- Mirror of `UnmarshalGetExchangeInfoResponse` on a well-formed response document: the
map and the error of the `ArrayEach` over `symbols`. -/
def UnmarshalGetExchangeInfoResponse (cast : Cast) (data : Raw) :
    List (String × CurrencyPair) × Option String :=
  match data with
  | Raw.object _ fields =>
    match fields.lookup "symbols" with
    | some (Raw.array _ items) => (items.foldl (addListing cast) [], none)
    | some _ => ([], some "Value is not an array")
    | none => ([], some "Key path not found")
  | _ => ([], some "Key path not found")

/-- Mirror of `FApi.GetExchangeInfo`: `response` is the outcome of the HTTP request. -/
def GetExchangeInfo (cast : Cast) (response : Except String Raw) :
    Except String (List (String × CurrencyPair)) :=
  match response with
  | Except.error e => Except.error e
  | Except.ok data =>
    match UnmarshalGetExchangeInfoResponse cast data with
    | (_, some e) => Except.error e
    | (m, none) => Except.ok m

end Futures

/-! ## The spot client: `binance/spot` -/

namespace Spot

/-- Mirror of the spot `WebSocket`.  The transport `ws.ws` is the other component of the
`World`; a user callback is a number or nil; `events` records what the client did. -/
structure WebSocket where
  name : String := "binance.com"
  baseURL : String := "wss://stream.binance.com:9443/ws"
  connected : Bool := false
  mutex : RWMutex := {}
  errorHandler : Option Nat := none
  connectedHandler : Option Nat := none
  disconnectedHandler : Option Nat := none
  events : List ClientEvent := []
  depthHandlers : Handlers := []
  tickerHandlers : Handlers := []
  klineHandlers : Handlers := []
  tradeHandlers : Handlers := []
  currencyPairM : List (String × CurrencyPair) := []

/-- Mirror of the spot `adaptKlinePeriod` (`adapter.go`). -/
def adaptKlinePeriod (period : KlinePeriod) : String :=
  if period = Kline_1min ∨ period = KLINE_PERIOD_1MIN then "1m"
  else if period = KLINE_PERIOD_3MIN then "3m"
  else if period = Kline_5min ∨ period = KLINE_PERIOD_5MIN then "5m"
  else if period = Kline_15min ∨ period = KLINE_PERIOD_15MIN then "15m"
  else if period = Kline_30min ∨ period = KLINE_PERIOD_30MIN then "30m"
  else if period = Kline_1h then "1h"
  else if period = KLINE_PERIOD_2H then "2h"
  else if period = Kline_4h then "4h"
  else if period = Kline_6h then "6h"
  else if period = KLINE_PERIOD_8H then "8h"
  else if period = KLINE_PERIOD_12H then "12h"
  else if period = Kline_1day ∨ period = KLINE_PERIOD_1DAY then "1d"
  else if period = KLINE_PERIOD_3DAY then "3d"
  else if period = Kline_1week ∨ period = KLINE_PERIOD_1WEEK then "1w"
  else if period = KLINE_PERIOD_1MONTH then "1M"
  else period

/-- Mirror of the spot `reverseAdaptKlinePeriod` (`websocket.go`). -/
def reverseAdaptKlinePeriod (interval : String) : KlinePeriod :=
  if interval = "1m" then KLINE_PERIOD_1MIN
  else if interval = "3m" then KLINE_PERIOD_3MIN
  else if interval = "5m" then KLINE_PERIOD_5MIN
  else if interval = "15m" then KLINE_PERIOD_15MIN
  else if interval = "30m" then KLINE_PERIOD_30MIN
  else if interval = "1h" then KLINE_PERIOD_60MIN
  else if interval = "2h" then KLINE_PERIOD_2H
  else if interval = "4h" then KLINE_PERIOD_4H
  else if interval = "6h" then KLINE_PERIOD_6H
  else if interval = "8h" then KLINE_PERIOD_8H
  else if interval = "12h" then KLINE_PERIOD_12H
  else if interval = "1d" then KLINE_PERIOD_1DAY
  else if interval = "3d" then KLINE_PERIOD_3DAY
  else if interval = "1w" then KLINE_PERIOD_1WEEK
  else if interval = "1M" then KLINE_PERIOD_1MONTH
  else KLINE_PERIOD_1DAY

/-- Fields of the anonymous struct of the spot `handleDepthMessage`. -/
def depthSchema : List (String × FieldTy) :=
  [("lastUpdateId", FieldTy.scalar ScalarTy.int64), ("bids", FieldTy.rows),
   ("asks", FieldTy.rows), ("s", FieldTy.scalar ScalarTy.string),
   ("E", FieldTy.scalar ScalarTy.int64)]

/-- One iteration of the level loops of the spot `handleDepthMessage`: `bid[0]` and
`bid[1]` are read without a length test; a level whose price or amount does not parse is
skipped. -/
def depthRow (bid : List String) : Except Panic (Option DepthItem) := do
  let p ← index bid 0
  match ToFloat64Str p with
  | (_, false) => pure none
  | (price, true) =>
    let a ← index bid 1
    match ToFloat64Str a with
    | (_, false) => pure none
    | (amount, true) => pure (some ⟨price, amount⟩)

/-- The level loops of the spot `handleDepthMessage`, in input order. -/
def depthRows : List (List String) → Except Panic (List DepthItem)
  | [] => Except.ok []
  | bid :: rest => do
    let l ← depthRow bid
    let ls ← depthRows rest
    pure (l.toList ++ ls)

/-- Mirror of the spot `handleDepthMessage`. -/
def handleDepthMessage (ws : WebSocket) (symbol : String) (data : Option JSON) :
    Except Panic (List Call) :=
  match unmarshalStruct depthSchema data with
  | none => Except.ok []
  | some depthData =>
    match ws.currencyPairM.lookup (ToUpper symbol) with
    | none => Except.ok []
    | some pair => do
      let bids ← depthRows (depthData.rows "bids")
      let asks ← depthRows (depthData.rows "asks")
      let depth : Depth :=
        { Pair := pair, UTime := wrapInt64 (depthData.int "E" * 1000000),
          Asks := asks, Bids := bids }
      pure (invoke ws.depthHandlers (ToLower symbol) (fun h => Call.depth h depth))

/-- One iteration of the level loops of the spot `handleDepthUpdateMessage`: an item that
is not an array, is shorter than two, or does not parse is skipped. -/
def depthLevel (item : JSON) : Except Panic (Option DepthItem) :=
  match asArray (some item) with
  | none => Except.ok none
  | some bid =>
    if bid.length < 2 then Except.ok none
    else do
      let p ← index bid 0
      match ToFloat64 (some p) with
      | (_, false) => pure none
      | (price, true) =>
        let a ← index bid 1
        match ToFloat64 (some a) with
        | (_, false) => pure none
        | (amount, true) => pure (some ⟨price, amount⟩)

/-- The level loops of the spot `handleDepthUpdateMessage`, in input order. -/
def depthLevels : List JSON → Except Panic (List DepthItem)
  | [] => Except.ok []
  | item :: rest => do
    let l ← depthLevel item
    let ls ← depthLevels rest
    pure (l.toList ++ ls)

/-- Mirror of the spot `handleDepthUpdateMessage`. -/
def handleDepthUpdateMessage (ws : WebSocket) (msg : JObj) : Except Panic (List Call) :=
  let symbol := (asString (msg.get "s")).getD ""
  let eventTime := (asFloat64 (msg.get "E")).getD F64.zero
  let bidsData := (asArray (msg.get "b")).getD []
  let asksData := (asArray (msg.get "a")).getD []
  match ws.currencyPairM.lookup symbol with
  | none => Except.ok []
  | some pair => do
    let bids ← depthLevels bidsData
    let asks ← depthLevels asksData
    let depth : Depth :=
      { Pair := pair, UTime := wrapInt64 (float64ToInt64 eventTime * 1000000),
        Asks := asks, Bids := bids }
    pure (invoke ws.depthHandlers (ToLower symbol) (fun h => Call.depth h depth))

/-- Fields of the anonymous struct of the spot `handleTickerMessage`. -/
def tickerSchema : List (String × FieldTy) :=
  [("s", FieldTy.scalar ScalarTy.string), ("p", FieldTy.scalar ScalarTy.string),
   ("P", FieldTy.scalar ScalarTy.string), ("w", FieldTy.scalar ScalarTy.string),
   ("c", FieldTy.scalar ScalarTy.string), ("Q", FieldTy.scalar ScalarTy.string),
   ("b", FieldTy.scalar ScalarTy.string), ("B", FieldTy.scalar ScalarTy.string),
   ("a", FieldTy.scalar ScalarTy.string), ("A", FieldTy.scalar ScalarTy.string),
   ("o", FieldTy.scalar ScalarTy.string), ("h", FieldTy.scalar ScalarTy.string),
   ("l", FieldTy.scalar ScalarTy.string), ("v", FieldTy.scalar ScalarTy.string),
   ("q", FieldTy.scalar ScalarTy.string), ("O", FieldTy.scalar ScalarTy.int64),
   ("C", FieldTy.scalar ScalarTy.int64), ("F", FieldTy.scalar ScalarTy.int64),
   ("L", FieldTy.scalar ScalarTy.int64), ("n", FieldTy.scalar ScalarTy.int64)]

/-- Mirror of the spot `handleTickerMessage`. -/
def handleTickerMessage (ws : WebSocket) (symbol : String) (data : Option JSON) :
    Except Panic (List Call) :=
  match unmarshalStruct tickerSchema data with
  | none => Except.ok []
  | some tickerData =>
    match ws.currencyPairM.lookup (tickerData.str "s") with
    | none => Except.ok []
    | some pair =>
      let ticker : Ticker :=
        { Pair := pair,
          Last := (ToFloat64Str (tickerData.str "c")).1,
          Buy := (ToFloat64Str (tickerData.str "b")).1,
          Sell := (ToFloat64Str (tickerData.str "a")).1,
          High := (ToFloat64Str (tickerData.str "h")).1,
          Low := (ToFloat64Str (tickerData.str "l")).1,
          Vol := (ToFloat64Str (tickerData.str "v")).1,
          Percent := (ToFloat64Str (tickerData.str "P")).1,
          Timestamp := tickerData.int "C" }
      Except.ok (invoke ws.tickerHandlers (ToLower symbol) (fun h => Call.ticker h ticker))

/-- Mirror of the spot `handleTickerUpdateMessage`. -/
def handleTickerUpdateMessage (ws : WebSocket) (msg : JObj) : Except Panic (List Call) :=
  let symbol := (asString (msg.get "s")).getD ""
  match ws.currencyPairM.lookup symbol with
  | none => Except.ok []
  | some pair =>
    let ticker : Ticker :=
      { Pair := pair,
        Last := (ToFloat64 (msg.get "c")).1,
        Buy := (ToFloat64 (msg.get "b")).1,
        Sell := (ToFloat64 (msg.get "a")).1,
        High := (ToFloat64 (msg.get "h")).1,
        Low := (ToFloat64 (msg.get "l")).1,
        Vol := (ToFloat64 (msg.get "v")).1,
        Percent := (ToFloat64 (msg.get "P")).1,
        Timestamp := (ToInt64 (msg.get "C")).1 }
    Except.ok (invoke ws.tickerHandlers (ToLower symbol) (fun h => Call.ticker h ticker))

/-- Fields of the inner struct `k` of the spot `handleKlineMessage`. -/
def klineInnerSchema : Schema :=
  [("t", ScalarTy.int64), ("T", ScalarTy.int64), ("s", ScalarTy.string),
   ("i", ScalarTy.string), ("f", ScalarTy.int64), ("L", ScalarTy.int64),
   ("o", ScalarTy.string), ("c", ScalarTy.string), ("h", ScalarTy.string),
   ("l", ScalarTy.string), ("v", ScalarTy.string), ("n", ScalarTy.int64),
   ("x", ScalarTy.bool), ("q", ScalarTy.string), ("V", ScalarTy.string),
   ("Q", ScalarTy.string)]

/-- Fields of the anonymous struct of the spot `handleKlineMessage`. -/
def klineSchema : List (String × FieldTy) :=
  [("s", FieldTy.scalar ScalarTy.string), ("k", FieldTy.nested klineInnerSchema),
   ("E", FieldTy.scalar ScalarTy.int64)]

/-- Mirror of the spot `handleKlineMessage`. -/
def handleKlineMessage (ws : WebSocket) (symbol streamType : String) (data : Option JSON) :
    Except Panic (List Call) :=
  match unmarshalStruct klineSchema data with
  | none => Except.ok []
  | some klineData =>
    let parts := Split streamType '_'
    if parts.length < 2 then Except.ok []
    else do
      let interval ← index parts 1
      let period := reverseAdaptKlinePeriod interval
      match ws.currencyPairM.lookup (klineData.str "s") with
      | none => pure []
      | some pair =>
        let k := klineData.nested "k"
        let kline : Kline :=
          { Pair := pair,
            Timestamp := nestedInt k "t",
            Open := (ToFloat64Str (nestedStr k "o")).1,
            Close := (ToFloat64Str (nestedStr k "c")).1,
            High := (ToFloat64Str (nestedStr k "h")).1,
            Low := (ToFloat64Str (nestedStr k "l")).1,
            Vol := (ToFloat64Str (nestedStr k "v")).1 }
        pure (invoke ws.klineHandlers (ToLower symbol ++ "_" ++ period)
          (fun h => Call.kline h [kline]))

/-- Mirror of the spot `handleKlineUpdateMessage`. -/
def handleKlineUpdateMessage (ws : WebSocket) (msg : JObj) : Except Panic (List Call) :=
  let symbol := (asString (msg.get "s")).getD ""
  match asObject (msg.get "k") with
  | none => Except.ok []
  | some kData =>
    let interval := (asString (kData.get "i")).getD ""
    let period := reverseAdaptKlinePeriod interval
    match ws.currencyPairM.lookup symbol with
    | none => Except.ok []
    | some pair =>
      let kline : Kline :=
        { Pair := pair,
          Timestamp := (ToInt64 (kData.get "t")).1,
          Open := (ToFloat64 (kData.get "o")).1,
          Close := (ToFloat64 (kData.get "c")).1,
          High := (ToFloat64 (kData.get "h")).1,
          Low := (ToFloat64 (kData.get "l")).1,
          Vol := (ToFloat64 (kData.get "v")).1 }
      Except.ok (invoke ws.klineHandlers (ToLower symbol ++ "_" ++ period)
        (fun h => Call.kline h [kline]))

/-- Fields of the anonymous struct of the spot `handleTradeMessage`. -/
def tradeSchema : List (String × FieldTy) :=
  [("e", FieldTy.scalar ScalarTy.string), ("E", FieldTy.scalar ScalarTy.int64),
   ("s", FieldTy.scalar ScalarTy.string), ("t", FieldTy.scalar ScalarTy.int64),
   ("p", FieldTy.scalar ScalarTy.string), ("q", FieldTy.scalar ScalarTy.string),
   ("b", FieldTy.scalar ScalarTy.int64), ("a", FieldTy.scalar ScalarTy.int64),
   ("T", FieldTy.scalar ScalarTy.int64), ("m", FieldTy.scalar ScalarTy.bool),
   ("M", FieldTy.scalar ScalarTy.bool)]

/-- Mirror of the spot `handleTradeMessage`. -/
def handleTradeMessage (ws : WebSocket) (symbol : String) (data : Option JSON) :
    Except Panic (List Call) :=
  match unmarshalStruct tradeSchema data with
  | none => Except.ok []
  | some tradeData =>
    match ws.currencyPairM.lookup (tradeData.str "s") with
    | none => Except.ok []
    | some pair =>
      let trade : Trade :=
        { Pair := pair,
          Tid := formatInt (tradeData.int "t"),
          Price := (ToFloat64Str (tradeData.str "p")).1,
          Amount := (ToFloat64Str (tradeData.str "q")).1,
          Timestamp := tradeData.int "T",
          Direction := if tradeData.bool "m" then "sell" else "buy" }
      Except.ok (invoke ws.tradeHandlers (ToLower symbol) (fun h => Call.trade h [trade]))

/-- Mirror of the spot `handleTradeUpdateMessage`. -/
def handleTradeUpdateMessage (ws : WebSocket) (msg : JObj) : Except Panic (List Call) :=
  let symbol := (asString (msg.get "s")).getD ""
  let tradeID := (asFloat64 (msg.get "t")).getD F64.zero
  let price := (asString (msg.get "p")).getD ""
  let quantity := (asString (msg.get "q")).getD ""
  let tradeTime := (asFloat64 (msg.get "T")).getD F64.zero
  let isBuyerMarketMaker := (asBool (msg.get "m")).getD false
  match ws.currencyPairM.lookup symbol with
  | none => Except.ok []
  | some pair =>
    let trade : Trade :=
      { Pair := pair,
        Tid := formatInt (float64ToInt64 tradeID),
        Price := (ToFloat64Str price).1,
        Amount := (ToFloat64Str quantity).1,
        Timestamp := float64ToInt64 tradeTime,
        Direction := if isBuyerMarketMaker then "sell" else "buy" }
    Except.ok (invoke ws.tradeHandlers (ToLower symbol) (fun h => Call.trade h [trade]))

/-- Unchecked assertion `x.(string)`, which panics when `x` does not hold a string. -/
def mustString : JSON → Except Panic String
  | JSON.str s => Except.ok s
  | _ => Except.error Panic.typeAssertion

/-- Mirror of the spot `handleMessage`, applied to the outcome of
`json.Unmarshal(message, &msg)`: the handler calls, or a panic. -/
def handleMessage (ws : WebSocket) (decoded : Except String JObj) : Except Panic (List Call) :=
  match decoded with
  | Except.error _ => Except.ok []
  | Except.ok msg =>
    match msg.get "result" with
    | some _ => Except.ok []
    | none =>
      match msg.get "error" with
      | some _ => Except.ok []
      | none =>
        match msg.get "stream" with
        | some stream => do
          let streamStr ← mustString stream
          let data := msg.get "data"
          let parts := Split streamStr '@'
          if parts.length < 2 then pure []
          else do
            let symbol ← index parts 0
            let streamType ← index parts 1
            if HasPrefix streamType "depth" then handleDepthMessage ws symbol data
            else if streamType = "ticker" then handleTickerMessage ws symbol data
            else if HasPrefix streamType "kline" then
              handleKlineMessage ws symbol streamType data
            else if streamType = "trade" then handleTradeMessage ws symbol data
            else pure []
        | none =>
          match msg.get "e" with
          | some e => do
            let eventType ← mustString e
            if eventType = "depthUpdate" then handleDepthUpdateMessage ws msg
            else if eventType = "24hrTicker" then handleTickerUpdateMessage ws msg
            else if eventType = "kline" then handleKlineUpdateMessage ws msg
            else if eventType = "trade" then handleTradeUpdateMessage ws msg
            else pure []
          | none => Except.ok []

/-- The error handler that the spot `NewWebSocket` installs on the transport. -/
def onError (err : String) (ws : WebSocket) : Outcome WebSocket Unit :=
  let ws1 := { ws with events := ws.events ++ [ClientEvent.logError err] }
  match ws1.errorHandler with
  | some h => Outcome.returned { ws1 with events := ws1.events ++ [ClientEvent.userError h err] } ()
  | none => Outcome.returned ws1 ()

/-- The connected handler that the spot `NewWebSocket` installs on the transport: it takes
`ws.mutex` to set the flag. -/
def onConnected (ws : WebSocket) : Outcome WebSocket Unit :=
  match ws.mutex.lock with
  | none => Outcome.blocked ws
  | some m =>
    let ws1 :=
      { ws with connected := true, mutex := m.unlock,
                events := ws.events ++ [ClientEvent.logConnected] }
    match ws1.connectedHandler with
    | some h => Outcome.returned { ws1 with events := ws1.events ++ [ClientEvent.userConnected h] } ()
    | none => Outcome.returned ws1 ()

/-- The disconnected handler that the spot `NewWebSocket` installs on the transport. -/
def onDisconnected (err : Option String) (ws : WebSocket) : Outcome WebSocket Unit :=
  match ws.mutex.lock with
  | none => Outcome.blocked ws
  | some m =>
    let ws1 :=
      { ws with connected := false, mutex := m.unlock,
                events := ws.events ++ [ClientEvent.logDisconnected err] }
    match ws1.disconnectedHandler with
    | some h =>
      Outcome.returned { ws1 with events := ws1.events ++ [ClientEvent.userDisconnected h err] } ()
    | none => Outcome.returned ws1 ()

/-- Mirror of the spot `NewWebSocket`: a fresh client and the transport with its callbacks. -/
def NewWebSocket : World WebSocket :=
  { client := {},
    transport :=
      { errorHandler := some onError, connectedHandler := some onConnected,
        disconnectedHandler := some onDisconnected } }

/-- Mirror of the spot `WebSocket.Connect`; `exchangeInfo` is the result of `GetExchangeInfo`
and `dialErr` the error of the dial, `none` when it succeeds. -/
def Connect (w : World WebSocket) (exchangeInfo : Except String (List (String × CurrencyPair)))
    (dialErr : Option String) : Outcome (World WebSocket) (Option String) :=
  let ws := w.client
  match ws.mutex.lock with
  | none => Outcome.blocked w
  | some m =>
    if ws.connected then
      Outcome.returned { w with client := { ws with mutex := m.unlock } }
        (some "already connected")
    else
      let ws1 := { ws with mutex := m, events := ws.events ++ [ClientEvent.exchangeInfoRequest] }
      match exchangeInfo with
      | Except.error e =>
        Outcome.returned { w with client := { ws1 with mutex := ws1.mutex.unlock } }
          (some ("failed to get exchange info: " ++ e))
      | Except.ok currencyPairM =>
        let ws2 := { ws1 with currencyPairM := currencyPairM }
        match DefaultWebSocketClient.Connect { w with client := ws2 } ws2.baseURL dialErr with
        | Outcome.blocked w1 => Outcome.blocked w1
        | Outcome.panicked w1 => Outcome.panicked w1
        | Outcome.returned w1 r =>
          Outcome.returned
            { w1 with client := { w1.client with mutex := w1.client.mutex.unlock } } r

/-- Mirror of the spot `WebSocket.Close`; `closeErr` is the result of closing the socket. -/
def Close (w : World WebSocket) (closeErr : Option String) :
    Outcome (World WebSocket) (Option String) :=
  let ws := w.client
  match ws.mutex.lock with
  | none => Outcome.blocked w
  | some m =>
    if ws.connected = false then
      Outcome.returned { w with client := { ws with mutex := m.unlock } } (some "not connected")
    else
      match DefaultWebSocketClient.Close { w with client := { ws with mutex := m } } closeErr with
      | Outcome.blocked w1 => Outcome.blocked w1
      | Outcome.panicked w1 => Outcome.panicked w1
      | Outcome.returned w1 r =>
        Outcome.returned
          { w1 with client := { w1.client with mutex := w1.client.mutex.unlock } } r

/-- Mirror of the spot `WebSocket.IsConnected`. -/
def IsConnected (ws : WebSocket) : Outcome WebSocket Bool :=
  match ws.mutex.rlock with
  | none => Outcome.blocked ws
  | some m => Outcome.returned { ws with mutex := m.runlock } ws.connected

/-- The loop of the spot `SubscribeDepth` over the options: the last `speed` option wins. -/
def speedOf : List OptionParameter → String → String
  | [], speed => speed
  | opt :: rest, speed => speedOf rest (if opt.Key = "speed" then opt.Value else speed)

/-- The depth level that the spot `SubscribeDepth` chooses for a size. -/
def depthLevelOf (size : Int) : String :=
  if size ≤ 5 then "5" else if size ≤ 10 then "10" else if size ≤ 20 then "20" else "20"

/-- The channel string that the spot `SubscribeDepth` formats: `%s@depth%s@%s`. -/
def depthChannel (pair : CurrencyPair) (size : Int) (opts : List OptionParameter) : String :=
  ToLower pair.Symbol ++ "@depth" ++ depthLevelOf size ++ "@" ++ speedOf opts "100ms"

/-- The channel string that the spot `SubscribeTicker` formats: `%s@ticker`. -/
def tickerChannel (pair : CurrencyPair) : String := ToLower pair.Symbol ++ "@ticker"

/-- The channel string that the spot `SubscribeKline` formats: `%s@kline_%s`. -/
def klineChannel (pair : CurrencyPair) (period : KlinePeriod) : String :=
  ToLower pair.Symbol ++ "@kline_" ++ adaptKlinePeriod period

/-- The channel string that the spot `SubscribeTrade` formats: `%s@trade`. -/
def tradeChannel (pair : CurrencyPair) : String := ToLower pair.Symbol ++ "@trade"

/-- The common body of the spot `Subscribe*` methods: the connection test, the handler
assignment `register` under `ws.mutex`, and the send of a `SUBSCRIBE` message for `channel`.
`id` is the value of `util.GenerateOrderClientId(32)`. -/
def subscribe (w : World WebSocket) (register : WebSocket → WebSocket)
    (channel id : String) (writeErr : Option String) :
    Outcome (World WebSocket) (Option String) :=
  match IsConnected w.client with
  | Outcome.blocked ws => Outcome.blocked { w with client := ws }
  | Outcome.panicked ws => Outcome.panicked { w with client := ws }
  | Outcome.returned ws false => Outcome.returned { w with client := ws } (some "not connected")
  | Outcome.returned ws true =>
    match ws.mutex.lock with
    | none => Outcome.blocked { w with client := ws }
    | some m =>
      let ws1 := register { ws with mutex := m }
      DefaultWebSocketClient.SendMessage { w with client := { ws1 with mutex := ws1.mutex.unlock } }
        { method := "SUBSCRIBE", params := [channel], id := id } writeErr

/-- Mirror of the spot `WebSocket.SubscribeDepth`. -/
def SubscribeDepth (w : World WebSocket) (pair : CurrencyPair) (size : Int)
    (handler : Option Nat) (opts : List OptionParameter) (id : String)
    (writeErr : Option String) : Outcome (World WebSocket) (Option String) :=
  subscribe w
    (fun ws => { ws with depthHandlers := mapSet ws.depthHandlers (ToLower pair.Symbol) handler })
    (depthChannel pair size opts) id writeErr

/-- Mirror of the spot `WebSocket.SubscribeTicker`. -/
def SubscribeTicker (w : World WebSocket) (pair : CurrencyPair) (handler : Option Nat)
    (id : String) (writeErr : Option String) : Outcome (World WebSocket) (Option String) :=
  subscribe w
    (fun ws => { ws with tickerHandlers := mapSet ws.tickerHandlers (ToLower pair.Symbol) handler })
    (tickerChannel pair) id writeErr

/-- Mirror of the spot `WebSocket.SubscribeKline`. -/
def SubscribeKline (w : World WebSocket) (pair : CurrencyPair) (period : KlinePeriod)
    (handler : Option Nat) (id : String) (writeErr : Option String) :
    Outcome (World WebSocket) (Option String) :=
  subscribe w
    (fun ws =>
      { ws with
        klineHandlers := mapSet ws.klineHandlers (ToLower pair.Symbol ++ "_" ++ period) handler })
    (klineChannel pair period) id writeErr

/-- Mirror of the spot `WebSocket.SubscribeTrade`. -/
def SubscribeTrade (w : World WebSocket) (pair : CurrencyPair) (handler : Option Nat)
    (id : String) (writeErr : Option String) : Outcome (World WebSocket) (Option String) :=
  subscribe w
    (fun ws => { ws with tradeHandlers := mapSet ws.tradeHandlers (ToLower pair.Symbol) handler })
    (tradeChannel pair) id writeErr

end Spot

/-! ## Session key, private channels and unsubscription of the futures client -/

/-- Outcome of an authenticated REST call `prv.DoAuthRequest(...)`: it returns an error, it
returns a response body, given by the outcome of parsing the body as JSON, or it panics. -/
inductive RestOutcome where
  | failed (err : String)
  | responded (body : Except String JSON)
  | panicked

/-- Mirror of `json.Unmarshal(resp, &result)` into a struct, for a response body given by
the outcome of parsing it: the members are assigned in document order. -/
def unmarshalBody (sch : List (String × FieldTy)) : Except String JSON → Except String StructVal
  | Except.error e => Except.error e
  | Except.ok JSON.null => Except.ok []
  | Except.ok (JSON.obj m) =>
    match decodeFields sch m ([], true) with
    | (st, true) => Except.ok st
    | (_, false) => Except.error "json: cannot unmarshal value into Go struct field"
  | Except.ok _ => Except.error "json: cannot unmarshal value into Go value of type struct"

/-- What the environment supplies to one call of the streaming API: the generated message
id, the result of the transport write, the clock at the expiry test and at the expiry
update, and the outcome of the REST call that mints the session key. -/
structure CallEnv where
  id : String
  writeErr : Option String
  now : Int
  nowAfter : Int
  mint : RestOutcome

namespace Futures

/-- The duration `30 * time.Minute`, in nanoseconds. -/
def thirtyMinutes : Int := 30 * 60 * 1000000000

/-- Fields of the anonymous struct `result` of `getListenKey`. -/
def listenKeySchema : List (String × FieldTy) :=
  [("listenKey", FieldTy.scalar ScalarTy.string)]

/-- Mirror of `WebSocketBase.getListenKey`; `now` is the clock at the expiry test, `mint`
the outcome of the POST request and `nowAfter` the clock when the expiry is set.  The
mutex is held from the first statement to the return, also when the request panics. -/
def getListenKey (ws : WebSocketBase) (now : Int) (mint : RestOutcome) (nowAfter : Int) :
    Outcome WebSocketBase (Option String) :=
  match ws.mutex.lock with
  | none => Outcome.blocked ws
  | some m =>
    if ws.listenKey ≠ "" ∧ now < ws.listenKeyExpireTime then
      Outcome.returned { ws with mutex := m.unlock } none
    else
      let ws1 := { ws with mutex := m, events := ws.events ++ [ClientEvent.mintRequest] }
      match mint with
      | RestOutcome.panicked => Outcome.panicked { ws1 with mutex := ws1.mutex.unlock }
      | RestOutcome.failed e =>
        Outcome.returned { ws1 with mutex := ws1.mutex.unlock }
          (some ("failed to get listenKey: " ++ e))
      | RestOutcome.responded body =>
        match unmarshalBody listenKeySchema body with
        | Except.error e =>
          Outcome.returned { ws1 with mutex := ws1.mutex.unlock }
            (some ("failed to unmarshal listenKey response: " ++ e))
        | Except.ok result =>
          Outcome.returned
            { ws1 with
              listenKey := result.str "listenKey",
              listenKeyExpireTime := nowAfter + thirtyMinutes,
              mutex := ws1.mutex.unlock }
            none

/-- The test `hasPrivateSub` of `keepAliveListenKey`. -/
def hasPrivateSub (ws : WebSocketBase) : Bool :=
  decide (0 < ws.orderHandlers.length) || decide (0 < ws.positionHandlers.length) ||
    decide (0 < ws.accountHandlers.length)

/-- One tick of `keepAliveListenKey`; `renew` is the outcome of the PUT request and
`nowAfter` the clock when the expiry is set.  The value tells whether the task goes on: it
returns when the client is not connected and when no private handler is registered. -/
def keepAliveListenKeyTick (ws : WebSocketBase) (renew : RestOutcome) (nowAfter : Int) :
    Outcome WebSocketBase Bool :=
  match ws.mutex.rlock with
  | none => Outcome.blocked ws
  | some m =>
    let ws0 := { ws with mutex := m.runlock }
    if ws.connected = false then Outcome.returned ws0 false
    else if hasPrivateSub ws = false then Outcome.returned ws0 false
    else
      let ws1 := { ws0 with events := ws0.events ++ [ClientEvent.renewRequest] }
      match renew with
      | RestOutcome.panicked => Outcome.panicked ws1
      | RestOutcome.failed _ => Outcome.returned ws1 true
      | RestOutcome.responded _ =>
        match ws1.mutex.lock with
        | none => Outcome.blocked ws1
        | some m1 =>
          Outcome.returned
            { ws1 with listenKeyExpireTime := nowAfter + thirtyMinutes, mutex := m1.unlock } true

/-- What reaches the renewal task at one tick: what the other goroutines did to the client
since the last tick, the outcome of the PUT request, and the clock. -/
structure Tick where
  before : WebSocketBase → WebSocketBase
  renew : RestOutcome
  nowAfter : Int

/-- Whether a tick of `keepAliveListenKey` issued its request: the client after the tick
records one more `renewRequest`. -/
def issuedRequest (ws : WebSocketBase) (o : Outcome WebSocketBase Bool) : Bool :=
  match o with
  | Outcome.returned ws1 _ => decide (ws1.events = ws.events ++ [ClientEvent.renewRequest])
  | Outcome.blocked ws1 => decide (ws1.events = ws.events ++ [ClientEvent.renewRequest])
  | Outcome.panicked ws1 => decide (ws1.events = ws.events ++ [ClientEvent.renewRequest])

/-- Mirror of the loop of `keepAliveListenKey` over a sequence of ticks: for each tick,
whether the task issued a renewal request.  Once the function has returned, or is parked,
no later tick reaches it. -/
def keepAliveListenKey : List Tick → WebSocketBase → List Bool
  | [], _ => []
  | t :: rest, ws =>
    match keepAliveListenKeyTick (t.before ws) t.renew t.nowAfter with
    | Outcome.returned ws1 true =>
      issuedRequest (t.before ws) (Outcome.returned ws1 true) :: keepAliveListenKey rest ws1
    | o => issuedRequest (t.before ws) o :: rest.map (fun _ => false)

/-- The common body of `SubscribeOrder`, `SubscribePosition` and `SubscribeFuturesAccount`:
the connection test, the credentials test, the session key, the handler assignment
`register` under `ws.mutex`, the start of the renewal goroutine and the send of a
`SUBSCRIBE` message for the session key. -/
def subscribePrivate (w : World WebSocketBase) (register : WebSocketBase → WebSocketBase)
    (env : CallEnv) : Outcome (World WebSocketBase) (Option String) :=
  match IsConnected w.client with
  | Outcome.blocked ws => Outcome.blocked { w with client := ws }
  | Outcome.panicked ws => Outcome.panicked { w with client := ws }
  | Outcome.returned ws false => Outcome.returned { w with client := ws } (some "not connected")
  | Outcome.returned ws true =>
    if ws.apiKey = "" ∨ ws.apiSecret = "" then
      Outcome.returned { w with client := ws }
        (some "API key and secret are required for private WebSocket")
    else
      match getListenKey ws env.now env.mint env.nowAfter with
      | Outcome.blocked ws1 => Outcome.blocked { w with client := ws1 }
      | Outcome.panicked ws1 => Outcome.panicked { w with client := ws1 }
      | Outcome.returned ws1 (some e) => Outcome.returned { w with client := ws1 } (some e)
      | Outcome.returned ws1 none =>
        match ws1.mutex.lock with
        | none => Outcome.blocked { w with client := ws1 }
        | some m =>
          let ws2 := register { ws1 with mutex := m }
          let ws3 :=
            { ws2 with mutex := ws2.mutex.unlock,
                       events := ws2.events ++ [ClientEvent.spawnKeepAliveListenKey] }
          DefaultWebSocketClient.SendMessage { w with client := ws3 }
            { method := "SUBSCRIBE", params := [ws3.listenKey], id := env.id } env.writeErr

/-- Mirror of `WebSocketBase.SubscribeOrder`. -/
def SubscribeOrder (w : World WebSocketBase) (handler : Option Nat) (env : CallEnv) :
    Outcome (World WebSocketBase) (Option String) :=
  subscribePrivate w
    (fun ws => { ws with orderHandlers := mapSet ws.orderHandlers "order" handler }) env

/-- Mirror of `WebSocketBase.SubscribeAccount`, which always refuses. -/
def SubscribeAccount (w : World WebSocketBase) :
    Outcome (World WebSocketBase) (Option String) :=
  Outcome.returned w (some "use SubscribeFuturesAccount instead")

/-- Mirror of `WebSocketBase.SubscribePosition`. -/
def SubscribePosition (w : World WebSocketBase) (handler : Option Nat) (env : CallEnv) :
    Outcome (World WebSocketBase) (Option String) :=
  subscribePrivate w
    (fun ws => { ws with positionHandlers := mapSet ws.positionHandlers "position" handler })
    env

/-- Mirror of `WebSocketBase.SubscribeFuturesAccount`. -/
def SubscribeFuturesAccount (w : World WebSocketBase) (handler : Option Nat) (env : CallEnv) :
    Outcome (World WebSocketBase) (Option String) :=
  subscribePrivate w
    (fun ws => { ws with accountHandlers := mapSet ws.accountHandlers "account" handler }) env

/-- The common body of the public `Unsubscribe*` methods: the connection test, the handler
removal `remove` under `ws.mutex`, and the send of an `UNSUBSCRIBE` message for `channel`. -/
def unsubscribe (w : World WebSocketBase) (remove : WebSocketBase → WebSocketBase)
    (channel id : String) (writeErr : Option String) :
    Outcome (World WebSocketBase) (Option String) :=
  match IsConnected w.client with
  | Outcome.blocked ws => Outcome.blocked { w with client := ws }
  | Outcome.panicked ws => Outcome.panicked { w with client := ws }
  | Outcome.returned ws false => Outcome.returned { w with client := ws } (some "not connected")
  | Outcome.returned ws true =>
    match ws.mutex.lock with
    | none => Outcome.blocked { w with client := ws }
    | some m =>
      let ws1 := remove { ws with mutex := m }
      DefaultWebSocketClient.SendMessage { w with client := { ws1 with mutex := ws1.mutex.unlock } }
        { method := "UNSUBSCRIBE", params := [channel], id := id } writeErr

/-- The loop of `UnsubscribeDepth` over the options: the last `speed` and the last
`depth_level` option win. -/
def unsubscribeDepthParams : List OptionParameter → String × String → String × String
  | [], acc => acc
  | opt :: rest, (speed, depthLevel) =>
    unsubscribeDepthParams rest
      (if opt.Key = "speed" then (opt.Value, depthLevel)
       else if opt.Key = "depth_level" then (speed, opt.Value)
       else (speed, depthLevel))

/-- The channel string that `UnsubscribeDepth` formats: `%s@depth%s@%s`. -/
def unsubscribeDepthChannel (pair : CurrencyPair) (opts : List OptionParameter) : String :=
  ToLower pair.Symbol ++ "@depth" ++ (unsubscribeDepthParams opts ("100ms", "20")).2 ++ "@" ++
    (unsubscribeDepthParams opts ("100ms", "20")).1

/-- Mirror of `WebSocketBase.UnsubscribeDepth`. -/
def UnsubscribeDepth (w : World WebSocketBase) (pair : CurrencyPair)
    (opts : List OptionParameter) (id : String) (writeErr : Option String) :
    Outcome (World WebSocketBase) (Option String) :=
  unsubscribe w
    (fun ws => { ws with depthHandlers := mapDelete ws.depthHandlers (ToLower pair.Symbol) })
    (unsubscribeDepthChannel pair opts) id writeErr

/-- Mirror of `WebSocketBase.UnsubscribeTicker`. -/
def UnsubscribeTicker (w : World WebSocketBase) (pair : CurrencyPair) (id : String)
    (writeErr : Option String) : Outcome (World WebSocketBase) (Option String) :=
  unsubscribe w
    (fun ws => { ws with tickerHandlers := mapDelete ws.tickerHandlers (ToLower pair.Symbol) })
    (tickerChannel pair) id writeErr

/-- Mirror of `WebSocketBase.UnsubscribeKline`. -/
def UnsubscribeKline (w : World WebSocketBase) (pair : CurrencyPair) (period : KlinePeriod)
    (id : String) (writeErr : Option String) : Outcome (World WebSocketBase) (Option String) :=
  unsubscribe w
    (fun ws =>
      { ws with
        klineHandlers := mapDelete ws.klineHandlers (ToLower pair.Symbol ++ "_" ++ period) })
    (klineChannel pair period) id writeErr

/-- Mirror of `WebSocketBase.UnsubscribeTrade`. -/
def UnsubscribeTrade (w : World WebSocketBase) (pair : CurrencyPair) (id : String)
    (writeErr : Option String) : Outcome (World WebSocketBase) (Option String) :=
  unsubscribe w
    (fun ws => { ws with tradeHandlers := mapDelete ws.tradeHandlers (ToLower pair.Symbol) })
    (tradeChannel pair) id writeErr

/-- Mirror of `WebSocketBase.UnsubscribeFundingRate`. -/
def UnsubscribeFundingRate (w : World WebSocketBase) (pair : CurrencyPair) (id : String)
    (writeErr : Option String) : Outcome (World WebSocketBase) (Option String) :=
  unsubscribe w
    (fun ws =>
      { ws with
        fundingRateHandlers := mapDelete ws.fundingRateHandlers (ToLower pair.Symbol) })
    (fundingRateChannel pair) id writeErr

/-- The test of the private `Unsubscribe*` methods: no order, position or account handler
is left. -/
def noPrivateHandler (ws : WebSocketBase) : Bool :=
  decide (ws.orderHandlers.length = 0) && decide (ws.positionHandlers.length = 0) &&
    decide (ws.accountHandlers.length = 0)

/-- The common body of `UnsubscribeOrder`, `UnsubscribePosition` and
`UnsubscribeFuturesAccount`: the connection test, the handler removal `remove` under
`ws.mutex`, and, when no private handler is left, the send of an `UNSUBSCRIBE` message for
the session key. -/
def unsubscribePrivate (w : World WebSocketBase) (remove : WebSocketBase → WebSocketBase)
    (id : String) (writeErr : Option String) : Outcome (World WebSocketBase) (Option String) :=
  match IsConnected w.client with
  | Outcome.blocked ws => Outcome.blocked { w with client := ws }
  | Outcome.panicked ws => Outcome.panicked { w with client := ws }
  | Outcome.returned ws false => Outcome.returned { w with client := ws } (some "not connected")
  | Outcome.returned ws true =>
    match ws.mutex.lock with
    | none => Outcome.blocked { w with client := ws }
    | some m =>
      let ws1 := remove { ws with mutex := m }
      let ws2 := { ws1 with mutex := ws1.mutex.unlock }
      if noPrivateHandler ws2 then
        DefaultWebSocketClient.SendMessage { w with client := ws2 }
          { method := "UNSUBSCRIBE", params := [ws2.listenKey], id := id } writeErr
      else Outcome.returned { w with client := ws2 } none

/-- Mirror of `WebSocketBase.UnsubscribeOrder`. -/
def UnsubscribeOrder (w : World WebSocketBase) (id : String) (writeErr : Option String) :
    Outcome (World WebSocketBase) (Option String) :=
  unsubscribePrivate w
    (fun ws => { ws with orderHandlers := mapDelete ws.orderHandlers "order" }) id writeErr

/-- Mirror of `WebSocketBase.UnsubscribeAccount`, which always refuses. -/
def UnsubscribeAccount (w : World WebSocketBase) :
    Outcome (World WebSocketBase) (Option String) :=
  Outcome.returned w (some "use UnsubscribeFuturesAccount instead")

/-- Mirror of `WebSocketBase.UnsubscribePosition`. -/
def UnsubscribePosition (w : World WebSocketBase) (id : String) (writeErr : Option String) :
    Outcome (World WebSocketBase) (Option String) :=
  unsubscribePrivate w
    (fun ws => { ws with positionHandlers := mapDelete ws.positionHandlers "position" })
    id writeErr

/-- Mirror of `WebSocketBase.UnsubscribeFuturesAccount`. -/
def UnsubscribeFuturesAccount (w : World WebSocketBase) (id : String)
    (writeErr : Option String) : Outcome (World WebSocketBase) (Option String) :=
  unsubscribePrivate w
    (fun ws => { ws with accountHandlers := mapDelete ws.accountHandlers "account" })
    id writeErr

/-- One call of a `Subscribe*` or `Unsubscribe*` method of the futures client, with its
arguments. -/
inductive Request where
  | subscribeDepth (pair : CurrencyPair) (size : Int) (handler : Option Nat)
      (opts : List OptionParameter)
  | subscribeTicker (pair : CurrencyPair) (handler : Option Nat)
  | subscribeKline (pair : CurrencyPair) (period : KlinePeriod) (handler : Option Nat)
  | subscribeTrade (pair : CurrencyPair) (handler : Option Nat)
  | subscribeFundingRate (pair : CurrencyPair) (handler : Option Nat)
  | subscribeOrder (handler : Option Nat)
  | subscribeAccount
  | subscribePosition (handler : Option Nat)
  | subscribeFuturesAccount (handler : Option Nat)
  | unsubscribeDepth (pair : CurrencyPair) (opts : List OptionParameter)
  | unsubscribeTicker (pair : CurrencyPair)
  | unsubscribeKline (pair : CurrencyPair) (period : KlinePeriod)
  | unsubscribeTrade (pair : CurrencyPair)
  | unsubscribeFundingRate (pair : CurrencyPair)
  | unsubscribeOrder
  | unsubscribeAccount
  | unsubscribePosition
  | unsubscribeFuturesAccount

/-- Run one call of the futures client. -/
def perform (w : World WebSocketBase) (env : CallEnv) :
    Request → Outcome (World WebSocketBase) (Option String)
  | Request.subscribeDepth pair size handler opts =>
    SubscribeDepth w pair size handler opts env.id env.writeErr
  | Request.subscribeTicker pair handler => SubscribeTicker w pair handler env.id env.writeErr
  | Request.subscribeKline pair period handler =>
    SubscribeKline w pair period handler env.id env.writeErr
  | Request.subscribeTrade pair handler => SubscribeTrade w pair handler env.id env.writeErr
  | Request.subscribeFundingRate pair handler =>
    SubscribeFundingRate w pair handler env.id env.writeErr
  | Request.subscribeOrder handler => SubscribeOrder w handler env
  | Request.subscribeAccount => SubscribeAccount w
  | Request.subscribePosition handler => SubscribePosition w handler env
  | Request.subscribeFuturesAccount handler => SubscribeFuturesAccount w handler env
  | Request.unsubscribeDepth pair opts => UnsubscribeDepth w pair opts env.id env.writeErr
  | Request.unsubscribeTicker pair => UnsubscribeTicker w pair env.id env.writeErr
  | Request.unsubscribeKline pair period => UnsubscribeKline w pair period env.id env.writeErr
  | Request.unsubscribeTrade pair => UnsubscribeTrade w pair env.id env.writeErr
  | Request.unsubscribeFundingRate pair => UnsubscribeFundingRate w pair env.id env.writeErr
  | Request.unsubscribeOrder => UnsubscribeOrder w env.id env.writeErr
  | Request.unsubscribeAccount => UnsubscribeAccount w
  | Request.unsubscribePosition => UnsubscribePosition w env.id env.writeErr
  | Request.unsubscribeFuturesAccount => UnsubscribeFuturesAccount w env.id env.writeErr

end Futures

/-! ## Unsubscription of the spot client -/

namespace Spot

/-- The common body of the spot `Unsubscribe*` methods: the connection test, the handler
removal `remove` under `ws.mutex`, and the send of an `UNSUBSCRIBE` message for `channel`. -/
def unsubscribe (w : World WebSocket) (remove : WebSocket → WebSocket)
    (channel id : String) (writeErr : Option String) :
    Outcome (World WebSocket) (Option String) :=
  match IsConnected w.client with
  | Outcome.blocked ws => Outcome.blocked { w with client := ws }
  | Outcome.panicked ws => Outcome.panicked { w with client := ws }
  | Outcome.returned ws false => Outcome.returned { w with client := ws } (some "not connected")
  | Outcome.returned ws true =>
    match ws.mutex.lock with
    | none => Outcome.blocked { w with client := ws }
    | some m =>
      let ws1 := remove { ws with mutex := m }
      DefaultWebSocketClient.SendMessage { w with client := { ws1 with mutex := ws1.mutex.unlock } }
        { method := "UNSUBSCRIBE", params := [channel], id := id } writeErr

/-- The loop of the spot `UnsubscribeDepth` over the options: the last `speed` and the last
`depth_level` option win. -/
def unsubscribeDepthParams : List OptionParameter → String × String → String × String
  | [], acc => acc
  | opt :: rest, (speed, depthLevel) =>
    unsubscribeDepthParams rest
      (if opt.Key = "speed" then (opt.Value, depthLevel)
       else if opt.Key = "depth_level" then (speed, opt.Value)
       else (speed, depthLevel))

/-- The channel string that the spot `UnsubscribeDepth` formats: `%s@depth%s@%s`. -/
def unsubscribeDepthChannel (pair : CurrencyPair) (opts : List OptionParameter) : String :=
  ToLower pair.Symbol ++ "@depth" ++ (unsubscribeDepthParams opts ("100ms", "20")).2 ++ "@" ++
    (unsubscribeDepthParams opts ("100ms", "20")).1

/-- Mirror of the spot `WebSocket.UnsubscribeDepth`. -/
def UnsubscribeDepth (w : World WebSocket) (pair : CurrencyPair) (opts : List OptionParameter)
    (id : String) (writeErr : Option String) : Outcome (World WebSocket) (Option String) :=
  unsubscribe w
    (fun ws => { ws with depthHandlers := mapDelete ws.depthHandlers (ToLower pair.Symbol) })
    (unsubscribeDepthChannel pair opts) id writeErr

/-- Mirror of the spot `WebSocket.UnsubscribeTicker`. -/
def UnsubscribeTicker (w : World WebSocket) (pair : CurrencyPair) (id : String)
    (writeErr : Option String) : Outcome (World WebSocket) (Option String) :=
  unsubscribe w
    (fun ws => { ws with tickerHandlers := mapDelete ws.tickerHandlers (ToLower pair.Symbol) })
    (tickerChannel pair) id writeErr

/-- Mirror of the spot `WebSocket.UnsubscribeKline`. -/
def UnsubscribeKline (w : World WebSocket) (pair : CurrencyPair) (period : KlinePeriod)
    (id : String) (writeErr : Option String) : Outcome (World WebSocket) (Option String) :=
  unsubscribe w
    (fun ws =>
      { ws with
        klineHandlers := mapDelete ws.klineHandlers (ToLower pair.Symbol ++ "_" ++ period) })
    (klineChannel pair period) id writeErr

/-- Mirror of the spot `WebSocket.UnsubscribeTrade`. -/
def UnsubscribeTrade (w : World WebSocket) (pair : CurrencyPair) (id : String)
    (writeErr : Option String) : Outcome (World WebSocket) (Option String) :=
  unsubscribe w
    (fun ws => { ws with tradeHandlers := mapDelete ws.tradeHandlers (ToLower pair.Symbol) })
    (tradeChannel pair) id writeErr

/-- One call of a `Subscribe*` or `Unsubscribe*` method of the spot client, with its
arguments. -/
inductive Request where
  | subscribeDepth (pair : CurrencyPair) (size : Int) (handler : Option Nat)
      (opts : List OptionParameter)
  | subscribeTicker (pair : CurrencyPair) (handler : Option Nat)
  | subscribeKline (pair : CurrencyPair) (period : KlinePeriod) (handler : Option Nat)
  | subscribeTrade (pair : CurrencyPair) (handler : Option Nat)
  | unsubscribeDepth (pair : CurrencyPair) (opts : List OptionParameter)
  | unsubscribeTicker (pair : CurrencyPair)
  | unsubscribeKline (pair : CurrencyPair) (period : KlinePeriod)
  | unsubscribeTrade (pair : CurrencyPair)

/-- Run one call of the spot client. -/
def perform (w : World WebSocket) (id : String) (writeErr : Option String) :
    Request → Outcome (World WebSocket) (Option String)
  | Request.subscribeDepth pair size handler opts =>
    SubscribeDepth w pair size handler opts id writeErr
  | Request.subscribeTicker pair handler => SubscribeTicker w pair handler id writeErr
  | Request.subscribeKline pair period handler => SubscribeKline w pair period handler id writeErr
  | Request.subscribeTrade pair handler => SubscribeTrade w pair handler id writeErr
  | Request.unsubscribeDepth pair opts => UnsubscribeDepth w pair opts id writeErr
  | Request.unsubscribeTicker pair => UnsubscribeTicker w pair id writeErr
  | Request.unsubscribeKline pair period => UnsubscribeKline w pair period id writeErr
  | Request.unsubscribeTrade pair => UnsubscribeTrade w pair id writeErr

end Spot

/-! ## Data of the statements -/

/-- The instrument BTCUSDT as the futures listing describes it. -/
def btcusdt : CurrencyPair :=
  { Symbol := "BTCUSDT", BaseSymbol := "BTC", QuoteSymbol := "USDT",
    ContractAlias := "PERPETUAL", ContractVal := F64.ofInt 1, ContractValCurrency := USDT }

/-- The decoded form of the ticker frame of the specification, section 8. -/
def tickerFrame : JObj :=
  [("e", JSON.str "24hrTicker"), ("s", JSON.str "BTCUSDT"), ("c", JSON.str "65000.1"),
   ("b", JSON.str "65000.0"), ("a", JSON.str "65000.2"), ("h", JSON.str "66000"),
   ("l", JSON.str "64000"), ("v", JSON.str "1234.5"), ("P", JSON.str "1.23"),
   ("C", JSON.num (F64.fin 1700000000000 0))]

/-- The ticker the specification expects for `tickerFrame`: Last 65000.1, Buy 65000.0,
Sell 65000.2, High 66000, Low 64000, Vol 1234.5, Percent 1.23, Timestamp 1700000000000. -/
def expectedTicker (pair : CurrencyPair) : Ticker :=
  { Pair := pair, Last := F64.fin 650001 1, Buy := F64.fin 65000 0, Sell := F64.fin 650002 1,
    High := F64.fin 66000 0, Low := F64.fin 64000 0, Vol := F64.fin 12345 1, Percent := F64.fin 123 2,
    Timestamp := 1700000000000 }

/-- A futures listing with the single entry BTCUSDT / BTC / USDT / PERPETUAL. -/
def listing : Futures.Raw :=
  Futures.Raw.object ""
    [("symbols", Futures.Raw.array ""
      [Futures.Raw.object ""
        [("symbol", Futures.Raw.string "BTCUSDT"), ("baseAsset", Futures.Raw.string "BTC"),
         ("quoteAsset", Futures.Raw.string "USDT"),
         ("contractType", Futures.Raw.string "PERPETUAL")]])]

/-- A client world that is connected: both flags set, every lock free. -/
def connectedWorld (C : Type) (client : C) : World C :=
  { client := client, transport := { connected := true, conn := true, doneGeneration := 1 } }

/-- The candle object `k` of a kline event with interval code `i`. -/
def candle (i : String) : JSON :=
  JSON.obj [("t", JSON.num (F64.fin 1700000000000 0)), ("i", JSON.str i), ("o", JSON.str "1"),
    ("c", JSON.str "2"), ("h", JSON.str "3"), ("l", JSON.str "0.5"), ("v", JSON.str "10")]

/-- A direct kline event `{"e":"kline","s":"BTCUSDT","k":{...,"i":i,...}}`. -/
def klineEvent (i : String) : JObj :=
  [("e", JSON.str "kline"), ("s", JSON.str "BTCUSDT"), ("k", candle i)]

/-- A combined-stream envelope `{"stream": stream, "data": data}`. -/
def envelope (stream : String) (data : JSON) : JObj :=
  [("stream", JSON.str stream), ("data", data)]

/-- The payload of a combined kline frame for BTCUSDT with interval code `i`. -/
def klinePayload (i : String) : JSON :=
  JSON.obj [("s", JSON.str "BTCUSDT"), ("k", candle i)]

/-- A connected futures world that caches BTCUSDT and has no handler yet. -/
def futuresReady : World Futures.WebSocketBase :=
  connectedWorld Futures.WebSocketBase
    { connected := true, currencyPairM := [("BTCUSDT", btcusdt)] }

/-- A connected spot world that caches BTCUSDT and has no handler yet. -/
def spotReady : World Spot.WebSocket :=
  connectedWorld Spot.WebSocket { connected := true, currencyPairM := [("BTCUSDT", btcusdt)] }

/-- The futures client that caches BTCUSDT, with the depth handler 7 for it. -/
def futuresDepthListener : Futures.WebSocketBase :=
  { futuresReady.client with depthHandlers := [("btcusdt", some 7)] }

/-- The spot client that caches BTCUSDT, with the depth handler 7 for it. -/
def spotDepthListener : Spot.WebSocket :=
  { spotReady.client with depthHandlers := [("btcusdt", some 7)] }

/-- The constants of `klinePeriodConstants` that a pair of adapters does not bring back. -/
def notRoundTripped (adapt : KlinePeriod → String) (reverse : String → KlinePeriod) :
    List KlinePeriod :=
  klinePeriodConstants.filter (fun p => reverse (adapt p) != p)

/-- The payload of a depth event for BTCUSDT with one bid level. -/
def depthPayload : JSON :=
  JSON.obj [("e", JSON.str "depthUpdate"), ("E", JSON.num (F64.fin 1700000000000 0)),
    ("s", JSON.str "BTCUSDT"), ("b", JSON.arr [JSON.arr [JSON.str "65000.1", JSON.str "2"]]),
    ("a", JSON.arr [])]

/-- The payload of a mark-price event for BTCUSDT. -/
def markPricePayload : JSON :=
  JSON.obj [("e", JSON.str "markPriceUpdate"), ("E", JSON.num (F64.fin 1700000000000 0)),
    ("s", JSON.str "BTCUSDT"), ("p", JSON.str "65000.1"), ("r", JSON.str "0.0001"),
    ("T", JSON.num (F64.fin 1700000000000 0))]

/-- An aggregate-trade event for BTCUSDT, as the exchange sends it. -/
def aggTradeEvent : JObj :=
  [("e", JSON.str "aggTrade"), ("E", JSON.num (F64.fin 1700000000000 0)), ("s", JSON.str "BTCUSDT"),
   ("a", JSON.num (F64.fin 5933014 0)), ("p", JSON.str "65000.1"), ("q", JSON.str "0.5"),
   ("f", JSON.num (F64.fin 100 0)), ("l", JSON.num (F64.fin 105 0)), ("T", JSON.num (F64.fin 1700000000000 0)),
   ("m", JSON.bool true)]

/-- The calls of a dispatcher result, empty for a panic. -/
def callsOf (r : Except Panic (Option HandlerError × List Call)) : List Call :=
  match r with
  | Except.ok x => x.2
  | Except.error _ => []

/-- Whether a call is an invocation of a depth handler. -/
def Call.isDepth : Call → Bool
  | Call.depth _ _ => true
  | _ => false

/-- Whether a call is an invocation of a ticker handler. -/
def Call.isTicker : Call → Bool
  | Call.ticker _ _ => true
  | _ => false

/-- Whether a call is an invocation of a kline handler. -/
def Call.isKline : Call → Bool
  | Call.kline _ _ => true
  | _ => false

/-- Whether a call is an invocation of a trade handler. -/
def Call.isTrade : Call → Bool
  | Call.trade _ _ => true
  | _ => false

/-- Whether a call is an invocation of a funding-rate handler. -/
def Call.isFundingRate : Call → Bool
  | Call.fundingRate _ _ => true
  | _ => false

/-- The world in which a call returned, if it returned. -/
def Outcome.world {σ α : Type} : Outcome σ α → Option σ
  | Outcome.returned s _ => some s
  | Outcome.blocked _ => none
  | Outcome.panicked _ => none

/-- Subscribe with handler 7 on `futuresReady`, then dispatch the combined-stream frame
whose stream name is `stream`: the calls, or `none` when the subscribe call blocks. -/
def subscribeThenDispatch (sub : Outcome (World Futures.WebSocketBase) (Option String))
    (stream : String) (data : JSON) : Option (List Call) :=
  match sub with
  | Outcome.returned w _ =>
    some (callsOf (Futures.handleMessage w.client (Except.ok (envelope stream data))))
  | Outcome.blocked _ => none
  | Outcome.panicked _ => none

/-- The handler maps that are keyed for one instrument or one order stream. -/
inductive Family where
  | depth
  | ticker
  | kline
  | trade
  | fundingRate
  | order
  deriving DecidableEq, Repr

/-- The handler map of a family. -/
def Futures.WebSocketBase.handlersOf (ws : Futures.WebSocketBase) : Family → Handlers
  | Family.depth => ws.depthHandlers
  | Family.ticker => ws.tickerHandlers
  | Family.kline => ws.klineHandlers
  | Family.trade => ws.tradeHandlers
  | Family.fundingRate => ws.fundingRateHandlers
  | Family.order => ws.orderHandlers

/-- Where the futures dispatcher takes a frame that names one symbol: the symbol it looks
up in the instrument cache, the handler map and the key it looks up there, and whether the
frame is a combined-stream depth frame. -/
structure Route where
  symbol : String
  family : Family
  key : String
  combinedDepth : Bool
  deriving DecidableEq, Repr

/-- The route of a decoded futures frame of the kinds depth, ticker, kline, trade, funding
rate (combined-stream or direct) and order update; `none` for a frame that reaches no cache
lookup and for an account update, which names a list of positions and balances. -/
def Futures.route (data : JObj) : Option Route :=
  match asFloat64 (data.get "code") with
  | some _ => none
  | none =>
    match asString (data.get "stream") with
    | some stream =>
      let parts := Split stream '@'
      if parts.length < 2 then none
      else
        match index parts 0, index parts 1 with
        | Except.ok symbol, Except.ok streamType =>
          let payload := (asObject (data.get "data")).getD []
          if HasPrefix streamType "depth" then
            some ⟨(asString (payload.get "s")).getD "", Family.depth,
              ToLower ((asString (payload.get "s")).getD ""), true⟩
          else if streamType = "ticker" then
            (unmarshalStruct Futures.tickerSchema (some (JSON.obj payload))).map
              (fun st => ⟨st.str "s", Family.ticker, ToLower symbol, false⟩)
          else if HasPrefix streamType "kline" then
            match unmarshalStruct Futures.klineSchema (some (JSON.obj payload)),
                index (Split streamType '_') 1 with
            | some st, Except.ok interval =>
              some ⟨st.str "s", Family.kline,
                ToLower symbol ++ "_" ++ Futures.reverseAdaptKlinePeriod interval, false⟩
            | _, _ => none
          else if streamType = "trade" then
            (unmarshalStruct Futures.tradeSchema (some (JSON.obj payload))).map
              (fun st => ⟨st.str "s", Family.trade, ToLower symbol, false⟩)
          else if streamType = "markPrice" then
            (unmarshalStruct Futures.fundingRateSchema (some (JSON.obj payload))).map
              (fun st => ⟨st.str "s", Family.fundingRate, ToLower symbol, false⟩)
          else none
        | _, _ => none
    | none =>
      match asString (data.get "e") with
      | some e =>
        let s := (asString (data.get "s")).getD ""
        if e = "ORDER_TRADE_UPDATE" then
          (asObject (data.get "o")).map
            (fun o => ⟨(asString (o.get "s")).getD "", Family.order, "order", false⟩)
        else if e = "ACCOUNT_UPDATE" then none
        else if e = "depthUpdate" then some ⟨s, Family.depth, ToLower s, false⟩
        else if e = "24hrTicker" then some ⟨s, Family.ticker, ToLower s, false⟩
        else if e = "kline" then
          (asObject (data.get "k")).map
            (fun k => ⟨s, Family.kline,
              ToLower s ++ "_" ++ Futures.reverseAdaptKlinePeriod ((asString (k.get "i")).getD ""),
              false⟩)
        else if e = "aggTrade" then some ⟨s, Family.trade, ToLower s, false⟩
        else if e = "markPriceUpdate" then some ⟨s, Family.fundingRate, ToLower s, false⟩
        else none
      | none => none

/-- Whether a decoded futures frame is dispatched as an account update. -/
def Futures.isAccountUpdate (data : JObj) : Bool :=
  (asFloat64 (data.get "code")).isNone && (asString (data.get "stream")).isNone &&
    (asString (data.get "e") == some "ACCOUNT_UPDATE")

/-- The speed of the specification: the value of the last option with key `speed`, or
`100ms` when there is none. -/
def lastSpeed (opts : List OptionParameter) : String :=
  match (opts.filter (fun o => o.Key = "speed")).getLast? with
  | some o => o.Value
  | none => "100ms"

/-- The depth level of the specification for a size. -/
def levelOfSize (size : Int) : String :=
  if size ≤ 5 then "5" else if 5 < size ∧ size ≤ 10 then "10" else "20"

/-- The `SUBSCRIBE` message of the specification for a depth subscription. -/
def depthSubscribeMessage (pair : CurrencyPair) (size : Int) (opts : List OptionParameter)
    (id : String) : ControlMessage :=
  { method := "SUBSCRIBE",
    params := [ToLower pair.Symbol ++ "@depth" ++ levelOfSize size ++ "@" ++ lastSpeed opts],
    id := id }

/-- A futures world is ready for a call: both connected flags are set and no goroutine
holds the mutex of the client or of the transport. -/
def Futures.ready (w : World Futures.WebSocketBase) : Prop :=
  w.client.connected = true ∧ w.client.mutex = {} ∧
    w.transport.connected = true ∧ w.transport.mutex = {}

/-- A spot world is ready for a call: both connected flags are set and no goroutine holds
the mutex of the client or of the transport. -/
def Spot.ready (w : World Spot.WebSocket) : Prop :=
  w.client.connected = true ∧ w.client.mutex = {} ∧
    w.transport.connected = true ∧ w.transport.mutex = {}

/-- The registry slot of a public call of the futures client: the handler map, the key, and
the entry the call is to leave there (`none` for an `Unsubscribe*` call); `none` for a
call on a private channel. -/
def Futures.Request.slot : Futures.Request → Option (Family × String × Option (Option Nat))
  | Futures.Request.subscribeDepth pair _ handler _ =>
    some (Family.depth, ToLower pair.Symbol, some handler)
  | Futures.Request.subscribeTicker pair handler =>
    some (Family.ticker, ToLower pair.Symbol, some handler)
  | Futures.Request.subscribeKline pair period handler =>
    some (Family.kline, ToLower pair.Symbol ++ "_" ++ period, some handler)
  | Futures.Request.subscribeTrade pair handler =>
    some (Family.trade, ToLower pair.Symbol, some handler)
  | Futures.Request.subscribeFundingRate pair handler =>
    some (Family.fundingRate, ToLower pair.Symbol, some handler)
  | Futures.Request.unsubscribeDepth pair _ => some (Family.depth, ToLower pair.Symbol, none)
  | Futures.Request.unsubscribeTicker pair => some (Family.ticker, ToLower pair.Symbol, none)
  | Futures.Request.unsubscribeKline pair period =>
    some (Family.kline, ToLower pair.Symbol ++ "_" ++ period, none)
  | Futures.Request.unsubscribeTrade pair => some (Family.trade, ToLower pair.Symbol, none)
  | Futures.Request.unsubscribeFundingRate pair =>
    some (Family.fundingRate, ToLower pair.Symbol, none)
  | _ => none

/-- What a call on the slot `(family, key)` may change from `before` to `after`: the entry
under `key` in the map of `family` is `entry`, so that a dispatch for `key` invokes the
handler of `entry` and no other; every other key of that map, every other handler map and
the instrument cache are as before. -/
def Futures.slotUpdated (before after : Futures.WebSocketBase) (family : Family)
    (key : String) (entry : Option (Option Nat)) : Prop :=
  (after.handlersOf family).lookup key = entry ∧
    (∀ mk : Nat → Call,
      invoke (after.handlersOf family) key mk
        = match entry with
          | some (some h) => [mk h]
          | _ => []) ∧
    (∀ other : String, other ≠ key →
      (after.handlersOf family).lookup other = (before.handlersOf family).lookup other) ∧
    (∀ f : Family, f ≠ family → after.handlersOf f = before.handlersOf f) ∧
    after.positionHandlers = before.positionHandlers ∧
    after.accountHandlers = before.accountHandlers ∧
    after.currencyPairM = before.currencyPairM

/-- The handler maps of the spot client. -/
inductive Spot.Family where
  | depth
  | ticker
  | kline
  | trade
  deriving DecidableEq, Repr

/-- The handler map of a family of the spot client. -/
def Spot.WebSocket.handlersOf (ws : Spot.WebSocket) : Spot.Family → Handlers
  | Spot.Family.depth => ws.depthHandlers
  | Spot.Family.ticker => ws.tickerHandlers
  | Spot.Family.kline => ws.klineHandlers
  | Spot.Family.trade => ws.tradeHandlers

/-- The registry slot of a call of the spot client: the handler map, the key, and the entry
the call is to leave there (`none` for an `Unsubscribe*` call). -/
def Spot.Request.slot : Spot.Request → Spot.Family × String × Option (Option Nat)
  | Spot.Request.subscribeDepth pair _ handler _ =>
    (Spot.Family.depth, ToLower pair.Symbol, some handler)
  | Spot.Request.subscribeTicker pair handler =>
    (Spot.Family.ticker, ToLower pair.Symbol, some handler)
  | Spot.Request.subscribeKline pair period handler =>
    (Spot.Family.kline, ToLower pair.Symbol ++ "_" ++ period, some handler)
  | Spot.Request.subscribeTrade pair handler =>
    (Spot.Family.trade, ToLower pair.Symbol, some handler)
  | Spot.Request.unsubscribeDepth pair _ => (Spot.Family.depth, ToLower pair.Symbol, none)
  | Spot.Request.unsubscribeTicker pair => (Spot.Family.ticker, ToLower pair.Symbol, none)
  | Spot.Request.unsubscribeKline pair period =>
    (Spot.Family.kline, ToLower pair.Symbol ++ "_" ++ period, none)
  | Spot.Request.unsubscribeTrade pair => (Spot.Family.trade, ToLower pair.Symbol, none)

/-- What a call of the spot client on the slot `(family, key)` may change from `before` to
`after`: the entry under `key` in the map of `family` is `entry`, so that a dispatch for
`key` invokes the handler of `entry` and no other; every other key of that map, every other
handler map and the instrument cache are as before. -/
def Spot.slotUpdated (before after : Spot.WebSocket) (family : Spot.Family)
    (key : String) (entry : Option (Option Nat)) : Prop :=
  (after.handlersOf family).lookup key = entry ∧
    (∀ mk : Nat → Call,
      invoke (after.handlersOf family) key mk
        = match entry with
          | some (some h) => [mk h]
          | _ => []) ∧
    (∀ other : String, other ≠ key →
      (after.handlersOf family).lookup other = (before.handlersOf family).lookup other) ∧
    (∀ f : Spot.Family, f ≠ family → after.handlersOf f = before.handlersOf f) ∧
    after.currencyPairM = before.currencyPairM

/-- The environment of a call on a public channel: the message id and the result of the
transport write; the clock and the REST collaborator are not consulted. -/
def publicEnv (id : String) (writeErr : Option String) : CallEnv :=
  { id := id, writeErr := writeErr, now := 0, nowAfter := 0,
    mint := RestOutcome.failed "not consulted" }

/-- The value that a conversion in error returns: zero, or an infinity. -/
def errorValue (r : F64 × Bool) : Prop :=
  r.2 = false → r.1 = F64.zero ∨ ∃ neg, r.1 = F64.inf neg

/-- The number that a field of a level holds for an element of an item: the element itself
when it is a number; for a string the number it spells, 0 when it is not the spelling of a
number, and the infinity of its sign when it spells a number beyond the range of `float64`;
0 for any other element. -/
def parsedOrZero : JSON → F64
  | JSON.num v => v
  | JSON.str s =>
    match ParseFloat s with
    | (x, true) => x
    | (F64.inf neg, false) => F64.inf neg
    | (_, false) => F64.zero
  | _ => F64.zero

/-- Whether an element of an item parses: it is a number, or a string that spells a number
within the range of `float64`. -/
def elementParses : JSON → Bool
  | JSON.num _ => true
  | JSON.str s => (ParseFloat s).2
  | _ => false

/-- Whether an item of `b` or `a` is an array of at least two elements. -/
def isLevel : JSON → Bool
  | JSON.arr (_ :: _ :: _) => true
  | _ => false

/-- Whether an item of `b` or `a` is an array of at least two elements of which the first
two parse. -/
def levelParses : JSON → Bool
  | JSON.arr (p :: a :: _) => elementParses p && elementParses a
  | _ => false

/-- The levels that keep every item: each item that is an array of at least two elements
yields one level, in input order, with the number that `parsedOrZero` gives its first and
its second element. -/
def zeroFilledLevels (items : List JSON) : List DepthItem :=
  items.filterMap (fun item =>
    match item with
    | JSON.arr (p :: a :: _) => some ⟨parsedOrZero p, parsedOrZero a⟩
    | _ => none)

/-- The levels without the items of which the price or the amount does not parse: each item
that is an array of at least two elements of which the first two parse yields one level, in
input order. -/
def parsedLevels (items : List JSON) : List DepthItem :=
  items.filterMap (fun item =>
    if levelParses item then
      match item with
      | JSON.arr (p :: a :: _) => some ⟨parsedOrZero p, parsedOrZero a⟩
      | _ => none
    else none)

/-- A depth event for BTCUSDT with bid levels whose price is not a number (`abc`), is beyond
the range of `float64` (`1e999`) and is a number, and a bid that is not an array; and with an
ask level whose price is the spelling of the infinity and whose amount is hexadecimal, and an
ask of one element. -/
def mixedDepthEvent : JObj :=
  [("e", JSON.str "depthUpdate"), ("E", JSON.num (F64.fin 1700000000000 0)),
   ("s", JSON.str "BTCUSDT"),
   ("b", JSON.arr
     [JSON.arr [JSON.str "abc", JSON.str "1"], JSON.arr [JSON.str "1e999", JSON.str "2"],
      JSON.arr [JSON.str "3", JSON.str "4"], JSON.str "junk"]),
   ("a", JSON.arr [JSON.arr [JSON.str "Inf", JSON.str "0x1p-1"], JSON.arr [JSON.str "5"]])]

/-- A depth event for BTCUSDT with one bid level whose price is not a number. -/
def corruptDepthEvent : JObj :=
  [("e", JSON.str "depthUpdate"), ("E", JSON.num (F64.fin 1700000000000 0)),
   ("s", JSON.str "BTCUSDT"), ("b", JSON.arr [JSON.arr [JSON.str "abc", JSON.str "1"]]),
   ("a", JSON.arr [])]

/-- The depth that the specification expects for `corruptDepthEvent`: one bid level with
price 0 and amount 1. -/
def expectedCorruptDepth : Depth :=
  { Pair := btcusdt, UTime := 1700000000000000000, Asks := [],
    Bids := [⟨F64.zero, F64.fin 1 0⟩] }

/-- The instant of a depth event, as both `handleDepthUpdateMessage` compute it:
`time.Unix(0, int64(eventTime)*int64(time.Millisecond))`. -/
def depthTime (msg : JObj) : Int :=
  wrapInt64 (float64ToInt64 ((asFloat64 (msg.get "E")).getD F64.zero) * 1000000)

/-- A futures client with credentials and no cached session key. -/
def keyless : Futures.WebSocketBase :=
  { connected := true, apiKey := "key", apiSecret := "secret",
    currencyPairM := [("BTCUSDT", btcusdt)] }

/-- A futures client with credentials and the session key `abc`, valid until instant 100. -/
def keyed : Futures.WebSocketBase :=
  { keyless with listenKey := "abc", listenKeyExpireTime := 100 }

/-- The response body `{"listenKey": "xyz"}` of a successful mint request. -/
def mintBody : Except String JSON := Except.ok (JSON.obj [("listenKey", JSON.str "xyz")])

/-- What the specification expects of a private `Unsubscribe*` call that leaves the client
`after`: when no order, position or account handler remains, exactly one message, with
method `UNSUBSCRIBE` and the session key as its one parameter, and the result of the send;
when a private handler remains, no message and nil. -/
def Futures.privateUnsubscribed (w : World Futures.WebSocketBase)
    (after : Futures.WebSocketBase) (id : String) (writeErr : Option String) :
    Outcome (World Futures.WebSocketBase) (Option String) :=
  if after.orderHandlers = [] ∧ after.positionHandlers = [] ∧ after.accountHandlers = [] then
    Outcome.returned
      { client := after,
        transport :=
          { w.transport with
            effects := w.transport.effects ++
              [TransportEffect.writeText ⟨"UNSUBSCRIBE", [after.listenKey], id⟩] } }
      writeErr
  else Outcome.returned { client := after, transport := w.transport } none

/-- A connected futures world with credentials, the session key `abc`, an order handler
and a position handler. -/
def privateWorld : World Futures.WebSocketBase :=
  connectedWorld Futures.WebSocketBase
    { keyed with orderHandlers := [("order", some 1)], positionHandlers := [("position", some 2)] }

/-- A futures world with credentials that is not connected. -/
def disconnectedWorld : World Futures.WebSocketBase :=
  { client := { keyless with connected := false }, transport := {} }

/-- The environment of a call whose mint request fails with `timeout`. -/
def failingMintEnv : CallEnv :=
  { id := "id", writeErr := none, now := 99, nowAfter := 101,
    mint := RestOutcome.failed "timeout" }

/-- A session key is available to a private `Subscribe*` call: the client has credentials,
and its session key is cached and valid, or the mint request succeeds with a response that
decodes. -/
def Futures.sessionKeyAvailable (ws : Futures.WebSocketBase) (env : CallEnv) : Prop :=
  ¬(ws.apiKey = "" ∨ ws.apiSecret = "") ∧
    ((ws.listenKey ≠ "" ∧ env.now < ws.listenKeyExpireTime) ∨
      ∃ body result, env.mint = RestOutcome.responded body ∧
        unmarshalBody Futures.listenKeySchema body = Except.ok result)

/-- The preconditions of a call of the futures client, beyond the connection: none for a
call on a public channel and for a private `Unsubscribe*`; for `SubscribeOrder`,
`SubscribePosition` and `SubscribeFuturesAccount`, credentials and a session key, cached
and valid or minted by a request that succeeds with a response that decodes.
`SubscribeAccount` and `UnsubscribeAccount` refuse every call. -/
def Futures.preconditionsMet (ws : Futures.WebSocketBase) (env : CallEnv) :
    Futures.Request → Prop
  | Futures.Request.subscribeAccount => False
  | Futures.Request.unsubscribeAccount => False
  | Futures.Request.subscribeOrder _ => Futures.sessionKeyAvailable ws env
  | Futures.Request.subscribePosition _ => Futures.sessionKeyAvailable ws env
  | Futures.Request.subscribeFuturesAccount _ => Futures.sessionKeyAvailable ws env
  | _ => True

/-- A futures client that holds an order handler and is not connected. -/
def offlineWithOrder : Futures.WebSocketBase :=
  { keyed with connected := false, orderHandlers := [("order", some 1)] }

/-- A tick at which no other goroutine has touched the client and the renewal request
succeeds. -/
def quietTick : Futures.Tick :=
  { before := fun ws => ws, renew := RestOutcome.responded mintBody, nowAfter := 200 }

/-- A futures world as `NewWebSocketBase` builds it, with its callbacks installed, once
connected: both flags set, the socket open, every lock free. -/
def liveFutures : World Futures.WebSocketBase :=
  { client := { (Futures.NewWebSocketBase "key" "secret").client with connected := true },
    transport :=
      { (Futures.NewWebSocketBase "key" "secret").transport with
        connected := true, conn := true, doneGeneration := 1 } }

/-- The state in which a call ends: where it returns, parks or panics. -/
def Outcome.state {σ α : Type} : Outcome σ α → σ
  | Outcome.returned s _ => s
  | Outcome.blocked s => s
  | Outcome.panicked s => s

/-- Whether an effect of the transport is the write of a control message. -/
def TransportEffect.isWriteText : TransportEffect → Bool
  | TransportEffect.writeText _ => true
  | _ => false

/-- The control messages that a transport has written, in order. -/
def DefaultWebSocketClient.written {C : Type} (c : DefaultWebSocketClient C) :
    List TransportEffect :=
  c.effects.filter TransportEffect.isWriteText

/-- The connected futures world after `SubscribeTicker` for BTCUSDT with handler 7. -/
def afterSubscribe : World Futures.WebSocketBase :=
  (Futures.perform liveFutures (publicEnv "id" none)
    (Futures.Request.subscribeTicker btcusdt (some 7))).state

/-- The world `afterSubscribe` after the read of the receive loop has failed. -/
def afterDisconnect : World Futures.WebSocketBase :=
  (DefaultWebSocketClient.receiveFailure afterSubscribe "connection reset").state

/-- The order status of the specification for the value of the `X` field: Pending for NEW,
PartFinished for PARTIALLY_FILLED, Finished for FILLED, Canceled for CANCELED, REJECTED and
EXPIRED, and Pending for any other value and for a missing one. -/
def expectedOrderStatus (x : Option JSON) : Int :=
  match x with
  | some (JSON.str s) =>
    if s = "NEW" then OrderStatus_Pending
    else if s = "PARTIALLY_FILLED" then OrderStatus_PartFinished
    else if s = "FILLED" then OrderStatus_Finished
    else if s = "CANCELED" then OrderStatus_Canceled
    else if s = "REJECTED" then OrderStatus_Canceled
    else if s = "EXPIRED" then OrderStatus_Canceled
    else OrderStatus_Pending
  | _ => OrderStatus_Pending

/-- The `o` member of an order update for BTCUSDT with the status `x`. -/
def orderFields (x : String) : JObj :=
  [("s", JSON.str "BTCUSDT"), ("c", JSON.str "web_1"), ("S", JSON.str "BUY"),
   ("o", JSON.str "LIMIT"), ("q", JSON.str "0.5"), ("p", JSON.str "65000.1"),
   ("ap", JSON.str "0"), ("X", JSON.str x), ("i", JSON.num (F64.fin 8886774 0)),
   ("z", JSON.str "0"), ("T", JSON.num (F64.fin 1700000000000 0))]

/-- An order update for BTCUSDT with the status `x`. -/
def orderUpdate (x : String) : JObj :=
  [("e", JSON.str "ORDER_TRADE_UPDATE"), ("T", JSON.num (F64.fin 1700000000000 0)),
   ("o", JSON.obj (orderFields x))]

/-- A position entry of an account update for BTCUSDT, side LONG, with the amount `pa`. -/
def positionEntry (pa : String) : JSON :=
  JSON.obj [("s", JSON.str "BTCUSDT"), ("pa", JSON.str pa), ("ep", JSON.str "65000.1"),
    ("up", JSON.str "12.5"), ("ps", JSON.str "LONG")]

/-- An account update whose position list is `positions`. -/
def accountUpdate (positions : List JSON) : JObj :=
  [("e", JSON.str "ACCOUNT_UPDATE"), ("E", JSON.num (F64.fin 1700000000000 0)),
   ("a", JSON.obj [("m", JSON.str "ORDER"), ("B", JSON.arr []), ("P", JSON.arr positions)])]

/-- The levers of the positions with which the position handler was invoked. -/
def deliveredLevers (r : Except Panic (Option HandlerError × List Call)) : List F64 :=
  (callsOf r).flatMap (fun c =>
    match c with
    | Call.position _ ps => ps.map (fun p => p.Lever)
    | _ => [])

/-- The quantities of the positions with which the position handler was invoked. -/
def deliveredQuantities (r : Except Panic (Option HandlerError × List Call)) : List F64 :=
  (callsOf r).flatMap (fun c =>
    match c with
    | Call.position _ ps => ps.map (fun p => p.Qty)
    | _ => [])

namespace Futures

/-- The callback of `ObjectEach` in `UnmarshalGetPositionsResponse` over the members of one
position, in order: the position and the local `posSide`. -/
def applyPositionMembers (cast : Cast) :
    List (String × Raw) → FuturesPosition × String → FuturesPosition × String
  | [], acc => acc
  | (key, val) :: rest, (pos, posSide) =>
    if key = "leverage" then
      applyPositionMembers cast rest ({ pos with Lever := cast.ToFloat64 val.text }, posSide)
    else if key = "positionAmt" then
      applyPositionMembers cast rest
        ({ pos with Qty := cast.ToFloat64 val.text, AvailQty := cast.ToFloat64 val.text },
          posSide)
    else if key = "entryPrice" then
      applyPositionMembers cast rest ({ pos with AvgPx := cast.ToFloat64 val.text }, posSide)
    else if key = "liquidationPrice" then
      applyPositionMembers cast rest ({ pos with LiqPx := cast.ToFloat64 val.text }, posSide)
    else if key = "unRealizedProfit" then
      applyPositionMembers cast rest ({ pos with Upl := cast.ToFloat64 val.text }, posSide)
    else if key = "positionSide" then applyPositionMembers cast rest (pos, val.text)
    else applyPositionMembers cast rest (pos, posSide)

/-- The three tests on `posSide` that follow the `ObjectEach`. -/
def withPosSide (pos : FuturesPosition) (posSide : String) : FuturesPosition :=
  let pos1 := if posSide = "LONG" then { pos with PosSide := Futures_OpenBuy } else pos
  let pos2 := if posSide = "SHORT" then { pos1 with PosSide := Futures_OpenSell } else pos1
  if posSide = "BOTH" then
    if pos2.Qty.isNeg then { pos2 with PosSide := Futures_OpenSell }
    else { pos2 with PosSide := Futures_OpenBuy }
  else pos2

/-- The callback of `ArrayEach` in `UnmarshalGetPositionsResponse`: one position is decoded
from the zero value and appended. -/
def addPosition (cast : Cast) (positions : List FuturesPosition) (value : Raw) :
    List FuturesPosition :=
  let start : FuturesPosition :=
    { Pair := {}, Qty := F64.zero, AvgPx := F64.zero, Lever := F64.zero, UplRatio := F64.zero,
      Upl := F64.zero, PosSide := "" }
  let decoded :=
    match value with
    | Raw.object _ fields => applyPositionMembers cast fields (start, "")
    | _ => (start, "")
  positions ++ [withPosSide decoded.1 decoded.2]

/-- Mirror of `UnmarshalGetPositionsResponse` on a well-formed response document: the
positions and the error of the `ArrayEach`. -/
def UnmarshalGetPositionsResponse (cast : Cast) (data : Raw) :
    List FuturesPosition × Option String :=
  match data with
  | Raw.array _ items => (items.foldl (addPosition cast) [], none)
  | _ => ([], some "Value is not an array")

end Futures

/-- The direction of a position. -/
inductive Direction where
  | long
  | short
  deriving DecidableEq, Repr

/-- The direction that a `PosSide` stands for: long for a buy side, short for a sell
side. -/
def directionOf (posSide : String) : Option Direction :=
  if posSide = BUY ∨ posSide = Futures_OpenBuy then some Direction.long
  else if posSide = SELL ∨ posSide = Futures_OpenSell then some Direction.short
  else none

/-- The directions of the positions with which the position handler was invoked. -/
def deliveredDirections (r : Except Panic (Option HandlerError × List Call)) :
    List (Option Direction) :=
  (callsOf r).flatMap (fun c =>
    match c with
    | Call.position _ ps => ps.map (fun p => directionOf p.PosSide)
    | _ => [])

/-- A streamed position entry for BTCUSDT with the side `ps` and the amount `pa`. -/
def streamedPosition (ps pa : String) : JSON :=
  JSON.obj [("s", JSON.str "BTCUSDT"), ("pa", JSON.str pa), ("ep", JSON.str "65000.1"),
    ("up", JSON.str "12.5"), ("ps", JSON.str ps)]

/-- The response of the positions endpoint with one position for BTCUSDT, with the side
`ps` and the amount `amt`. -/
def restPositions (ps amt : String) : Futures.Raw :=
  Futures.Raw.array ""
    [Futures.Raw.object ""
      [("symbol", Futures.Raw.string "BTCUSDT"), ("positionAmt", Futures.Raw.string amt),
       ("entryPrice", Futures.Raw.string "65000.1"), ("leverage", Futures.Raw.string "20"),
       ("positionSide", Futures.Raw.string ps)]]

/-- The directions of the positions that the streaming client delivers for one streamed
position with the side `ps` and the amount `q`. -/
def streamedDirections (ps q : String) : List (Option Direction) :=
  deliveredDirections
    (Futures.handleMessage
      { futuresReady.client with positionHandlers := [("position", some 7)] }
      (Except.ok (accountUpdate [streamedPosition ps q])))

/-- The directions of the positions that `UnmarshalGetPositionsResponse` returns for one
position with the side `ps` and the amount `q`. -/
def restDirections (ps q : String) : List (Option Direction) :=
  (Futures.UnmarshalGetPositionsResponse Futures.decimalCast (restPositions ps q)).1.map
    (fun p => directionOf p.PosSide)

/-! ## Package `common`: `auth_client.go` -/

/-- Mirror of `url.Values`. -/
abbrev Values := List (String × List String)

/-- What `DoAuthRequest` calls and the sources do not contain: `SignParams` of package
`common`, `url.Values.Encode` and the HTTP client `httpcli.Cli.DoRequest`.  `SignParams`
receives the pointer `params` (`none` is nil) and the secret; it panics, or returns with
the map behind the pointer as it then is.  The pointer itself is passed by value. -/
structure AuthCollaborators where
  SignParams : Option Values → String → Except Panic (Option Values)
  Encode : Values → String
  DoRequest : String → String → String → List (String × String) → RestOutcome

/-- Mirror of `AuthClient`, with the key and the secret of `ApiOpts`. -/
structure AuthClient where
  Key : String
  Secret : String

/-- Mirror of `AuthClient.DoAuthRequest`; `params` is a `*url.Values` and `header` a map,
`none` for nil.  The expression `params.Encode()` dereferences `params`, which panics for
the nil pointer. -/
def AuthClient.DoAuthRequest (env : AuthCollaborators) (ac : AuthClient)
    (method reqUrl : String) (params : Option Values)
    (header : Option (List (String × String))) : RestOutcome :=
  let header1 := mapSet (header.getD []) "X-MBX-APIKEY" ac.Key
  match env.SignParams params ac.Secret with
  | Except.error _ => RestOutcome.panicked
  | Except.ok signed =>
    match params with
    | none => RestOutcome.panicked
    | some v => env.DoRequest method (reqUrl ++ "?" ++ env.Encode (signed.getD v)) "" header1

/-- The request of `getListenKey` (`POST`) and of `keepAliveListenKey` (`PUT`):
`prv.DoAuthRequest(method, url, nil, headers)` on a client built from the key and the secret
of `ws`. -/
def Futures.listenKeyRequest (env : AuthCollaborators) (ws : Futures.WebSocketBase)
    (method : String) : RestOutcome :=
  AuthClient.DoAuthRequest env { Key := ws.apiKey, Secret := ws.apiSecret } method
    "https://fapi.binance.com/fapi/v1/listenKey" none (some [("X-MBX-APIKEY", ws.apiKey)])

/-- Collaborators that sign nothing, encode to the empty string and answer every request
with the key `xyz`. -/
def quietCollaborators : AuthCollaborators :=
  { SignParams := fun params _ => Except.ok params,
    Encode := fun _ => "",
    DoRequest := fun _ _ _ _ => RestOutcome.responded mintBody }

/-- The body of an error reply of the exchange: a well-formed object without a `listenKey`
member. -/
def errorReply : Except String JSON :=
  Except.ok (JSON.obj [("code", JSON.num (F64.fin (-2015) 0)),
    ("msg", JSON.str "Invalid API-key, IP, or permissions for action.")])

/-- The environment of a private call at instant 99 whose mint request is answered with
`body`. -/
def mintEnv (body : Except String JSON) : CallEnv :=
  { id := "id", writeErr := none, now := 99, nowAfter := 101,
    mint := RestOutcome.responded body }

namespace Futures

/-- Mirror of `jsonparser.GetString(data, key)`: the content of the string under `key`; an
error when the key is not found and when the value under it is not a string. -/
def getStringChecked (data : Raw) (key : String) : Except String String :=
  match data with
  | Raw.object _ fields =>
    match fields.lookup key with
    | some (Raw.string s) => Except.ok s
    | some v => Except.error ("Value is not a string: " ++ v.text)
    | none => Except.error "Key path not found"
  | _ => Except.error "Key path not found"

/-- Mirror of `UnmarshalCancelOrderResponse`: the returned error, `none` for nil. -/
def UnmarshalCancelOrderResponse (data : Raw) : Option String :=
  match getStringChecked data "code" with
  | Except.ok _ => some data.text
  | Except.error _ => none

end Futures

/-- The error reply of the exchange to the cancellation of an unknown order. -/
def unknownOrderReply : Futures.Raw :=
  Futures.Raw.object "\x7b\x22code\x22:-2011,\x22msg\x22:\x22Unknown order sent.\x22\x7d"
    [("code", Futures.Raw.other "-2011"), ("msg", Futures.Raw.string "Unknown order sent.")]

/-- A reply whose `code` member is a string. -/
def stringCodeReply : Futures.Raw :=
  Futures.Raw.object "\x7b\x22code\x22:\x22-2011\x22,\x22msg\x22:\x22Unknown order sent.\x22\x7d"
    [("code", Futures.Raw.string "-2011"), ("msg", Futures.Raw.string "Unknown order sent.")]

/-- The handler that a call invoked. -/
def Call.handler : Call → Nat
  | Call.depth h _ => h
  | Call.ticker h _ => h
  | Call.kline h _ => h
  | Call.trade h _ => h
  | Call.fundingRate h _ => h
  | Call.order h _ => h
  | Call.position h _ => h
  | Call.account h _ => h

/-- The futures world after `SubscribeDepth` for BTCUSDT with size 5 and handler 1, then
with size 20 and handler 2. -/
def twoDepthSubscriptions : World Futures.WebSocketBase :=
  (Futures.perform
    (Futures.perform futuresReady (publicEnv "a" none)
      (Futures.Request.subscribeDepth btcusdt 5 (some 1) [])).state
    (publicEnv "b" none) (Futures.Request.subscribeDepth btcusdt 20 (some 2) [])).state

/-- The instrument-cache entries of the items of a position list that are objects with a
cached symbol, in input order. -/
def cachedPairs (ws : Futures.WebSocketBase) (positions : List JSON) : List CurrencyPair :=
  positions.filterMap (fun item =>
    match item with
    | JSON.obj pos => ws.currencyPairM.lookup ((asString (JObj.get pos "s")).getD "")
    | _ => none)

/-- The assets of the items of a balance list that are objects, in input order. -/
def assetsOf (balances : List JSON) : List String :=
  balances.filterMap (fun item =>
    match item with
    | JSON.obj bal => some ((asString (JObj.get bal "a")).getD "")
    | _ => none)

/-- An account update for a client that caches BTCUSDT: a position for BTCUSDT, an item
that is not an object and a position for an unknown symbol; balances for USDT, twice, and
for BNB. -/
def mixedAccountUpdate : JObj :=
  [("e", JSON.str "ACCOUNT_UPDATE"), ("E", JSON.num (F64.fin 1700000000000 0)),
   ("a", JSON.obj
     [("m", JSON.str "ORDER"),
      ("B", JSON.arr
        [JSON.obj [("a", JSON.str "USDT"), ("wb", JSON.str "100"), ("cw", JSON.str "40")],
         JSON.obj [("a", JSON.str "BNB"), ("wb", JSON.str "1"), ("cw", JSON.str "1")],
         JSON.obj [("a", JSON.str "USDT"), ("wb", JSON.str "90"), ("cw", JSON.str "30")]]),
      ("P", JSON.arr
        [positionEntry "1", JSON.str "junk",
         JSON.obj [("s", JSON.str "ETHUSDT"), ("pa", JSON.str "3"), ("ps", JSON.str "LONG")]])])]

/-- A futures client that caches BTCUSDT and holds the position handler 7 and the account
handler 8. -/
def accountListener : Futures.WebSocketBase :=
  { futuresReady.client with
    positionHandlers := [("position", some 7)], accountHandlers := [("account", some 8)] }

/-- Whether a call of the futures client sends no control message: a private `Unsubscribe*`
after whose removal an order, position or account handler remains. -/
def Futures.sendsNothing (ws : Futures.WebSocketBase) : Futures.Request → Bool
  | Futures.Request.unsubscribeOrder =>
    decide ¬(mapDelete ws.orderHandlers "order" = [] ∧ ws.positionHandlers = [] ∧
      ws.accountHandlers = [])
  | Futures.Request.unsubscribePosition =>
    decide ¬(ws.orderHandlers = [] ∧ mapDelete ws.positionHandlers "position" = [] ∧
      ws.accountHandlers = [])
  | Futures.Request.unsubscribeFuturesAccount =>
    decide ¬(ws.orderHandlers = [] ∧ ws.positionHandlers = [] ∧
      mapDelete ws.accountHandlers "account" = [])
  | _ => false

/-- The depth event for BTCUSDT with one bid level, as a direct frame. -/
def depthEvent : JObj :=
  [("e", JSON.str "depthUpdate"), ("E", JSON.num (F64.fin 1700000000000 0)),
    ("s", JSON.str "BTCUSDT"), ("b", JSON.arr [JSON.arr [JSON.str "65000.1", JSON.str "2"]]),
    ("a", JSON.arr [])]

/-! ## Theorems -/

/-- C1: with BTCUSDT in the instrument cache and a ticker handler under `btcusdt`, the
futures and the spot dispatcher, applied to the ticker frame of the specification, invoke
that handler exactly once, invoke nothing else, and pass the expected ticker whose pair is
the cached instrument. -/
theorem ticker_frame_dispatch (fw : Futures.WebSocketBase) (sw : Spot.WebSocket)
    (h g : Nat) (pair spair : CurrencyPair)
    (hc : fw.currencyPairM.lookup "BTCUSDT" = some pair)
    (hh : fw.tickerHandlers.lookup "btcusdt" = some (some h))
    (sc : sw.currencyPairM.lookup "BTCUSDT" = some spair)
    (sh : sw.tickerHandlers.lookup "btcusdt" = some (some g)) :
    Futures.handleMessage fw (Except.ok tickerFrame)
        = Except.ok (none, [Call.ticker h (expectedTicker pair)]) ∧
      Spot.handleMessage sw (Except.ok tickerFrame)
        = Except.ok [Call.ticker g (expectedTicker spair)] := by
  have e1 : Futures.handleMessage fw (Except.ok tickerFrame)
      = Futures.noError (Futures.handleTickerUpdateMessage fw tickerFrame) := rfl
  have e2 : Spot.handleMessage sw (Except.ok tickerFrame)
      = Spot.handleTickerUpdateMessage sw tickerFrame := rfl
  have hs : (asString (JObj.get tickerFrame "s")).getD "" = "BTCUSDT" := by decide
  have hl : ToLower "BTCUSDT" = "btcusdt" := by decide
  have f1 : (ToFloat64 (JObj.get tickerFrame "c")).1 = F64.fin 650001 1 := by decide
  have f2 : (ToFloat64 (JObj.get tickerFrame "b")).1 = F64.fin 65000 0 := by decide
  have f3 : (ToFloat64 (JObj.get tickerFrame "a")).1 = F64.fin 650002 1 := by decide
  have f4 : (ToFloat64 (JObj.get tickerFrame "h")).1 = F64.fin 66000 0 := by decide
  have f5 : (ToFloat64 (JObj.get tickerFrame "l")).1 = F64.fin 64000 0 := by decide
  have f6 : (ToFloat64 (JObj.get tickerFrame "v")).1 = F64.fin 12345 1 := by decide
  have f7 : (ToFloat64 (JObj.get tickerFrame "P")).1 = F64.fin 123 2 := by decide
  have f8 : (ToInt64 (JObj.get tickerFrame "C")).1 = 1700000000000 := by decide
  constructor
  · rw [e1]
    simp only [Futures.handleTickerUpdateMessage, hs, hc, hl, invoke, Handlers.find, hh,
      f1, f2, f3, f4, f5, f6, f7, f8]
    rfl
  · rw [e2]
    simp only [Spot.handleTickerUpdateMessage, hs, sc, hl, invoke, Handlers.find, sh,
      f1, f2, f3, f4, f5, f6, f7, f8]
    rfl

/-- Witness for `ticker_frame_dispatch`: a futures and a spot client that hold BTCUSDT and a
handler under `btcusdt`. -/
theorem ticker_frame_dispatch_witness :
    Futures.handleMessage
        { tickerHandlers := [("btcusdt", some 7)], currencyPairM := [("BTCUSDT", btcusdt)] }
        (Except.ok tickerFrame)
        = Except.ok (none, [Call.ticker 7 (expectedTicker btcusdt)]) ∧
      Spot.handleMessage
        { tickerHandlers := [("btcusdt", some 8)], currencyPairM := [("BTCUSDT", btcusdt)] }
        (Except.ok tickerFrame)
        = Except.ok [Call.ticker 8 (expectedTicker btcusdt)] :=
  ticker_frame_dispatch
    { tickerHandlers := [("btcusdt", some 7)], currencyPairM := [("BTCUSDT", btcusdt)] }
    { tickerHandlers := [("btcusdt", some 8)], currencyPairM := [("BTCUSDT", btcusdt)] }
    7 8 btcusdt btcusdt (by decide) (by decide) (by decide) (by decide)
/-- The deferred unlock gives back the mutex that a granted `Lock` found. -/
theorem RWMutex.unlock_of_lock (m m1 : RWMutex) (h : m.lock = some m1) : m1.unlock = m := by
  cases m with
  | mk w r =>
    unfold RWMutex.lock at h
    by_cases hw : w = false ∧ r = 0
    · obtain ⟨h1, h2⟩ := hw
      subst h1 h2
      simp at h
      subst h
      rfl
    · simp [hw] at h

/-- C2: on a fresh futures or spot client, with the exchange-info request and the dial both
succeeding, `Connect` does not return: the connected callback requests `ws.mutex`, which
`Connect` holds, and the call parks with the client flag still false. -/
theorem connect_success_blocks (apiKey apiSecret : String)
    (cache : List (String × CurrencyPair)) :
    (∃ w, Futures.Connect (Futures.NewWebSocketBase apiKey apiSecret) (Except.ok cache) none
          = Outcome.blocked w ∧
        w.client.connected = false ∧ w.client.mutex.writer = true ∧
        w.transport.connected = true ∧
        w.client.events = [ClientEvent.exchangeInfoRequest]) ∧
      (∃ w, Spot.Connect Spot.NewWebSocket (Except.ok cache) none = Outcome.blocked w ∧
        w.client.connected = false ∧ w.client.mutex.writer = true ∧
        w.transport.connected = true ∧
        w.client.events = [ClientEvent.exchangeInfoRequest]) :=
  ⟨⟨_, rfl, rfl, rfl, rfl, rfl⟩, ⟨_, rfl, rfl, rfl, rfl, rfl⟩⟩

/-- C3: `Close` on a client whose connected flag is false returns the error
`not connected`, and `Connect` on a client whose flag is true returns `already connected`;
in both cases the whole world, with its records of requests and transport effects, is
unchanged.  This holds for the futures client, the spot client and the transport. -/
theorem precondition_errors (C : Type)
    (fd fc : World Futures.WebSocketBase) (sd sc : World Spot.WebSocket) (td tc : World C)
    (hfd : fd.client.connected = false) (mfd : fd.client.mutex = {})
    (hfc : fc.client.connected = true) (mfc : fc.client.mutex = {})
    (hsd : sd.client.connected = false) (msd : sd.client.mutex = {})
    (hsc : sc.client.connected = true) (msc : sc.client.mutex = {})
    (htd : td.transport.connected = false)
    (mtd : td.transport.mutex = {})
    (htc : tc.transport.connected = true)
    (mtc : tc.transport.mutex = {})
    (closeErr dialErr : Option String) (url : String)
    (exchangeInfo : Except String (List (String × CurrencyPair))) :
    Futures.Close fd closeErr = Outcome.returned fd (some "not connected") ∧
      Futures.Connect fc exchangeInfo dialErr = Outcome.returned fc (some "already connected") ∧
      Spot.Close sd closeErr = Outcome.returned sd (some "not connected") ∧
      Spot.Connect sc exchangeInfo dialErr = Outcome.returned sc (some "already connected") ∧
      DefaultWebSocketClient.Close td closeErr = Outcome.returned td (some "not connected") ∧
      DefaultWebSocketClient.Connect tc url dialErr
        = Outcome.returned tc (some "already connected") := by
  have l0 : RWMutex.lock {} = some (RWMutex.mk true 0) := rfl
  have u0 : RWMutex.unlock (RWMutex.mk true 0) = {} := rfl
  refine ⟨?_, ?_, ?_, ?_, ?_, ?_⟩
  · obtain ⟨cl, tr⟩ := fd
    cases cl
    simp only at hfd mfd
    subst hfd mfd
    simp [Futures.Close, l0, u0]
  · obtain ⟨cl, tr⟩ := fc
    cases cl
    simp only at hfc mfc
    subst hfc mfc
    simp [Futures.Connect, l0, u0]
  · obtain ⟨cl, tr⟩ := sd
    cases cl
    simp only at hsd msd
    subst hsd msd
    simp [Spot.Close, l0, u0]
  · obtain ⟨cl, tr⟩ := sc
    cases cl
    simp only at hsc msc
    subst hsc msc
    simp [Spot.Connect, l0, u0]
  · obtain ⟨cl, tr⟩ := td
    cases tr
    simp only at htd mtd
    subst htd mtd
    simp [DefaultWebSocketClient.Close, l0, u0]
  · obtain ⟨cl, tr⟩ := tc
    cases tr
    simp only at htc mtc
    subst htc mtc
    simp [DefaultWebSocketClient.Connect, l0, u0]

/-- Witness for `precondition_errors`: fresh clients for the disconnected side, connected
worlds for the connected side. -/
theorem precondition_errors_witness :
    Futures.Close (Futures.NewWebSocketBase "k" "s") none
        = Outcome.returned (Futures.NewWebSocketBase "k" "s") (some "not connected") ∧
      Futures.Connect (connectedWorld Futures.WebSocketBase { connected := true })
          (Except.ok []) none
        = Outcome.returned (connectedWorld Futures.WebSocketBase { connected := true })
            (some "already connected") ∧
      Spot.Close Spot.NewWebSocket none
        = Outcome.returned Spot.NewWebSocket (some "not connected") ∧
      Spot.Connect (connectedWorld Spot.WebSocket { connected := true }) (Except.ok []) none
        = Outcome.returned (connectedWorld Spot.WebSocket { connected := true })
            (some "already connected") ∧
      DefaultWebSocketClient.Close (Futures.NewWebSocketBase "k" "s") none
        = Outcome.returned (Futures.NewWebSocketBase "k" "s") (some "not connected") ∧
      DefaultWebSocketClient.Connect
          (connectedWorld Futures.WebSocketBase { connected := true }) "wss://x" none
        = Outcome.returned (connectedWorld Futures.WebSocketBase { connected := true })
            (some "already connected") :=
  precondition_errors Futures.WebSocketBase
    (Futures.NewWebSocketBase "k" "s")
    (connectedWorld Futures.WebSocketBase { connected := true })
    Spot.NewWebSocket
    (connectedWorld Spot.WebSocket { connected := true })
    (Futures.NewWebSocketBase "k" "s")
    (connectedWorld Futures.WebSocketBase { connected := true })
    rfl rfl rfl rfl rfl rfl rfl rfl rfl rfl rfl rfl none none "wss://x" (Except.ok [])

/-- C4: the futures exchange-info map is keyed by base asset + quote asset + contract
type, not by symbol: the listing entry BTCUSDT / BTC / USDT / PERPETUAL is stored under
`BTCUSDTPERPETUAL`, the key `BTCUSDT` is absent, and with this map as instrument cache
the dispatcher drops the ticker frame for BTCUSDT although a handler is registered. -/
theorem exchange_info_key_is_not_symbol (cast : Futures.Cast) (h : Nat) :
    Futures.UnmarshalGetExchangeInfoResponse cast listing
        = ([("BTCUSDTPERPETUAL", btcusdt)], none) ∧
      Futures.GetExchangeInfo cast (Except.ok listing)
        = Except.ok [("BTCUSDTPERPETUAL", btcusdt)] ∧
      btcusdt.Symbol = "BTCUSDT" ∧
      List.lookup "BTCUSDT" [("BTCUSDTPERPETUAL", btcusdt)] = none ∧
      Futures.handleMessage
          { tickerHandlers := [("btcusdt", some h)],
            currencyPairM := [("BTCUSDTPERPETUAL", btcusdt)] }
          (Except.ok tickerFrame)
        = Except.ok (none, []) :=
  ⟨rfl, rfl, rfl, rfl, rfl⟩

/-- C5: the futures kline adapters do not round-trip the constants 1m, 5m, 15m, 30m, 1d and
1w of the `KLINE_PERIOD_*` family.  `SubscribeKline` with `KLINE_PERIOD_1MIN` subscribes the
channel `btcusdt@kline_1m` and registers the handler under `btcusdt_1m`; the kline events of
that channel, direct or combined, are looked up under `btcusdt_1min` and reach no handler. -/
theorem futures_kline_round_trip_fails :
    notRoundTripped Futures.adaptKlinePeriod Futures.reverseAdaptKlinePeriod
        = ["1m", "5m", "15m", "30m", "1d", "1w", "1d", "1w"] ∧
      Futures.reverseAdaptKlinePeriod (Futures.adaptKlinePeriod KLINE_PERIOD_1MIN) = Kline_1min ∧
      ∃ w, Futures.SubscribeKline futuresReady btcusdt KLINE_PERIOD_1MIN (some 7) "id" none
            = Outcome.returned w none ∧
        w.client.klineHandlers = [("btcusdt_1m", some 7)] ∧
        w.transport.effects = [TransportEffect.writeText
          { method := "SUBSCRIBE", params := ["btcusdt@kline_1m"], id := "id" }] ∧
        Futures.handleMessage w.client (Except.ok (klineEvent "1m")) = Except.ok (none, []) ∧
        Futures.handleMessage w.client
            (Except.ok (envelope "btcusdt@kline_1m" (klinePayload "1m")))
          = Except.ok (none, []) := by
  refine ⟨by decide, by decide, _, rfl, ?_, ?_, ?_, ?_⟩
  · decide
  · decide
  · decide
  · decide

/-- C6: the spot kline adapters do not round-trip the `Kline_*` constants 1min, 5min, 15min,
30min, 60min, 1day and 1week.  `SubscribeKline` with `Kline_1min` subscribes the channel
`btcusdt@kline_1m` and registers the handler under `btcusdt_1min`; the kline events of that
channel, direct or combined, are looked up under `btcusdt_1m` and reach no handler. -/
theorem spot_kline_round_trip_fails :
    notRoundTripped Spot.adaptKlinePeriod Spot.reverseAdaptKlinePeriod
        = ["1min", "5min", "15min", "30min", "60min", "1day", "1week"] ∧
      Spot.reverseAdaptKlinePeriod (Spot.adaptKlinePeriod Kline_1min) = KLINE_PERIOD_1MIN ∧
      ∃ w, Spot.SubscribeKline spotReady btcusdt Kline_1min (some 7) "id" none
            = Outcome.returned w none ∧
        w.client.klineHandlers = [("btcusdt_1min", some 7)] ∧
        w.transport.effects = [TransportEffect.writeText
          { method := "SUBSCRIBE", params := ["btcusdt@kline_1m"], id := "id" }] ∧
        Spot.handleMessage w.client (Except.ok (klineEvent "1m")) = Except.ok [] ∧
        Spot.handleMessage w.client
            (Except.ok (envelope "btcusdt@kline_1m" (klinePayload "1m")))
          = Except.ok [] := by
  refine ⟨by decide, by decide, _, rfl, ?_, ?_, ?_, ?_⟩
  · decide
  · decide
  · decide
  · decide

/-- C7: the trade channel does not come back to the trade handlers.  `SubscribeTrade`
registers the handler under `btcusdt` and subscribes `btcusdt@aggTrade`; a combined-stream
frame named `btcusdt@aggTrade` matches no branch of the dispatcher and invokes nothing,
whatever its payload, while the same event in direct form reaches the trade handler.  The
depth, ticker, kline and funding-rate channels do come back to the handler of their kind. -/
theorem futures_trade_stream_unclassified :
    (∃ w, Futures.SubscribeTrade futuresReady btcusdt (some 7) "id" none
          = Outcome.returned w none ∧
        w.client.tradeHandlers = [("btcusdt", some 7)] ∧
        w.transport.effects = [TransportEffect.writeText
          { method := "SUBSCRIBE", params := ["btcusdt@aggTrade"], id := "id" }] ∧
        (∀ data : JSON,
          Futures.handleMessage w.client (Except.ok (envelope "btcusdt@aggTrade" data))
            = Except.ok (none, [])) ∧
        (callsOf (Futures.handleMessage w.client (Except.ok aggTradeEvent))).map Call.isTrade
          = [true]) ∧
      Futures.depthChannel btcusdt 20 [] = "btcusdt@depth20@100ms" ∧
      (subscribeThenDispatch (Futures.SubscribeDepth futuresReady btcusdt 20 (some 7) [] "id" none)
          "btcusdt@depth20@100ms" depthPayload).map (List.map Call.isDepth) = some [true] ∧
      Futures.tickerChannel btcusdt = "btcusdt@ticker" ∧
      (subscribeThenDispatch (Futures.SubscribeTicker futuresReady btcusdt (some 7) "id" none)
          "btcusdt@ticker" (JSON.obj tickerFrame)).map (List.map Call.isTicker) = some [true] ∧
      Futures.klineChannel btcusdt Kline_1min = "btcusdt@kline_1m" ∧
      (subscribeThenDispatch
          (Futures.SubscribeKline futuresReady btcusdt Kline_1min (some 7) "id" none)
          "btcusdt@kline_1m" (klinePayload "1m")).map (List.map Call.isKline) = some [true] ∧
      Futures.fundingRateChannel btcusdt = "btcusdt@markPrice" ∧
      (subscribeThenDispatch
          (Futures.SubscribeFundingRate futuresReady btcusdt (some 7) "id" none)
          "btcusdt@markPrice" markPricePayload).map (List.map Call.isFundingRate)
        = some [true] := by
  refine ⟨⟨_, rfl, ?_, ?_, ?_, ?_⟩, ?_, ?_, ?_, ?_, ?_, ?_, ?_, ?_⟩
  · decide
  · decide
  · intro data
    rfl
  · decide
  · decide
  · decide
  · decide
  · decide
  · decide
  · decide
  · decide
  · decide

/-- C8: the spot dispatcher panics on corrupt frames.  A frame whose `stream` field is not
a string, or whose `e` field is not a string, fails the unchecked assertion; a combined
depth frame for a cached symbol with a bid of one element, or of none, reads past the end
of the item. -/
theorem spot_corrupt_frame_panics (ws : Spot.WebSocket) (v : JSON)
    (hv : ∀ s, v ≠ JSON.str s) :
    Spot.handleMessage ws (Except.ok [("stream", v)]) = Except.error Panic.typeAssertion ∧
      Spot.handleMessage ws (Except.ok [("e", v)]) = Except.error Panic.typeAssertion ∧
      Spot.handleMessage { currencyPairM := [("BTCUSDT", btcusdt)] }
          (Except.ok (envelope "btcusdt@depth20@100ms"
            (JSON.obj [("bids", JSON.arr [JSON.arr [JSON.str "65000.1"]])])))
        = Except.error Panic.indexOutOfRange ∧
      Spot.handleMessage { currencyPairM := [("BTCUSDT", btcusdt)] }
          (Except.ok (envelope "btcusdt@depth20@100ms"
            (JSON.obj [("asks", JSON.arr [JSON.arr []])])))
        = Except.error Panic.indexOutOfRange := by
  refine ⟨?_, ?_, by decide, by decide⟩
  · cases v with
    | str s => exact absurd rfl (hv s)
    | null => rfl
    | bool b => rfl
    | num n => rfl
    | arr xs => rfl
    | obj m => rfl
  · cases v with
    | str s => exact absurd rfl (hv s)
    | null => rfl
    | bool b => rfl
    | num n => rfl
    | arr xs => rfl
    | obj m => rfl

/-- Witness for `spot_corrupt_frame_panics`: the frames `{"stream":1}` and `{"e":1}`. -/
theorem spot_corrupt_frame_panics_witness :
    Spot.handleMessage {} (Except.ok [("stream", JSON.num (F64.fin 1 0))])
        = Except.error Panic.typeAssertion ∧
      Spot.handleMessage {} (Except.ok [("e", JSON.num (F64.fin 1 0))])
        = Except.error Panic.typeAssertion :=
  ⟨(spot_corrupt_frame_panics {} (JSON.num (F64.fin 1 0)) (by intro s hs; cases hs)).1,
   (spot_corrupt_frame_panics {} (JSON.num (F64.fin 1 0)) (by intro s hs; cases hs)).2.1⟩

/-- An index within the length does not panic. -/
theorem index_ok {α : Type} (xs : List α) (i : Nat) (h : i < xs.length) :
    ∃ x, index xs i = Except.ok x := by
  unfold index
  cases hx : xs.get? i with
  | some x => exact ⟨x, rfl⟩
  | none =>
    rw [List.get?_eq_none] at hx
    omega

/-- The futures level loop body does not panic: the length test guards both indices. -/
theorem Futures.depthLevel_ok (item : JSON) : ∃ r, Futures.depthLevel item = Except.ok r := by
  unfold Futures.depthLevel
  cases asArray (some item) with
  | none => exact ⟨none, rfl⟩
  | some bid =>
    by_cases hl : bid.length < 2
    · exact ⟨none, by simp [hl]⟩
    · obtain ⟨p, hp⟩ := index_ok bid 0 (by omega)
      obtain ⟨a, ha⟩ := index_ok bid 1 (by omega)
      exact ⟨some ⟨(ToFloat64 (some p)).1, (ToFloat64 (some a)).1⟩, by
        simp [hl, hp, ha, bind, Except.bind, pure, Except.pure]⟩

/-- The futures level loops do not panic. -/
theorem Futures.depthLevels_ok (items : List JSON) :
    ∃ r, Futures.depthLevels items = Except.ok r := by
  induction items with
  | nil => exact ⟨[], rfl⟩
  | cons item rest ih =>
    obtain ⟨l, hl⟩ := Futures.depthLevel_ok item
    obtain ⟨ls, hls⟩ := ih
    exact ⟨l.toList ++ ls, by
      simp [Futures.depthLevels, hl, hls, bind, Except.bind, pure, Except.pure]⟩

/-- The futures depth handler does not panic. -/
theorem Futures.handleDepthUpdateMessage_ok (ws : Futures.WebSocketBase) (msg : JObj) :
    ∃ r, Futures.handleDepthUpdateMessage ws msg = Except.ok r := by
  unfold Futures.handleDepthUpdateMessage
  obtain ⟨bids, hb⟩ := Futures.depthLevels_ok ((asArray (msg.get "b")).getD [])
  obtain ⟨asks, ha⟩ := Futures.depthLevels_ok ((asArray (msg.get "a")).getD [])
  simp only []
  split
  · exact ⟨_, rfl⟩
  · simp [hb, ha, bind, Except.bind, pure, Except.pure]

/-- The futures order handler does not panic. -/
theorem Futures.handleOrderUpdateMessage_ok (ws : Futures.WebSocketBase) (msg : JObj) :
    ∃ r, Futures.handleOrderUpdateMessage ws msg = Except.ok r := by
  unfold Futures.handleOrderUpdateMessage
  simp only []
  split
  · exact ⟨_, rfl⟩
  · split <;> exact ⟨_, rfl⟩

/-- The futures account handler does not panic. -/
theorem Futures.handleAccountUpdateMessage_ok (ws : Futures.WebSocketBase) (msg : JObj) :
    ∃ r, Futures.handleAccountUpdateMessage ws msg = Except.ok r := by
  unfold Futures.handleAccountUpdateMessage
  simp only []
  split <;> exact ⟨_, rfl⟩

/-- The futures combined trade handler does not panic. -/
theorem Futures.handleTradeMessage_ok (ws : Futures.WebSocketBase) (symbol : String)
    (data : JObj) : ∃ r, Futures.handleTradeMessage ws symbol data = Except.ok r := by
  unfold Futures.handleTradeMessage
  simp only []
  split
  · exact ⟨_, rfl⟩
  · split <;> exact ⟨_, rfl⟩

/-- The futures direct trade handler does not panic. -/
theorem Futures.handleTradeUpdateMessage_ok (ws : Futures.WebSocketBase) (msg : JObj) :
    ∃ r, Futures.handleTradeUpdateMessage ws msg = Except.ok r := by
  unfold Futures.handleTradeUpdateMessage
  simp only []
  split <;> exact ⟨_, rfl⟩

/-- The futures combined funding-rate handler does not panic. -/
theorem Futures.handleFundingRateMessage_ok (ws : Futures.WebSocketBase) (symbol : String)
    (data : JObj) : ∃ r, Futures.handleFundingRateMessage ws symbol data = Except.ok r := by
  unfold Futures.handleFundingRateMessage
  simp only []
  split
  · exact ⟨_, rfl⟩
  · split <;> exact ⟨_, rfl⟩

/-- The futures direct funding-rate handler does not panic. -/
theorem Futures.handleFundingRateUpdateMessage_ok (ws : Futures.WebSocketBase) (msg : JObj) :
    ∃ r, Futures.handleFundingRateUpdateMessage ws msg = Except.ok r := by
  unfold Futures.handleFundingRateUpdateMessage
  simp only []
  split <;> exact ⟨_, rfl⟩

/-- The futures combined ticker handler does not panic. -/
theorem Futures.handleTickerMessage_ok (ws : Futures.WebSocketBase) (symbol : String)
    (data : JObj) : ∃ r, Futures.handleTickerMessage ws symbol data = Except.ok r := by
  unfold Futures.handleTickerMessage
  simp only []
  split
  · exact ⟨_, rfl⟩
  · split <;> exact ⟨_, rfl⟩

/-- The futures direct ticker handler does not panic. -/
theorem Futures.handleTickerUpdateMessage_ok (ws : Futures.WebSocketBase) (msg : JObj) :
    ∃ r, Futures.handleTickerUpdateMessage ws msg = Except.ok r := by
  unfold Futures.handleTickerUpdateMessage
  simp only []
  split <;> exact ⟨_, rfl⟩

/-- The futures combined kline handler does not panic: the length test guards the index. -/
theorem Futures.handleKlineMessage_ok (ws : Futures.WebSocketBase) (symbol streamType : String)
    (data : JObj) : ∃ r, Futures.handleKlineMessage ws symbol streamType data = Except.ok r := by
  unfold Futures.handleKlineMessage
  simp only []
  split
  · exact ⟨_, rfl⟩
  · by_cases hl : (Split streamType '_').length < 2
    · exact ⟨[], by simp [hl]⟩
    · obtain ⟨interval, hi⟩ := index_ok (Split streamType '_') 1 (by omega)
      simp only [hl, if_false, hi, bind, Except.bind]
      split <;> exact ⟨_, rfl⟩

/-- The futures direct kline handler does not panic. -/
theorem Futures.handleKlineUpdateMessage_ok (ws : Futures.WebSocketBase) (msg : JObj) :
    ∃ r, Futures.handleKlineUpdateMessage ws msg = Except.ok r := by
  unfold Futures.handleKlineUpdateMessage
  simp only []
  split
  · exact ⟨_, rfl⟩
  · split <;> exact ⟨_, rfl⟩

/-- Attaching the nil error keeps a normal return. -/
theorem Futures.noError_ok (r : Except Panic (List Call)) (h : ∃ x, r = Except.ok x) :
    ∃ y, Futures.noError r = Except.ok y := by
  obtain ⟨x, rfl⟩ := h
  exact ⟨_, rfl⟩

/-- Dropping the error keeps a normal return. -/
theorem Futures.ignoreError_ok (r : Except Panic (Option HandlerError × List Call))
    (h : ∃ x, r = Except.ok x) : ∃ y, Futures.ignoreError r = Except.ok y := by
  obtain ⟨x, rfl⟩ := h
  exact ⟨_, rfl⟩

/-- C9: the futures dispatcher returns normally on every frame, decodable or not, and for
every state of the client; when `json.Unmarshal` fails it returns the decode error and
invokes no handler. -/
theorem futures_frame_never_panics (ws : Futures.WebSocketBase) (decoded : Except String JObj) :
    (∃ r, Futures.handleMessage ws decoded = Except.ok r) ∧
      (∀ e, Futures.handleMessage ws (Except.error e)
        = Except.ok (some (HandlerError.decode e), [])) := by
  refine ⟨?_, fun e => rfl⟩
  cases decoded with
  | error e => exact ⟨_, rfl⟩
  | ok data =>
    unfold Futures.handleMessage
    simp only
    split
    · exact ⟨_, rfl⟩
    · split
      · rename_i stream _
        by_cases hl : (Split stream '@').length < 2
        · rw [if_pos hl]
          exact ⟨_, rfl⟩
        · obtain ⟨symbol, h0⟩ := index_ok (Split stream '@') 0 (by omega)
          obtain ⟨streamType, h1⟩ := index_ok (Split stream '@') 1 (by omega)
          simp only [hl, if_false, h0, h1, bind, Except.bind]
          split
          · exact Futures.handleDepthUpdateMessage_ok _ _
          · split
            · exact Futures.noError_ok _ (Futures.handleTickerMessage_ok _ _ _)
            · split
              · exact Futures.noError_ok _ (Futures.handleKlineMessage_ok _ _ _ _)
              · split
                · exact Futures.ignoreError_ok _ (Futures.handleTradeMessage_ok _ _ _)
                · split
                  · exact Futures.noError_ok _ (Futures.handleFundingRateMessage_ok _ _ _)
                  · exact ⟨_, rfl⟩
      · split
        · split
          · exact Futures.noError_ok _ (Futures.handleOrderUpdateMessage_ok _ _)
          · split
            · exact Futures.noError_ok _ (Futures.handleAccountUpdateMessage_ok _ _)
            · split
              · exact Futures.ignoreError_ok _ (Futures.handleDepthUpdateMessage_ok _ _)
              · split
                · exact Futures.noError_ok _ (Futures.handleTickerUpdateMessage_ok _ _)
                · split
                  · exact Futures.noError_ok _ (Futures.handleKlineUpdateMessage_ok _ _)
                  · split
                    · exact Futures.noError_ok _ (Futures.handleTradeUpdateMessage_ok _ _)
                    · split
                      · exact Futures.noError_ok _
                          (Futures.handleFundingRateUpdateMessage_ok _ _)
                      · exact ⟨_, rfl⟩
        · exact ⟨_, rfl⟩

/-- A combined-stream depth frame whose symbol is absent from the instrument cache (and has
no handler) makes the futures dispatcher return the unknown-symbol error, not nil. -/
theorem unknown_symbol_combined_depth_returns_error :
    Futures.handleMessage {} (Except.ok (envelope "btcusdt@depth20@100ms" depthPayload))
        = Except.ok (some (HandlerError.unknownSymbol "BTCUSDT"), []) ∧
      Futures.handleMessage {} (Except.ok (envelope "btcusdt@depth20@100ms" depthPayload))
        ≠ Except.ok (none, []) := by
  decide

example : Futures.route (envelope "btcusdt@depth20@100ms" depthPayload)
    = some ⟨"BTCUSDT", Family.depth, "btcusdt", true⟩ := by decide
example : Futures.route tickerFrame = some ⟨"BTCUSDT", Family.ticker, "btcusdt", false⟩ := by
  decide
example : Futures.route (envelope "btcusdt@kline_1m" (klinePayload "1m"))
    = some ⟨"BTCUSDT", Family.kline, "btcusdt_1min", false⟩ := by decide

/-- Nothing is invoked when no handler is found under the key. -/
theorem invoke_nil (m : Handlers) (key : String) (mk : Nat → Call)
    (h : m.find key = none) : invoke m key mk = [] := by
  unfold invoke
  rw [h]

/-- The futures depth handler invokes nothing for an unknown or unregistered symbol. -/
theorem Futures.handleDepthUpdateMessage_drop (ws : Futures.WebSocketBase) (msg : JObj)
    (h : ws.currencyPairM.lookup ((asString (msg.get "s")).getD "") = none ∨
      ws.depthHandlers.find (ToLower ((asString (msg.get "s")).getD "")) = none) :
    ∃ err, Futures.handleDepthUpdateMessage ws msg = Except.ok (err, []) := by
  unfold Futures.handleDepthUpdateMessage
  obtain ⟨bids, hb⟩ := Futures.depthLevels_ok ((asArray (msg.get "b")).getD [])
  obtain ⟨asks, ha⟩ := Futures.depthLevels_ok ((asArray (msg.get "a")).getD [])
  simp only []
  split
  · exact ⟨_, rfl⟩
  · rename_i pair hp
    rcases h with h | h
    · rw [h] at hp
      cases hp
    · exact ⟨none, by simp [hb, ha, bind, Except.bind, pure, Except.pure, invoke_nil _ _ _ h]⟩

/-- The futures direct ticker handler invokes nothing for an unknown or unregistered
symbol. -/
theorem Futures.handleTickerUpdateMessage_drop (ws : Futures.WebSocketBase) (msg : JObj)
    (h : ws.currencyPairM.lookup ((asString (msg.get "s")).getD "") = none ∨
      ws.tickerHandlers.find (ToLower ((asString (msg.get "s")).getD "")) = none) :
    Futures.handleTickerUpdateMessage ws msg = Except.ok [] := by
  unfold Futures.handleTickerUpdateMessage
  simp only []
  split
  · rfl
  · rename_i pair hp
    rcases h with h | h
    · rw [h] at hp
      cases hp
    · rw [invoke_nil _ _ _ h]

/-- The futures direct trade handler invokes nothing for an unknown or unregistered
symbol. -/
theorem Futures.handleTradeUpdateMessage_drop (ws : Futures.WebSocketBase) (msg : JObj)
    (h : ws.currencyPairM.lookup ((asString (msg.get "s")).getD "") = none ∨
      ws.tradeHandlers.find (ToLower ((asString (msg.get "s")).getD "")) = none) :
    Futures.handleTradeUpdateMessage ws msg = Except.ok [] := by
  unfold Futures.handleTradeUpdateMessage
  simp only []
  split
  · rfl
  · rename_i pair hp
    rcases h with h | h
    · rw [h] at hp
      cases hp
    · rw [invoke_nil _ _ _ h]

/-- The futures direct funding-rate handler invokes nothing for an unknown or unregistered
symbol. -/
theorem Futures.handleFundingRateUpdateMessage_drop (ws : Futures.WebSocketBase) (msg : JObj)
    (h : ws.currencyPairM.lookup ((asString (msg.get "s")).getD "") = none ∨
      ws.fundingRateHandlers.find (ToLower ((asString (msg.get "s")).getD "")) = none) :
    Futures.handleFundingRateUpdateMessage ws msg = Except.ok [] := by
  unfold Futures.handleFundingRateUpdateMessage
  simp only []
  split
  · rfl
  · rename_i pair hp
    rcases h with h | h
    · rw [h] at hp
      cases hp
    · rw [invoke_nil _ _ _ h]

/-- The futures direct kline handler invokes nothing for an unknown or unregistered
symbol. -/
theorem Futures.handleKlineUpdateMessage_drop (ws : Futures.WebSocketBase) (msg : JObj)
    (h : ∀ k, asObject (msg.get "k") = some k →
      ws.currencyPairM.lookup ((asString (msg.get "s")).getD "") = none ∨
      ws.klineHandlers.find (ToLower ((asString (msg.get "s")).getD "") ++ "_" ++
        Futures.reverseAdaptKlinePeriod ((asString (k.get "i")).getD "")) = none) :
    Futures.handleKlineUpdateMessage ws msg = Except.ok [] := by
  unfold Futures.handleKlineUpdateMessage
  simp only []
  split
  · rfl
  · rename_i k hk
    split
    · rfl
    · rename_i pair hp
      rcases h k hk with h | h
      · rw [h] at hp
        cases hp
      · rw [invoke_nil _ _ _ h]

/-- The futures order handler invokes nothing for an unknown symbol or without an order
handler. -/
theorem Futures.handleOrderUpdateMessage_drop (ws : Futures.WebSocketBase) (msg : JObj)
    (h : ∀ o, asObject (msg.get "o") = some o →
      ws.currencyPairM.lookup ((asString (o.get "s")).getD "") = none ∨
      ws.orderHandlers.find "order" = none) :
    Futures.handleOrderUpdateMessage ws msg = Except.ok [] := by
  unfold Futures.handleOrderUpdateMessage
  simp only []
  split
  · rfl
  · rename_i o ho
    split
    · rfl
    · rename_i pair hp
      rcases h o ho with h | h
      · rw [h] at hp
        cases hp
      · rw [invoke_nil _ _ _ h]

/-- The futures combined ticker handler invokes nothing for an unknown or unregistered
symbol. -/
theorem Futures.handleTickerMessage_drop (ws : Futures.WebSocketBase) (symbol : String)
    (data : JObj)
    (h : ∀ st, unmarshalStruct Futures.tickerSchema (some (JSON.obj data)) = some st →
      ws.currencyPairM.lookup (st.str "s") = none ∨
      ws.tickerHandlers.find (ToLower symbol) = none) :
    Futures.handleTickerMessage ws symbol data = Except.ok [] := by
  unfold Futures.handleTickerMessage
  split
  · rfl
  · rename_i st hst
    split
    · rfl
    · rename_i pair hp
      rcases h st hst with h | h
      · rw [h] at hp
        cases hp
      · simp only [invoke_nil _ _ _ h]

/-- The futures combined trade handler invokes nothing for an unknown or unregistered
symbol. -/
theorem Futures.handleTradeMessage_drop (ws : Futures.WebSocketBase) (symbol : String)
    (data : JObj)
    (h : ∀ st, unmarshalStruct Futures.tradeSchema (some (JSON.obj data)) = some st →
      ws.currencyPairM.lookup (st.str "s") = none ∨
      ws.tradeHandlers.find (ToLower symbol) = none) :
    ∃ err, Futures.handleTradeMessage ws symbol data = Except.ok (err, []) := by
  unfold Futures.handleTradeMessage
  split
  · exact ⟨_, rfl⟩
  · rename_i st hst
    split
    · exact ⟨_, rfl⟩
    · rename_i pair hp
      rcases h st hst with h | h
      · rw [h] at hp
        cases hp
      · simp only [invoke_nil _ _ _ h]
        exact ⟨_, rfl⟩

/-- The futures combined funding-rate handler invokes nothing for an unknown or
unregistered symbol. -/
theorem Futures.handleFundingRateMessage_drop (ws : Futures.WebSocketBase) (symbol : String)
    (data : JObj)
    (h : ∀ st, unmarshalStruct Futures.fundingRateSchema (some (JSON.obj data)) = some st →
      ws.currencyPairM.lookup (st.str "s") = none ∨
      ws.fundingRateHandlers.find (ToLower symbol) = none) :
    Futures.handleFundingRateMessage ws symbol data = Except.ok [] := by
  unfold Futures.handleFundingRateMessage
  split
  · rfl
  · rename_i st hst
    split
    · rfl
    · rename_i pair hp
      rcases h st hst with h | h
      · rw [h] at hp
        cases hp
      · simp only [invoke_nil _ _ _ h]

/-- The futures combined kline handler invokes nothing for an unknown or unregistered
symbol. -/
theorem Futures.handleKlineMessage_drop (ws : Futures.WebSocketBase) (symbol streamType : String)
    (data : JObj)
    (h : ∀ st interval, unmarshalStruct Futures.klineSchema (some (JSON.obj data)) = some st →
      index (Split streamType '_') 1 = Except.ok interval →
      ws.currencyPairM.lookup (st.str "s") = none ∨
      ws.klineHandlers.find
        (ToLower symbol ++ "_" ++ Futures.reverseAdaptKlinePeriod interval) = none) :
    Futures.handleKlineMessage ws symbol streamType data = Except.ok [] := by
  unfold Futures.handleKlineMessage
  split
  · rfl
  · rename_i st hst
    by_cases hl : (Split streamType '_').length < 2
    · simp [hl]
    · obtain ⟨interval, hi⟩ := index_ok (Split streamType '_') 1 (by omega)
      simp only [hl, if_false, hi, bind, Except.bind]
      split
      · rfl
      · rename_i pair hp
        rcases h st interval hst hi with h | h
        · rw [h] at hp
          cases hp
        · rw [invoke_nil _ _ _ h]
          rfl

/-- For a futures frame that is not an account update, if the symbol the dispatcher looks
up is absent from the instrument cache, or no handler is registered under the key it looks
up, then no handler is invoked; and for every such frame that is not a combined-stream
depth frame the dispatcher returns nil.  A frame without a route reaches no lookup and
invokes nothing either. -/
theorem unknown_or_unregistered_symbol (ws : Futures.WebSocketBase) (data : JObj)
    (hacc : Futures.isAccountUpdate data = false)
    (h : ∀ r, Futures.route data = some r →
      ws.currencyPairM.lookup r.symbol = none ∨ (ws.handlersOf r.family).find r.key = none) :
    (∃ err, Futures.handleMessage ws (Except.ok data) = Except.ok (err, [])) ∧
      (∀ r, Futures.route data = some r → r.combinedDepth = false →
        Futures.handleMessage ws (Except.ok data) = Except.ok (none, [])) := by
  unfold Futures.handleMessage
  simp only []
  cases hcode : asFloat64 (data.get "code") with
  | some code =>
    have hr : Futures.route data = none := by simp [Futures.route, hcode]
    refine ⟨⟨_, rfl⟩, ?_⟩
    intro r h1
    rw [hr] at h1
    cases h1
  | none =>
    simp only []
    cases hstream : asString (data.get "stream") with
    | some stream =>
      simp only []
      by_cases hl : (Split stream '@').length < 2
      · have hr : Futures.route data = none := by simp [Futures.route, hcode, hstream, hl]
        rw [if_pos hl]
        refine ⟨⟨_, rfl⟩, ?_⟩
        intro r h1
        rw [hr] at h1
        cases h1
      · obtain ⟨symbol, h0⟩ := index_ok (Split stream '@') 0 (by omega)
        obtain ⟨streamType, h1⟩ := index_ok (Split stream '@') 1 (by omega)
        simp only [hl, if_false, h0, h1, bind, Except.bind]
        by_cases c1 : HasPrefix streamType "depth" = true
        · have hroute : Futures.route data
              = some ⟨(asString (JObj.get ((asObject (data.get "data")).getD []) "s")).getD "",
                  Family.depth,
                  ToLower ((asString (JObj.get ((asObject (data.get "data")).getD []) "s")).getD ""),
                  true⟩ := by
            simp only [Futures.route, hcode, hstream, hl, if_false, h0, h1]
            rw [if_pos c1]
          obtain ⟨err, he⟩ := Futures.handleDepthUpdateMessage_drop ws
            ((asObject (data.get "data")).getD []) (h _ hroute)
          rw [if_pos c1]
          refine ⟨⟨err, he⟩, ?_⟩
          intro r hr hc
          rw [hroute] at hr
          cases hr
          cases hc
        · by_cases c2 : streamType = "ticker"
          · have hroute : Futures.route data
                = (unmarshalStruct Futures.tickerSchema
                    (some (JSON.obj ((asObject (data.get "data")).getD [])))).map
                  (fun st => ⟨st.str "s", Family.ticker, ToLower symbol, false⟩) := by
              simp only [Futures.route, hcode, hstream, hl, if_false, h0, h1]
              rw [if_neg c1, if_pos c2]
            have hd := Futures.handleTickerMessage_drop ws symbol
              ((asObject (data.get "data")).getD [])
              (fun st hst => h _ (by rw [hroute, hst]; rfl))
            rw [if_neg c1, if_pos c2, hd]
            exact ⟨⟨_, rfl⟩, fun _ _ _ => rfl⟩
          · by_cases c3 : HasPrefix streamType "kline" = true
            · have hd := Futures.handleKlineMessage_drop ws symbol streamType
                ((asObject (data.get "data")).getD [])
                (fun st interval hst hi =>
                  h ⟨st.str "s", Family.kline,
                    ToLower symbol ++ "_" ++ Futures.reverseAdaptKlinePeriod interval, false⟩ (by
                  simp only [Futures.route, hcode, hstream, hl, if_false, h0, h1]
                  rw [if_neg c1, if_neg c2, if_pos c3]
                  simp only [hst, hi]))
              rw [if_neg c1, if_neg c2, if_pos c3, hd]
              exact ⟨⟨_, rfl⟩, fun _ _ _ => rfl⟩
            · by_cases c4 : streamType = "trade"
              · have hroute : Futures.route data
                    = (unmarshalStruct Futures.tradeSchema
                        (some (JSON.obj ((asObject (data.get "data")).getD [])))).map
                      (fun st => ⟨st.str "s", Family.trade, ToLower symbol, false⟩) := by
                  simp only [Futures.route, hcode, hstream, hl, if_false, h0, h1]
                  rw [if_neg c1, if_neg c2, if_neg c3, if_pos c4]
                obtain ⟨err, hd⟩ := Futures.handleTradeMessage_drop ws symbol
                  ((asObject (data.get "data")).getD [])
                  (fun st hst => h _ (by rw [hroute, hst]; rfl))
                rw [if_neg c1, if_neg c2, if_neg c3, if_pos c4, hd]
                exact ⟨⟨_, rfl⟩, fun _ _ _ => rfl⟩
              · by_cases c5 : streamType = "markPrice"
                · have hroute : Futures.route data
                      = (unmarshalStruct Futures.fundingRateSchema
                          (some (JSON.obj ((asObject (data.get "data")).getD [])))).map
                        (fun st => ⟨st.str "s", Family.fundingRate, ToLower symbol, false⟩) := by
                    simp only [Futures.route, hcode, hstream, hl, if_false, h0, h1]
                    rw [if_neg c1, if_neg c2, if_neg c3, if_neg c4, if_pos c5]
                  have hd := Futures.handleFundingRateMessage_drop ws symbol
                    ((asObject (data.get "data")).getD [])
                    (fun st hst => h _ (by rw [hroute, hst]; rfl))
                  rw [if_neg c1, if_neg c2, if_neg c3, if_neg c4, if_pos c5, hd]
                  exact ⟨⟨_, rfl⟩, fun _ _ _ => rfl⟩
                · rw [if_neg c1, if_neg c2, if_neg c3, if_neg c4, if_neg c5]
                  exact ⟨⟨_, rfl⟩, fun _ _ _ => rfl⟩
    | none =>
      simp only []
      cases he : asString (data.get "e") with
      | none => exact ⟨⟨_, rfl⟩, fun _ _ _ => rfl⟩
      | some e =>
        simp only []
        have hroute0 : Futures.route data
            = (if e = "ORDER_TRADE_UPDATE" then
                (asObject (data.get "o")).map
                  (fun o => ⟨(asString (o.get "s")).getD "", Family.order, "order", false⟩)
              else if e = "ACCOUNT_UPDATE" then none
              else if e = "depthUpdate" then
                some ⟨(asString (data.get "s")).getD "", Family.depth,
                  ToLower ((asString (data.get "s")).getD ""), false⟩
              else if e = "24hrTicker" then
                some ⟨(asString (data.get "s")).getD "", Family.ticker,
                  ToLower ((asString (data.get "s")).getD ""), false⟩
              else if e = "kline" then
                (asObject (data.get "k")).map
                  (fun k => ⟨(asString (data.get "s")).getD "", Family.kline,
                    ToLower ((asString (data.get "s")).getD "") ++ "_" ++
                      Futures.reverseAdaptKlinePeriod ((asString (k.get "i")).getD ""),
                    false⟩)
              else if e = "aggTrade" then
                some ⟨(asString (data.get "s")).getD "", Family.trade,
                  ToLower ((asString (data.get "s")).getD ""), false⟩
              else if e = "markPriceUpdate" then
                some ⟨(asString (data.get "s")).getD "", Family.fundingRate,
                  ToLower ((asString (data.get "s")).getD ""), false⟩
              else none) := by
          simp only [Futures.route, hcode, hstream, he]
        by_cases e1 : e = "ORDER_TRADE_UPDATE"
        · rw [if_pos e1] at hroute0
          have hd := Futures.handleOrderUpdateMessage_drop ws data
            (fun o ho => h _ (by rw [hroute0, ho]; rfl))
          rw [if_pos e1, hd]
          exact ⟨⟨_, rfl⟩, fun _ _ _ => rfl⟩
        · by_cases e2 : e = "ACCOUNT_UPDATE"
          · simp [Futures.isAccountUpdate, hcode, hstream, he, e2] at hacc
          · by_cases e3 : e = "depthUpdate"
            · rw [if_neg e1, if_neg e2, if_pos e3] at hroute0
              obtain ⟨err, hd⟩ := Futures.handleDepthUpdateMessage_drop ws data (h _ hroute0)
              rw [if_neg e1, if_neg e2, if_pos e3, hd]
              exact ⟨⟨_, rfl⟩, fun _ _ _ => rfl⟩
            · by_cases e4 : e = "24hrTicker"
              · rw [if_neg e1, if_neg e2, if_neg e3, if_pos e4] at hroute0
                have hd := Futures.handleTickerUpdateMessage_drop ws data (h _ hroute0)
                rw [if_neg e1, if_neg e2, if_neg e3, if_pos e4, hd]
                exact ⟨⟨_, rfl⟩, fun _ _ _ => rfl⟩
              · by_cases e5 : e = "kline"
                · rw [if_neg e1, if_neg e2, if_neg e3, if_neg e4, if_pos e5] at hroute0
                  have hd := Futures.handleKlineUpdateMessage_drop ws data
                    (fun k hk => h _ (by rw [hroute0, hk]; rfl))
                  rw [if_neg e1, if_neg e2, if_neg e3, if_neg e4, if_pos e5, hd]
                  exact ⟨⟨_, rfl⟩, fun _ _ _ => rfl⟩
                · by_cases e6 : e = "aggTrade"
                  · rw [if_neg e1, if_neg e2, if_neg e3, if_neg e4, if_neg e5, if_pos e6]
                      at hroute0
                    have hd := Futures.handleTradeUpdateMessage_drop ws data (h _ hroute0)
                    rw [if_neg e1, if_neg e2, if_neg e3, if_neg e4, if_neg e5, if_pos e6, hd]
                    exact ⟨⟨_, rfl⟩, fun _ _ _ => rfl⟩
                  · by_cases e7 : e = "markPriceUpdate"
                    · rw [if_neg e1, if_neg e2, if_neg e3, if_neg e4, if_neg e5, if_neg e6,
                        if_pos e7] at hroute0
                      have hd := Futures.handleFundingRateUpdateMessage_drop ws data
                        (h _ hroute0)
                      rw [if_neg e1, if_neg e2, if_neg e3, if_neg e4, if_neg e5, if_neg e6,
                        if_pos e7, hd]
                      exact ⟨⟨_, rfl⟩, fun _ _ _ => rfl⟩
                    · rw [if_neg e1, if_neg e2, if_neg e3, if_neg e4, if_neg e5, if_neg e6,
                        if_neg e7]
                      exact ⟨⟨_, rfl⟩, fun _ _ _ => rfl⟩

/-- Witness for `unknown_or_unregistered_symbol`: BTCUSDT is cached but no handler is
registered, and the ticker frame of the specification invokes nothing and returns nil. -/
theorem unknown_or_unregistered_symbol_witness :
    Futures.isAccountUpdate tickerFrame = false ∧
      Futures.route tickerFrame = some ⟨"BTCUSDT", Family.ticker, "btcusdt", false⟩ ∧
      Futures.handleMessage { currencyPairM := [("BTCUSDT", btcusdt)] } (Except.ok tickerFrame)
        = Except.ok (none, []) :=
  ⟨rfl, by decide,
    (unknown_or_unregistered_symbol { currencyPairM := [("BTCUSDT", btcusdt)] } tickerFrame rfl
      (fun r _ => Or.inr (by cases r.family <;> rfl))).2
      ⟨"BTCUSDT", Family.ticker, "btcusdt", false⟩ (by decide) rfl⟩

/-- C10: a depth event whose symbol is absent from the instrument cache invokes no handler,
but whether the futures dispatcher returns nil depends on the frame it arrives in: as the
payload of a combined-stream frame (`<symbol>@depth...`) the dispatcher returns the
unknown-symbol error to its caller, as a direct frame it returns nil. -/
theorem unknown_symbol_depth_error_escapes (ws : Futures.WebSocketBase)
    (stream symbol streamType : String) (rest : List String) (event : JObj)
    (hparts : Split stream '@' = symbol :: streamType :: rest)
    (hdepth : HasPrefix streamType "depth" = true)
    (hcode : asFloat64 (event.get "code") = none)
    (hstream : asString (event.get "stream") = none)
    (he : asString (event.get "e") = some "depthUpdate")
    (hunknown : ws.currencyPairM.lookup ((asString (event.get "s")).getD "") = none) :
    Futures.handleMessage ws (Except.ok (envelope stream (JSON.obj event)))
        = Except.ok
            (some (HandlerError.unknownSymbol ((asString (event.get "s")).getD "")), []) ∧
      Futures.handleMessage ws (Except.ok event) = Except.ok (none, []) := by
  have hd : Futures.handleDepthUpdateMessage ws event
      = Except.ok
          (some (HandlerError.unknownSymbol ((asString (event.get "s")).getD "")), []) := by
    unfold Futures.handleDepthUpdateMessage
    simp only [hunknown]
  constructor
  · have h1 : asFloat64 (JObj.get (envelope stream (JSON.obj event)) "code") = none := rfl
    have h2 : asString (JObj.get (envelope stream (JSON.obj event)) "stream") = some stream :=
      rfl
    have h3 : asObject (JObj.get (envelope stream (JSON.obj event)) "data") = some event := rfl
    unfold Futures.handleMessage
    simp only [h1, h2, h3, hparts]
    simp [index, bind, Except.bind, hdepth, hd]
  · unfold Futures.handleMessage
    simp only [hcode, hstream, he]
    rw [if_neg (by decide), if_neg (by decide), if_pos trivial, hd]
    rfl

/-- Witness of C10: the depth event for BTCUSDT on a client with an empty instrument cache,
in the combined frame of `btcusdt@depth20@100ms` and as a direct frame. -/
theorem unknown_symbol_depth_error_escapes_witness :
    Futures.handleMessage {}
        (Except.ok (envelope "btcusdt@depth20@100ms" (JSON.obj depthEvent)))
        = Except.ok (some (HandlerError.unknownSymbol "BTCUSDT"), []) ∧
      Futures.handleMessage {} (Except.ok depthEvent) = Except.ok (none, []) :=
  unknown_symbol_depth_error_escapes {} "btcusdt@depth20@100ms" "btcusdt" "depth20" ["100ms"]
    depthEvent (by decide) (by decide) rfl rfl rfl rfl


/-- A loop in which the last option with key `speed` wins computes the value of the last such
option, or the default when there is none. -/
theorem getLast_filter_speed (opts : List OptionParameter) (d : String)
    (speedOf : List OptionParameter → String → String)
    (h0 : ∀ s, speedOf [] s = s)
    (h1 : ∀ o rest s,
      speedOf (o :: rest) s = speedOf rest (if o.Key = "speed" then o.Value else s)) :
    speedOf opts d
      = match (opts.filter (fun o => o.Key = "speed")).getLast? with
        | some o => o.Value
        | none => d := by
  induction opts generalizing d with
  | nil => simp [h0]
  | cons o rest ih =>
    rw [h1, ih]
    by_cases c : o.Key = "speed"
    · simp only [c, if_true, List.filter_cons, decide_True]
      cases h : (rest.filter (fun o => decide (o.Key = "speed"))).getLast? with
      | none => simp [List.getLast?_cons, h]
      | some x => simp [List.getLast?_cons, h]
    · simp [c, List.filter_cons]

/-- On a ready world the common body of the public `Subscribe*` methods registers, sends the
one `SUBSCRIBE` message and returns the result of the write. -/
theorem Futures.subscribe_ready (w : World Futures.WebSocketBase)
    (register : Futures.WebSocketBase → Futures.WebSocketBase) (channel id : String)
    (writeErr : Option String)
    (hc : w.client.connected = true) (hm : w.client.mutex = {})
    (ht : w.transport.connected = true) (htm : w.transport.mutex = {}) :
    Futures.subscribe w register channel id writeErr
      = Outcome.returned
          { client :=
              { register { w.client with mutex := { writer := true } } with
                mutex := (register { w.client with mutex := { writer := true } }).mutex.unlock },
            transport :=
              { w.transport with
                effects := w.transport.effects ++
                  [TransportEffect.writeText ⟨"SUBSCRIBE", [channel], id⟩] } }
          writeErr := by
  obtain ⟨cl, tr⟩ := w
  cases cl
  cases tr
  simp only at hc hm ht htm
  subst hc hm ht htm
  rfl


/-- On a ready world the common body of the spot `Subscribe*` methods registers, sends the one
`SUBSCRIBE` message and returns the result of the write. -/
theorem Spot.subscribe_when_ready (w : World Spot.WebSocket)
    (register : Spot.WebSocket → Spot.WebSocket) (channel id : String)
    (writeErr : Option String)
    (hc : w.client.connected = true) (hm : w.client.mutex = {})
    (ht : w.transport.connected = true) (htm : w.transport.mutex = {}) :
    Spot.subscribe w register channel id writeErr
      = Outcome.returned
          { client :=
              { register { w.client with mutex := { writer := true } } with
                mutex := (register { w.client with mutex := { writer := true } }).mutex.unlock },
            transport :=
              { w.transport with
                effects := w.transport.effects ++
                  [TransportEffect.writeText ⟨"SUBSCRIBE", [channel], id⟩] } }
          writeErr := by
  obtain ⟨cl, tr⟩ := w
  cases cl
  cases tr
  simp only at hc hm ht htm
  subst hc hm ht htm
  rfl

/-- The depth level chosen by `SubscribeDepth` is the one of the specification. -/
theorem levelOfSize_eq (size : Int) :
    (if size ≤ 5 then "5" else if size ≤ 10 then "10" else if size ≤ 20 then "20" else "20")
      = levelOfSize size := by
  unfold levelOfSize
  by_cases c5 : size ≤ 5
  · simp [c5]
  · by_cases c10 : size ≤ 10
    · have : 5 < size := by omega
      simp [c5, c10, this]
    · simp [c5, c10]

/-- C19: on a connected client with no lock held, `SubscribeDepth` of the futures client
and of the spot client returns the result of the transport write and sends exactly one
message: method `SUBSCRIBE`, params the one-element list
`lower(pair.Symbol) ++ "@depth" ++ L ++ "@" ++ speed`, where `L` is `5` for a size of at
most 5, `10` for a size above 5 and at most 10, and `20` otherwise, and `speed` is the value
of the last option with key `speed`, or `100ms` when there is none.  For BTCUSDT, size 20
and no option the channel is `btcusdt@depth20@100ms`. -/
theorem subscribe_depth_wire_message
    (fw : World Futures.WebSocketBase) (sw : World Spot.WebSocket)
    (hfc : fw.client.connected = true) (hfm : fw.client.mutex = {})
    (hft : fw.transport.connected = true) (hftm : fw.transport.mutex = {})
    (hsc : sw.client.connected = true) (hsm : sw.client.mutex = {})
    (hst : sw.transport.connected = true) (hstm : sw.transport.mutex = {})
    (pair : CurrencyPair) (size : Int) (handler : Option Nat) (opts : List OptionParameter)
    (id : String) (writeErr : Option String) :
    (∃ w, Futures.SubscribeDepth fw pair size handler opts id writeErr
          = Outcome.returned w writeErr ∧
        w.transport.effects = fw.transport.effects ++
          [TransportEffect.writeText (depthSubscribeMessage pair size opts id)]) ∧
      (∃ w, Spot.SubscribeDepth sw pair size handler opts id writeErr
          = Outcome.returned w writeErr ∧
        w.transport.effects = sw.transport.effects ++
          [TransportEffect.writeText (depthSubscribeMessage pair size opts id)]) ∧
      Futures.depthChannel btcusdt 20 [] = "btcusdt@depth20@100ms" ∧
      Spot.depthChannel btcusdt 20 [] = "btcusdt@depth20@100ms" := by
  have hf : Futures.depthChannel pair size opts
      = ToLower pair.Symbol ++ "@depth" ++ levelOfSize size ++ "@" ++ lastSpeed opts := by
    unfold Futures.depthChannel Futures.depthLevelOf lastSpeed
    rw [levelOfSize_eq,
      getLast_filter_speed opts "100ms" Futures.speedOf (fun _ => rfl) (fun _ _ _ => rfl)]
  have hs : Spot.depthChannel pair size opts
      = ToLower pair.Symbol ++ "@depth" ++ levelOfSize size ++ "@" ++ lastSpeed opts := by
    unfold Spot.depthChannel Spot.depthLevelOf lastSpeed
    rw [levelOfSize_eq,
      getLast_filter_speed opts "100ms" Spot.speedOf (fun _ => rfl) (fun _ _ _ => rfl)]
  refine ⟨⟨_, Futures.subscribe_ready fw _ _ id writeErr hfc hfm hft hftm, ?_⟩,
    ⟨_, Spot.subscribe_when_ready sw _ _ id writeErr hsc hsm hst hstm, ?_⟩, by decide, by decide⟩
  · simp only [hf, depthSubscribeMessage]
  · simp only [hs, depthSubscribeMessage]

/-- Witness of C19: BTCUSDT with size 7 and two `speed` options, of which the last wins. -/
theorem subscribe_depth_wire_message_witness :
    (∃ w, Futures.SubscribeDepth futuresReady btcusdt 7 (some 1)
            [⟨"speed", "250ms"⟩, ⟨"speed", "500ms"⟩] "id" none = Outcome.returned w none ∧
        w.transport.effects = futuresReady.transport.effects ++
          [TransportEffect.writeText
            (depthSubscribeMessage btcusdt 7 [⟨"speed", "250ms"⟩, ⟨"speed", "500ms"⟩] "id")]) ∧
      (∃ w, Spot.SubscribeDepth spotReady btcusdt 7 (some 1)
            [⟨"speed", "250ms"⟩, ⟨"speed", "500ms"⟩] "id" none = Outcome.returned w none ∧
        w.transport.effects = spotReady.transport.effects ++
          [TransportEffect.writeText
            (depthSubscribeMessage btcusdt 7 [⟨"speed", "250ms"⟩, ⟨"speed", "500ms"⟩] "id")]) ∧
      Futures.depthChannel btcusdt 20 [] = "btcusdt@depth20@100ms" ∧
      Spot.depthChannel btcusdt 20 [] = "btcusdt@depth20@100ms" :=
  subscribe_depth_wire_message futuresReady spotReady rfl rfl rfl rfl rfl rfl rfl rfl
    btcusdt 7 (some 1) [⟨"speed", "250ms"⟩, ⟨"speed", "500ms"⟩] "id" none

/-- Removing a key from a map does not change the lookup of another key. -/
theorem lookup_filter_ne {α : Type} (m : List (String × α)) (key other : String)
    (h : other ≠ key) :
    (m.filter (fun e => e.1 != key)).lookup other = m.lookup other := by
  induction m with
  | nil => rfl
  | cons e rest ih =>
    obtain ⟨k, v⟩ := e
    by_cases c : k = key
    · subst c
      have : (other == k) = false := by simpa using h
      simp [List.filter_cons, List.lookup_cons, this, ih]
    · by_cases d : other = k
      · subst d
        simp [List.filter_cons, List.lookup_cons, c]
      · have : (other == k) = false := by simpa using d
        simp [List.filter_cons, List.lookup_cons, c, this, ih]

/-- A key that was removed from a map is not found. -/
theorem lookup_filter_self {α : Type} (m : List (String × α)) (key : String) :
    (m.filter (fun e => e.1 != key)).lookup key = none := by
  induction m with
  | nil => rfl
  | cons e rest ih =>
    obtain ⟨k, v⟩ := e
    by_cases c : k = key
    · subst c
      simp [List.filter_cons, ih]
    · have : (key == k) = false := by simpa using (fun h : key = k => c h.symm)
      simp [List.filter_cons, List.lookup_cons, c, this, ih]

/-- After `m[key] = v` the lookup of `key` gives `v`. -/
theorem lookup_mapSet_self {α : Type} (m : List (String × α)) (key : String) (v : α) :
    (mapSet m key v).lookup key = some v := by
  simp [mapSet, List.lookup_cons]

/-- The assignment `m[key] = v` does not change the lookup of another key. -/
theorem lookup_mapSet_ne {α : Type} (m : List (String × α)) (key other : String) (v : α)
    (h : other ≠ key) : (mapSet m key v).lookup other = m.lookup other := by
  have : (other == key) = false := by simpa using h
  simp [mapSet, List.lookup_cons, this, lookup_filter_ne m key other h]

/-- After `delete(m, key)` the lookup of `key` finds nothing. -/
theorem lookup_mapDelete_self {α : Type} (m : List (String × α)) (key : String) :
    (mapDelete m key).lookup key = none := lookup_filter_self m key

/-- The statement `delete(m, key)` does not change the lookup of another key. -/
theorem lookup_mapDelete_ne {α : Type} (m : List (String × α)) (key other : String)
    (h : other ≠ key) : (mapDelete m key).lookup other = m.lookup other :=
  lookup_filter_ne m key other h

/-- A public call of the futures client on a ready world returns the result of the write,
leaves the world ready and updates its slot only. -/
theorem Futures.perform_public (w : World Futures.WebSocketBase) (env : CallEnv)
    (r : Futures.Request) (family : Family) (key : String) (entry : Option (Option Nat))
    (hw : Futures.ready w)
    (hr : r.slot = some (family, key, entry)) :
    ∃ w1, Futures.perform w env r = Outcome.returned w1 env.writeErr ∧
      Futures.ready w1 ∧
      Futures.slotUpdated w.client w1.client family key entry := by
  obtain ⟨cl, tr⟩ := w
  obtain ⟨hc, hm, ht, htm⟩ := hw
  cases cl
  cases tr
  simp only at hc hm ht htm
  subst hc hm ht htm
  cases r <;> simp only [Futures.Request.slot, Option.some.injEq, Prod.mk.injEq] at hr <;>
    first
    | (obtain ⟨rfl, rfl, rfl⟩ := hr
       refine ⟨_, rfl, ⟨rfl, rfl, rfl, rfl⟩, ?_, ?_, ?_, ?_, rfl, rfl, rfl⟩
       · first
         | exact lookup_mapSet_self _ _ _
         | exact lookup_mapDelete_self _ _
       · intro mk
         first
         | (simp only [invoke, Handlers.find, Futures.WebSocketBase.handlersOf]
            rw [lookup_mapSet_self]
            rename_i handler
            cases handler <;> rfl)
         | (simp only [invoke, Handlers.find, Futures.WebSocketBase.handlersOf]
            rw [lookup_mapSet_self]
            rename_i handler _
            cases handler <;> rfl)
         | (simp only [invoke, Handlers.find, Futures.WebSocketBase.handlersOf]
            rw [lookup_mapDelete_self])
       · intro other ho
         first
         | exact lookup_mapSet_ne _ _ _ _ ho
         | exact lookup_mapDelete_ne _ _ _ ho
       · intro f hf
         cases f <;> first | rfl | exact absurd rfl hf)
    | exact absurd hr (by simp)

/-- A call of the spot client on a ready world returns the result of the write, leaves the
world ready and updates its slot only. -/
theorem Spot.perform_slot (w : World Spot.WebSocket) (id : String) (writeErr : Option String)
    (r : Spot.Request) (family : Spot.Family) (key : String) (entry : Option (Option Nat))
    (hw : Spot.ready w) (hr : r.slot = (family, key, entry)) :
    ∃ w1, Spot.perform w id writeErr r = Outcome.returned w1 writeErr ∧
      Spot.ready w1 ∧ Spot.slotUpdated w.client w1.client family key entry := by
  obtain ⟨cl, tr⟩ := w
  obtain ⟨hc, hm, ht, htm⟩ := hw
  cases cl
  cases tr
  simp only at hc hm ht htm
  subst hc hm ht htm
  cases r <;> simp only [Spot.Request.slot, Prod.mk.injEq] at hr <;>
    (obtain ⟨rfl, rfl, rfl⟩ := hr
     refine ⟨_, rfl, ⟨rfl, rfl, rfl, rfl⟩, ?_, ?_, ?_, ?_, rfl⟩
     · first
       | exact lookup_mapSet_self _ _ _
       | exact lookup_mapDelete_self _ _
     · intro mk
       first
       | (simp only [invoke, Handlers.find, Spot.WebSocket.handlersOf]
          rw [lookup_mapSet_self]
          rename_i handler
          cases handler <;> rfl)
       | (simp only [invoke, Handlers.find, Spot.WebSocket.handlersOf]
          rw [lookup_mapSet_self]
          rename_i handler _
          cases handler <;> rfl)
       | (simp only [invoke, Handlers.find, Spot.WebSocket.handlersOf]
          rw [lookup_mapDelete_self])
     · intro other ho
       first
       | exact lookup_mapSet_ne _ _ _ _ ho
       | exact lookup_mapDelete_ne _ _ _ ho
     · intro f hf
       cases f <;> first | rfl | exact absurd rfl hf)

/-- C20: on a connected futures or spot client with no lock held, two public calls in a row
on the same handler map and key (any of `Subscribe*` with a handler, or `Unsubscribe*`)
both return the result of their transport write, and after each of them the entry under
the key is the one of that call: the handler of the later `Subscribe*`, whatever the
earlier call registered, so that a dispatch for the key invokes it and no other, and no
entry after an `Unsubscribe*`.  Neither call changes the entry under another key of the
same map, another handler map, or the instrument cache. -/
theorem registry_put_remove
    (fw : World Futures.WebSocketBase) (sw : World Spot.WebSocket)
    (hfw : Futures.ready fw) (hsw : Spot.ready sw)
    (e1 e2 : CallEnv) (r1 r2 : Futures.Request) (s1 s2 : Spot.Request)
    (family : Family) (sfamily : Spot.Family) (key skey : String)
    (v1 v2 u1 u2 : Option (Option Nat))
    (hr1 : r1.slot = some (family, key, v1)) (hr2 : r2.slot = some (family, key, v2))
    (hs1 : s1.slot = (sfamily, skey, u1)) (hs2 : s2.slot = (sfamily, skey, u2)) :
    (∃ w1 w2, Futures.perform fw e1 r1 = Outcome.returned w1 e1.writeErr ∧
        Futures.perform w1 e2 r2 = Outcome.returned w2 e2.writeErr ∧
        Futures.slotUpdated fw.client w1.client family key v1 ∧
        Futures.slotUpdated w1.client w2.client family key v2) ∧
      (∃ w1 w2, Spot.perform sw e1.id e1.writeErr s1 = Outcome.returned w1 e1.writeErr ∧
        Spot.perform w1 e2.id e2.writeErr s2 = Outcome.returned w2 e2.writeErr ∧
        Spot.slotUpdated sw.client w1.client sfamily skey u1 ∧
        Spot.slotUpdated w1.client w2.client sfamily skey u2) := by
  obtain ⟨w1, p1, q1, f1⟩ := Futures.perform_public fw e1 r1 family key v1 hfw hr1
  obtain ⟨w2, p2, _, f2⟩ := Futures.perform_public w1 e2 r2 family key v2 q1 hr2
  obtain ⟨x1, a1, b1, c1⟩ := Spot.perform_slot sw e1.id e1.writeErr s1 sfamily skey u1 hsw hs1
  obtain ⟨x2, a2, _, c2⟩ := Spot.perform_slot x1 e2.id e2.writeErr s2 sfamily skey u2 b1 hs2
  exact ⟨⟨w1, w2, p1, p2, f1, f2⟩, ⟨x1, x2, a1, a2, c1, c2⟩⟩

/-- Witness of C20: the ticker handler 1 and then 2 for BTCUSDT on the futures client; a
trade handler and then its removal on the spot client. -/
theorem registry_put_remove_witness :
    (∃ w1 w2,
        Futures.perform futuresReady (publicEnv "a" none)
            (Futures.Request.subscribeTicker btcusdt (some 1)) = Outcome.returned w1 none ∧
        Futures.perform w1 (publicEnv "b" none)
            (Futures.Request.subscribeTicker btcusdt (some 2)) = Outcome.returned w2 none ∧
        Futures.slotUpdated futuresReady.client w1.client Family.ticker "btcusdt" (some (some 1)) ∧
        Futures.slotUpdated w1.client w2.client Family.ticker "btcusdt" (some (some 2))) ∧
      (∃ w1 w2,
        Spot.perform spotReady "a" none (Spot.Request.subscribeTrade btcusdt (some 1))
            = Outcome.returned w1 none ∧
        Spot.perform w1 "b" none (Spot.Request.unsubscribeTrade btcusdt)
            = Outcome.returned w2 none ∧
        Spot.slotUpdated spotReady.client w1.client Spot.Family.trade "btcusdt" (some (some 1)) ∧
        Spot.slotUpdated w1.client w2.client Spot.Family.trade "btcusdt" none) :=
  registry_put_remove futuresReady spotReady ⟨rfl, rfl, rfl, rfl⟩ ⟨rfl, rfl, rfl, rfl⟩
    (publicEnv "a" none) (publicEnv "b" none)
    (Futures.Request.subscribeTicker btcusdt (some 1))
    (Futures.Request.subscribeTicker btcusdt (some 2))
    (Spot.Request.subscribeTrade btcusdt (some 1)) (Spot.Request.unsubscribeTrade btcusdt)
    Family.ticker Spot.Family.trade "btcusdt" "btcusdt"
    (some (some 1)) (some (some 2)) (some (some 1)) none
    (by decide) (by decide) (by decide) (by decide)

/-- A rounding that is out of range returns the infinity. -/
theorem F64.round_errorValue (neg : Bool) (num den : Nat) (exact : F64) :
    errorValue (F64.round neg num den exact) := by
  unfold errorValue F64.round
  split
  · exact fun _ => Or.inr ⟨neg, rfl⟩
  · split <;> exact fun h => absurd h (by simp)

/-- The value that `readFloat` and the conversion return with an error is zero or an
infinity. -/
theorem parseNumber_errorValue (whole : List Char) (neg hex : Bool) (digits : List Char) :
    errorValue (parseNumber whole neg hex digits) := by
  unfold parseNumber
  simp only []
  generalize readMantissa hex digits {} = scan
  split
  · exact fun _ => Or.inl rfl
  · split
    · exact fun _ => Or.inl rfl
    · split
      · exact fun _ => Or.inl rfl
      · split
        · exact fun _ => Or.inl rfl
        · cases hex
          · simp only [Bool.false_eq_true, if_false]
            unfold F64.ofDecimal
            simp only []
            split <;> exact F64.round_errorValue _ _ _ _
          · simp only [if_true]
            unfold F64.ofBinary
            simp only []
            split <;> exact F64.round_errorValue _ _ _ _

/-- The value that `strconv.ParseFloat` returns with an error is zero or an infinity. -/
theorem ParseFloat_errorValue (s : String) : errorValue (ParseFloat s) := by
  unfold ParseFloat
  split
  · exact fun h => absurd h (by simp)
  · exact parseNumber_errorValue _ _ _ _

/-- The conversion `strconv.ParseFloat` on spellings of each kind: plain decimals, an
exponent, a missing integer or fraction part, underscores between digits, hexadecimal
spellings, the infinities and NaN; the range error at the largest `float64`; and syntax
errors. -/
theorem ParseFloat_spellings :
    ParseFloat "65000.1" = (F64.fin 650001 1, true) ∧
    ParseFloat "-1.50" = (F64.fin (-15) 1, true) ∧
    ParseFloat "1e3" = (F64.fin 1000 0, true) ∧
    ParseFloat ".5" = (F64.fin 5 1, true) ∧
    ParseFloat "5." = (F64.fin 5 0, true) ∧
    ParseFloat "1_23.50_0_0e+1_2" = (F64.fin 123500000000000 0, true) ∧
    ParseFloat "0x1p-1" = (F64.fin 5 1, true) ∧
    ParseFloat "0x_1_2.3_4_5p+1_2" = (F64.fin 74565 0, true) ∧
    ParseFloat "Inf" = (F64.inf false, true) ∧
    ParseFloat "-infinity" = (F64.inf true, true) ∧
    ParseFloat "NaN" = (F64.nan, true) ∧
    ParseFloat "1e999" = (F64.inf false, false) ∧
    ParseFloat "-1e999" = (F64.inf true, false) ∧
    (ParseFloat "1.7976931348623158e308").2 = true ∧
    ParseFloat "1.7976931348623159e308" = (F64.inf false, false) ∧
    ParseFloat "0x1p1024" = (F64.inf false, false) ∧
    ParseFloat "1e-400" = (F64.zero, true) ∧
    ParseFloat "0e999" = (F64.zero, true) ∧
    ParseFloat "" = (F64.zero, false) ∧
    ParseFloat "abc" = (F64.zero, false) ∧
    ParseFloat "+nan" = (F64.zero, false) ∧
    ParseFloat "infin" = (F64.zero, false) ∧
    ParseFloat "1.2.3" = (F64.zero, false) ∧
    ParseFloat "1e" = (F64.zero, false) ∧
    ParseFloat "1x" = (F64.zero, false) ∧
    ParseFloat "0x1" = (F64.zero, false) ∧
    ParseFloat "1__23.5e+12" = (F64.zero, false) ∧
    ParseFloat "_123.5e+12" = (F64.zero, false) ∧
    ParseFloat "123.5e+12_" = (F64.zero, false) := by
  decide

/-- The number that `ToFloat64` returns, with or without an error, is the number of
`parsedOrZero`. -/
theorem ToFloat64_fst (v : JSON) : (ToFloat64 (some v)).1 = parsedOrZero v := by
  cases v with
  | str s =>
    simp only [ToFloat64, parsedOrZero]
    have he := ParseFloat_errorValue s
    rcases h : ParseFloat s with ⟨x, b⟩
    rw [h] at he
    cases b with
    | true => cases x <;> rfl
    | false =>
      rcases he rfl with h0 | ⟨neg, h1⟩
      · simp only at h0
        subst h0
        rfl
      · simp only at h1
        subst h1
        rfl
  | _ => rfl

/-- The flag that `ToFloat64` returns tells whether the element parses. -/
theorem ToFloat64_snd (v : JSON) : (ToFloat64 (some v)).2 = elementParses v := by
  cases v <;> rfl

/-- One iteration of the futures level loops, in closed form. -/
theorem Futures.depthLevel_zeroFilled (item : JSON) :
    Futures.depthLevel item
      = Except.ok
          (match item with
           | JSON.arr (p :: a :: _) => some ⟨parsedOrZero p, parsedOrZero a⟩
           | _ => none) := by
  cases item with
  | arr xs =>
    match xs with
    | [] => rfl
    | [_] => rfl
    | p :: a :: rest =>
      simp [Futures.depthLevel, asArray, index, bind, Except.bind, pure, Except.pure,
        ToFloat64_fst]
  | _ => rfl

/-- The first element of a `filterMap`, written with `Option.toList`. -/
theorem filterMap_cons_toList {α β : Type} (f : α → Option β) (a : α) (l : List α) :
    List.filterMap f (a :: l) = (f a).toList ++ List.filterMap f l := by
  rw [List.filterMap_cons]
  cases f a <;> rfl

/-- The futures level loops compute the zero-filled levels. -/
theorem Futures.depthLevels_zeroFilled (items : List JSON) :
    Futures.depthLevels items = Except.ok (zeroFilledLevels items) := by
  induction items with
  | nil => rfl
  | cons item rest ih =>
    simp only [Futures.depthLevels, Futures.depthLevel_zeroFilled, ih, bind, Except.bind, pure,
      Except.pure, zeroFilledLevels, filterMap_cons_toList]

/-- One iteration of the spot level loops, in closed form. -/
theorem Spot.depthLevel_parsed (item : JSON) :
    Spot.depthLevel item
      = Except.ok
          (if levelParses item then
            match item with
            | JSON.arr (p :: a :: _) => some ⟨parsedOrZero p, parsedOrZero a⟩
            | _ => none
          else none) := by
  cases item with
  | arr xs =>
    match xs with
    | [] => rfl
    | [_] => rfl
    | p :: a :: rest =>
      have hp := ToFloat64_fst p
      have ha := ToFloat64_fst a
      have hp2 := ToFloat64_snd p
      have ha2 := ToFloat64_snd a
      simp only [Spot.depthLevel, asArray, index, bind, Except.bind, pure, Except.pure,
        levelParses]
      rcases h1 : ToFloat64 (some p) with ⟨x, bx⟩
      rcases h2 : ToFloat64 (some a) with ⟨y, b_y⟩
      rw [h1] at hp hp2
      rw [h2] at ha ha2
      simp only at hp ha hp2 ha2
      rw [← hp2, ← ha2, ← hp, ← ha]
      cases bx <;> cases b_y <;> simp [h1, h2]
  | _ => rfl

/-- The spot level loops compute the levels of the items that parse. -/
theorem Spot.depthLevels_parsed (items : List JSON) :
    Spot.depthLevels items = Except.ok (parsedLevels items) := by
  induction items with
  | nil => rfl
  | cons item rest ih =>
    simp only [Spot.depthLevels, Spot.depthLevel_parsed, ih, bind, Except.bind, pure,
      Except.pure, parsedLevels, filterMap_cons_toList]

/-- There are as many zero-filled levels as items that are arrays of at least two elements. -/
theorem zeroFilledLevels_length (items : List JSON) :
    (zeroFilledLevels items).length = items.countP isLevel := by
  induction items with
  | nil => rfl
  | cons item rest ih =>
    unfold zeroFilledLevels at ih ⊢
    rw [List.filterMap_cons, List.countP_cons]
    cases item with
    | arr xs =>
      match xs with
      | [] => simpa [isLevel] using ih
      | [_] => simpa [isLevel] using ih
      | p :: a :: more => simpa [isLevel] using ih
    | _ => simpa [isLevel] using ih

/-- There are as many parsed levels as items of which the first two elements parse. -/
theorem parsedLevels_length (items : List JSON) :
    (parsedLevels items).length = items.countP levelParses := by
  induction items with
  | nil => rfl
  | cons item rest ih =>
    unfold parsedLevels at ih ⊢
    rw [List.filterMap_cons, List.countP_cons]
    by_cases c : levelParses item = true
    · cases item with
      | arr xs =>
        match xs with
        | [] => simp [levelParses] at c
        | [_] => simp [levelParses] at c
        | p :: a :: more => simpa [c] using ih
      | _ => simp [levelParses] at c
    · simpa [c] using ih

/-- C18, counterexample: the spot client, with BTCUSDT cached and a depth handler registered,
delivers no bid level for the depth event whose one bid level has the price `abc` and the
amount `1`, where the specification expects the level with price 0 and amount 1; the
futures client delivers that level. -/
theorem spot_depth_drops_unparseable_level :
    Spot.handleMessage { spotReady.client with depthHandlers := [("btcusdt", some 7)] }
        (Except.ok corruptDepthEvent)
      = Except.ok [Call.depth 7 { expectedCorruptDepth with Bids := [] }] ∧
    Futures.handleMessage { futuresReady.client with depthHandlers := [("btcusdt", some 7)] }
        (Except.ok corruptDepthEvent)
      = Except.ok (none, [Call.depth 7 expectedCorruptDepth]) ∧
    zeroFilledLevels [JSON.arr [JSON.str "abc", JSON.str "1"]] = expectedCorruptDepth.Bids := by
  decide

/-- C18, amended: for a depth event whose symbol is cached, the futures handler delivers,
for each item of `b` (resp. `a`) that is an array of at least two elements, exactly one bid
(resp. ask) level, in input order, whose price and amount are the numbers that
`util.ToFloat64` returns for the first two elements: the parsed number, 0 when the element
is not a number and not the spelling of one, and the infinity of its sign when it spells a
number beyond the range of `float64`.  The spot handler delivers these levels only for the
items of which both the price and the amount parse without an error, and drops the other
items.  The number of delivered levels is the number of such items. -/
theorem depth_levels_zero_filled_or_dropped
    (fws : Futures.WebSocketBase) (sws : Spot.WebSocket) (msg : JObj) (fpair spair : CurrencyPair)
    (hf : fws.currencyPairM.lookup ((asString (msg.get "s")).getD "") = some fpair)
    (hs : sws.currencyPairM.lookup ((asString (msg.get "s")).getD "") = some spair) :
    (Futures.handleDepthUpdateMessage fws msg
        = Except.ok (none,
            invoke fws.depthHandlers (ToLower ((asString (msg.get "s")).getD ""))
              (fun h => Call.depth h
                { Pair := fpair, UTime := depthTime msg,
                  Asks := zeroFilledLevels ((asArray (msg.get "a")).getD []),
                  Bids := zeroFilledLevels ((asArray (msg.get "b")).getD []) }))) ∧
      (Spot.handleDepthUpdateMessage sws msg
          = Except.ok
              (invoke sws.depthHandlers (ToLower ((asString (msg.get "s")).getD ""))
                (fun h => Call.depth h
                  { Pair := spair, UTime := depthTime msg,
                    Asks := parsedLevels ((asArray (msg.get "a")).getD []),
                    Bids := parsedLevels ((asArray (msg.get "b")).getD []) }))) ∧
      (∀ items : List JSON,
        (zeroFilledLevels items).length = items.countP isLevel ∧
        (parsedLevels items).length = items.countP levelParses) ∧
      (∀ v : JSON, elementParses v = false →
        parsedOrZero v = F64.zero ∨ ∃ neg, parsedOrZero v = F64.inf neg) := by
  refine ⟨?_, ?_, fun items => ⟨zeroFilledLevels_length items, parsedLevels_length items⟩,
    fun v hv => ?_⟩
  · unfold Futures.handleDepthUpdateMessage
    simp only [hf, Futures.depthLevels_zeroFilled, bind, Except.bind, pure, Except.pure, depthTime]
  · unfold Spot.handleDepthUpdateMessage
    simp only [hs, Spot.depthLevels_parsed, bind, Except.bind, pure, Except.pure, depthTime]
  · rw [← ToFloat64_fst]
    cases v with
    | str s => exact ParseFloat_errorValue s hv
    | num x => exact absurd hv (by simp [elementParses])
    | _ => exact Or.inl rfl

/-- Witness of C18: the depth event with the prices `abc`, `1e999` and `3` among its bids,
on clients that cache BTCUSDT and hold the depth handler 7.  The futures client delivers
the three bid levels, with the prices 0, +Inf and 3; the spot client delivers the third
only.  Both deliver the ask level whose price is spelled `Inf`. -/
theorem depth_levels_zero_filled_or_dropped_witness :
    Futures.handleMessage futuresDepthListener (Except.ok mixedDepthEvent)
        = Except.ok (none,
            [Call.depth 7
              { Pair := btcusdt, UTime := 1700000000000000000,
                Asks := [⟨F64.inf false, F64.fin 5 1⟩],
                Bids := [⟨F64.zero, F64.fin 1 0⟩, ⟨F64.inf false, F64.fin 2 0⟩,
                  ⟨F64.fin 3 0, F64.fin 4 0⟩] }]) ∧
      Spot.handleMessage spotDepthListener (Except.ok mixedDepthEvent)
        = Except.ok
            [Call.depth 7
              { Pair := btcusdt, UTime := 1700000000000000000,
                Asks := [⟨F64.inf false, F64.fin 5 1⟩],
                Bids := [⟨F64.fin 3 0, F64.fin 4 0⟩] }] ∧
      ((Futures.handleDepthUpdateMessage futuresDepthListener mixedDepthEvent
        = Except.ok (none,
            invoke futuresDepthListener.depthHandlers
              (ToLower ((asString (JObj.get mixedDepthEvent "s")).getD ""))
              (fun h => Call.depth h
                { Pair := btcusdt, UTime := depthTime mixedDepthEvent,
                  Asks := zeroFilledLevels ((asArray (JObj.get mixedDepthEvent "a")).getD []),
                  Bids := zeroFilledLevels ((asArray (JObj.get mixedDepthEvent "b")).getD []) }))) ∧
      (Spot.handleDepthUpdateMessage spotDepthListener mixedDepthEvent
          = Except.ok
              (invoke spotDepthListener.depthHandlers
                (ToLower ((asString (JObj.get mixedDepthEvent "s")).getD ""))
                (fun h => Call.depth h
                  { Pair := btcusdt, UTime := depthTime mixedDepthEvent,
                    Asks := parsedLevels ((asArray (JObj.get mixedDepthEvent "a")).getD []),
                    Bids := parsedLevels ((asArray (JObj.get mixedDepthEvent "b")).getD []) }))) ∧
      (∀ items : List JSON,
        (zeroFilledLevels items).length = items.countP isLevel ∧
        (parsedLevels items).length = items.countP levelParses) ∧
      (∀ v : JSON, elementParses v = false →
        parsedOrZero v = F64.zero ∨ ∃ neg, parsedOrZero v = F64.inf neg)) :=
  ⟨by decide, by decide,
    depth_levels_zero_filled_or_dropped futuresDepthListener spotDepthListener mixedDepthEvent
      btcusdt btcusdt (by decide) (by decide)⟩

/-- C15: `getListenKey`, called with the mutex free, with the clock and the mint request as
parameters.  If a non-empty key is cached and the clock is strictly before its expiry, it
returns nil and leaves the client unchanged, so that no request is issued.  Otherwise it
issues exactly one mint request, and: when the request succeeds and the response decodes,
it returns nil, stores the `listenKey` field of the response and sets the expiry to the
clock, read when the key is stored, plus 30 minutes; when the request fails or the response
does not decode, it returns a non-nil error and leaves the cached key and its expiry
unchanged. -/
theorem get_listen_key_contract (ws : Futures.WebSocketBase) (now nowAfter : Int)
    (hm : ws.mutex = {}) :
    (ws.listenKey ≠ "" ∧ now < ws.listenKeyExpireTime →
      ∀ mint, Futures.getListenKey ws now mint nowAfter = Outcome.returned ws none) ∧
    (¬(ws.listenKey ≠ "" ∧ now < ws.listenKeyExpireTime) →
      (∀ body result, unmarshalBody Futures.listenKeySchema body = Except.ok result →
        Futures.getListenKey ws now (RestOutcome.responded body) nowAfter
          = Outcome.returned
              { ws with
                events := ws.events ++ [ClientEvent.mintRequest],
                listenKey := result.str "listenKey",
                listenKeyExpireTime := nowAfter + Futures.thirtyMinutes }
              none) ∧
      (∀ e,
        Futures.getListenKey ws now (RestOutcome.failed e) nowAfter
          = Outcome.returned { ws with events := ws.events ++ [ClientEvent.mintRequest] }
              (some ("failed to get listenKey: " ++ e))) ∧
      (∀ body e, unmarshalBody Futures.listenKeySchema body = Except.error e →
        Futures.getListenKey ws now (RestOutcome.responded body) nowAfter
          = Outcome.returned { ws with events := ws.events ++ [ClientEvent.mintRequest] }
              (some ("failed to unmarshal listenKey response: " ++ e)))) := by
  cases ws
  simp only at hm
  subst hm
  refine ⟨fun h mint => ?_, fun h => ⟨fun body result hb => ?_, fun e => ?_,
    fun body e hb => ?_⟩⟩
  · simp only at h
    unfold Futures.getListenKey
    simp only [RWMutex.lock, RWMutex.unlock, and_self, if_true]
    rw [if_pos h]
  · simp only at h
    unfold Futures.getListenKey
    simp only [RWMutex.lock, RWMutex.unlock, and_self, if_true]
    rw [if_neg h]
    simp only [hb]
  · simp only at h
    unfold Futures.getListenKey
    simp only [RWMutex.lock, RWMutex.unlock, and_self, if_true]
    rw [if_neg h]
  · simp only at h
    unfold Futures.getListenKey
    simp only [RWMutex.lock, RWMutex.unlock, and_self, if_true]
    rw [if_neg h]
    simp only [hb]

/-- Witness of C15: a client with the key `abc` valid until instant 100, asked at instant
99, and a client without a key, for a response with the key `xyz`, a failing request and a
response that is not JSON. -/
theorem get_listen_key_contract_witness :
    Futures.getListenKey keyed 99 RestOutcome.panicked 101 = Outcome.returned keyed none ∧
      Futures.getListenKey keyless 99 (RestOutcome.responded mintBody) 101
        = Outcome.returned
            { keyless with
              events := [ClientEvent.mintRequest], listenKey := "xyz",
              listenKeyExpireTime := 1800000000101 }
            none ∧
      Futures.getListenKey keyless 99 (RestOutcome.failed "timeout") 101
        = Outcome.returned { keyless with events := [ClientEvent.mintRequest] }
            (some "failed to get listenKey: timeout") ∧
      Futures.getListenKey keyless 99 (RestOutcome.responded (Except.error "EOF")) 101
        = Outcome.returned { keyless with events := [ClientEvent.mintRequest] }
            (some "failed to unmarshal listenKey response: EOF") :=
  ⟨(get_listen_key_contract keyed 99 101 rfl).1 (by decide) RestOutcome.panicked,
    ((get_listen_key_contract keyless 99 101 rfl).2 (by decide)).1 mintBody
      [("listenKey", FieldVal.scalar (ScalarVal.str "xyz"))] rfl,
    ((get_listen_key_contract keyless 99 101 rfl).2 (by decide)).2.1 "timeout",
    ((get_listen_key_contract keyless 99 101 rfl).2 (by decide)).2.2 (Except.error "EOF") "EOF"
      rfl⟩

/-- The test of the private `Unsubscribe*` methods holds exactly when the three private maps
are empty. -/
theorem Futures.noPrivateHandler_iff (ws : Futures.WebSocketBase) :
    Futures.noPrivateHandler ws = true
      ↔ ws.orderHandlers = [] ∧ ws.positionHandlers = [] ∧ ws.accountHandlers = [] := by
  simp [Futures.noPrivateHandler, List.length_eq_zero, and_assoc]

/-- C12: on a connected futures client with no lock held, each of `UnsubscribeOrder`,
`UnsubscribePosition` and `UnsubscribeFuturesAccount` deletes its own key from its own
handler map and changes nothing else of the client; if then the order, position and account
maps are all empty it sends exactly one message, with method `UNSUBSCRIBE` and params the
one-element list of the session key, and returns the result of the send; if one of them is
not empty it sends no message and returns nil. -/
theorem private_unsubscribe (w : World Futures.WebSocketBase) (hw : Futures.ready w)
    (id : String) (writeErr : Option String) :
    Futures.UnsubscribeOrder w id writeErr
        = Futures.privateUnsubscribed w
            { w.client with orderHandlers := mapDelete w.client.orderHandlers "order" }
            id writeErr ∧
      Futures.UnsubscribePosition w id writeErr
        = Futures.privateUnsubscribed w
            { w.client with positionHandlers := mapDelete w.client.positionHandlers "position" }
            id writeErr ∧
      Futures.UnsubscribeFuturesAccount w id writeErr
        = Futures.privateUnsubscribed w
            { w.client with accountHandlers := mapDelete w.client.accountHandlers "account" }
            id writeErr ∧
      (mapDelete w.client.orderHandlers "order").lookup "order" = none ∧
      (mapDelete w.client.positionHandlers "position").lookup "position" = none ∧
      (mapDelete w.client.accountHandlers "account").lookup "account" = none := by
  obtain ⟨cl, tr⟩ := w
  obtain ⟨hc, hm, ht, htm⟩ := hw
  cases cl
  cases tr
  simp only at hc hm ht htm
  subst hc hm ht htm
  refine ⟨?_, ?_, ?_, lookup_mapDelete_self _ _, lookup_mapDelete_self _ _,
    lookup_mapDelete_self _ _⟩
  · unfold Futures.UnsubscribeOrder Futures.unsubscribePrivate Futures.privateUnsubscribed
    simp only [Futures.IsConnected, RWMutex.rlock, RWMutex.runlock, RWMutex.lock,
      RWMutex.unlock, if_true, and_self, Nat.add_sub_cancel]
    simp only [Futures.noPrivateHandler_iff]
    split <;> rfl
  · unfold Futures.UnsubscribePosition Futures.unsubscribePrivate Futures.privateUnsubscribed
    simp only [Futures.IsConnected, RWMutex.rlock, RWMutex.runlock, RWMutex.lock,
      RWMutex.unlock, if_true, and_self, Nat.add_sub_cancel]
    simp only [Futures.noPrivateHandler_iff]
    split <;> rfl
  · unfold Futures.UnsubscribeFuturesAccount Futures.unsubscribePrivate
      Futures.privateUnsubscribed
    simp only [Futures.IsConnected, RWMutex.rlock, RWMutex.runlock, RWMutex.lock,
      RWMutex.unlock, if_true, and_self, Nat.add_sub_cancel]
    simp only [Futures.noPrivateHandler_iff]
    split <;> rfl

/-- Witness of C12: with an order and a position handler registered, `UnsubscribeOrder`
sends nothing and returns nil; after it, `UnsubscribePosition` sends the one message for
the session key `abc`. -/
theorem private_unsubscribe_witness :
    Futures.UnsubscribeOrder privateWorld "a" none
        = Outcome.returned
            { privateWorld with client := { privateWorld.client with orderHandlers := [] } }
            none ∧
      Futures.UnsubscribePosition
          { privateWorld with client := { privateWorld.client with orderHandlers := [] } }
          "b" (some "broken pipe")
        = Outcome.returned
            { client :=
                { privateWorld.client with orderHandlers := [], positionHandlers := [] },
              transport :=
                { privateWorld.transport with
                  effects := [TransportEffect.writeText ⟨"UNSUBSCRIBE", ["abc"], "b"⟩] } }
            (some "broken pipe") :=
  ⟨(private_unsubscribe privateWorld ⟨rfl, rfl, rfl, rfl⟩ "a" none).1,
    (private_unsubscribe
      { privateWorld with client := { privateWorld.client with orderHandlers := [] } }
      ⟨rfl, rfl, rfl, rfl⟩ "b" (some "broken pipe")).2.1⟩

/-- A private `Subscribe*` on a connected client without credentials refuses and changes
nothing. -/
theorem Futures.subscribePrivate_refused (w : World Futures.WebSocketBase)
    (register : Futures.WebSocketBase → Futures.WebSocketBase) (env : CallEnv)
    (hc : w.client.connected = true) (hm : w.client.mutex = {})
    (hk : w.client.apiKey = "" ∨ w.client.apiSecret = "") :
    Futures.subscribePrivate w register env
      = Outcome.returned w (some "API key and secret are required for private WebSocket") := by
  obtain ⟨cl, tr⟩ := w
  cases cl
  simp only at hc hm hk
  subst hc hm
  unfold Futures.subscribePrivate
  simp only [Futures.IsConnected, RWMutex.rlock, RWMutex.runlock, if_true,
    Nat.add_sub_cancel]
  rw [if_pos hk]

/-- A private `Subscribe*` whose mint request fails returns an error and records the request
only. -/
theorem Futures.subscribePrivate_mint_failed (w : World Futures.WebSocketBase)
    (register : Futures.WebSocketBase → Futures.WebSocketBase) (env : CallEnv)
    (hc : w.client.connected = true) (hm : w.client.mutex = {})
    (hk : ¬(w.client.apiKey = "" ∨ w.client.apiSecret = ""))
    (hv : ¬(w.client.listenKey ≠ "" ∧ env.now < w.client.listenKeyExpireTime))
    (hf : (∃ e, env.mint = RestOutcome.failed e) ∨
      (∃ body e, env.mint = RestOutcome.responded body ∧
        unmarshalBody Futures.listenKeySchema body = Except.error e)) :
    ∃ err, Futures.subscribePrivate w register env
      = Outcome.returned
          { w with client :=
              { w.client with events := w.client.events ++ [ClientEvent.mintRequest] } }
          (some err) := by
  obtain ⟨cl, tr⟩ := w
  cases cl
  simp only at hc hm hk hv
  subst hc hm
  unfold Futures.subscribePrivate
  simp only [Futures.IsConnected, RWMutex.rlock, RWMutex.runlock, if_true,
    Nat.add_sub_cancel]
  rw [if_neg hk]
  unfold Futures.getListenKey
  simp only [RWMutex.lock, RWMutex.unlock, and_self, if_true]
  rw [if_neg hv]
  rcases hf with ⟨e, he⟩ | ⟨body, e, he, hb⟩
  · rw [he]
    exact ⟨_, rfl⟩
  · rw [he]
    simp only [hb]
    exact ⟨_, rfl⟩

/-- C13: calls of the futures client with the mutex of the client free.  A `Subscribe*` or
`Unsubscribe*` call on a client whose connected flag is false returns a non-nil error and
leaves the whole world unchanged: no message is sent, no renewal task is started, no
request is issued, and the handler maps, the session key and its expiry are as before.  On
a connected client, `SubscribeOrder`, `SubscribePosition` and `SubscribeFuturesAccount`
with an empty API key or secret do the same; and when the cached session key is not valid
and the mint request fails or its response does not decode, they return a non-nil error
and change nothing but the record of the one mint request. -/
theorem precondition_violations_atomic (w : World Futures.WebSocketBase) (env : CallEnv)
    (hm : w.client.mutex = {}) :
    (w.client.connected = false →
      ∀ r, ∃ err, Futures.perform w env r = Outcome.returned w (some err)) ∧
    (w.client.connected = true →
      ∀ handler r,
        r ∈ [Futures.Request.subscribeOrder handler, Futures.Request.subscribePosition handler,
          Futures.Request.subscribeFuturesAccount handler] →
        (w.client.apiKey = "" ∨ w.client.apiSecret = "" →
          ∃ err, Futures.perform w env r = Outcome.returned w (some err)) ∧
        (¬(w.client.apiKey = "" ∨ w.client.apiSecret = "") →
          ¬(w.client.listenKey ≠ "" ∧ env.now < w.client.listenKeyExpireTime) →
          ((∃ e, env.mint = RestOutcome.failed e) ∨
            (∃ body e, env.mint = RestOutcome.responded body ∧
              unmarshalBody Futures.listenKeySchema body = Except.error e)) →
          ∃ err, Futures.perform w env r
            = Outcome.returned
                { w with client :=
                    { w.client with events := w.client.events ++ [ClientEvent.mintRequest] } }
                (some err))) := by
  refine ⟨fun hc r => ?_, fun hc handler r hr => ⟨fun hk => ?_, fun hk hv hf => ?_⟩⟩
  · obtain ⟨cl, tr⟩ := w
    cases cl
    simp only at hc hm
    subst hc hm
    cases r <;> exact ⟨_, rfl⟩
  · simp only [List.mem_cons, List.mem_singleton, List.not_mem_nil, or_false] at hr
    rcases hr with rfl | rfl | rfl <;>
      simp only [Futures.perform, Futures.SubscribeOrder, Futures.SubscribePosition,
        Futures.SubscribeFuturesAccount] <;>
      exact ⟨_, Futures.subscribePrivate_refused w _ env hc hm hk⟩
  · simp only [List.mem_cons, List.mem_singleton, List.not_mem_nil, or_false] at hr
    rcases hr with rfl | rfl | rfl <;>
      simp only [Futures.perform, Futures.SubscribeOrder, Futures.SubscribePosition,
        Futures.SubscribeFuturesAccount] <;>
      exact Futures.subscribePrivate_mint_failed w _ env hc hm hk hv hf

/-- Witness of C13: `UnsubscribeDepth` on a world that is not connected, `SubscribeOrder` on
a connected world without credentials, and `SubscribePosition` on a connected world with
credentials whose mint request fails. -/
theorem precondition_violations_atomic_witness :
    (∃ err, Futures.perform disconnectedWorld failingMintEnv
          (Futures.Request.unsubscribeDepth btcusdt [])
        = Outcome.returned disconnectedWorld (some err)) ∧
      (∃ err, Futures.perform futuresReady failingMintEnv
        (Futures.Request.subscribeOrder (some 1)) = Outcome.returned futuresReady (some err)) ∧
      (∃ err, Futures.perform (connectedWorld Futures.WebSocketBase keyless) failingMintEnv
          (Futures.Request.subscribePosition (some 1))
        = Outcome.returned
            (connectedWorld Futures.WebSocketBase
              { keyless with events := [ClientEvent.mintRequest] })
            (some err)) :=
  ⟨(precondition_violations_atomic disconnectedWorld failingMintEnv rfl).1 rfl _,
    ((precondition_violations_atomic futuresReady failingMintEnv rfl).2 rfl (some 1) _
      (by simp)).1 (Or.inl rfl),
    ((precondition_violations_atomic (connectedWorld Futures.WebSocketBase keyless)
      failingMintEnv rfl).2 rfl (some 1) _ (by simp)).2 (by decide) (by decide)
      (Or.inl ⟨"timeout", rfl⟩)⟩

/-- A private `Subscribe*` on a ready world with a session key available sends one message and
returns the result of the write. -/
theorem Futures.subscribePrivate_sends (w : World Futures.WebSocketBase)
    (register : Futures.WebSocketBase → Futures.WebSocketBase) (env : CallEnv)
    (hreg : ∀ ws, (register ws).events = ws.events)
    (hw : Futures.ready w) (hp : Futures.sessionKeyAvailable w.client env) :
    ∃ w1 msg, Futures.subscribePrivate w register env = Outcome.returned w1 env.writeErr ∧
      w1.transport.effects = w.transport.effects ++ [TransportEffect.writeText msg] ∧
      ∃ extra, w1.client.events = w.client.events ++ extra ∧
        ∀ ev ∈ extra, ev = ClientEvent.mintRequest ∨ ev = ClientEvent.spawnKeepAliveListenKey := by
  obtain ⟨cl, tr⟩ := w
  obtain ⟨hc, hm, ht, htm⟩ := hw
  obtain ⟨hk, hv⟩ := hp
  simp only at hc hm ht htm hk hv
  unfold Futures.subscribePrivate
  simp only [Futures.IsConnected, hm, hc, RWMutex.rlock, RWMutex.runlock, if_true,
    Nat.add_sub_cancel]
  rw [if_neg hk]
  unfold Futures.getListenKey
  simp only [RWMutex.lock, RWMutex.unlock, and_self, if_true]
  by_cases c : cl.listenKey ≠ "" ∧ env.now < cl.listenKeyExpireTime
  · rw [if_pos c]
    simp only [DefaultWebSocketClient.SendMessage, htm, ht, RWMutex.rlock, RWMutex.runlock,
      if_true, Nat.add_sub_cancel, Bool.true_eq_false, if_false]
    refine ⟨_, _, rfl, rfl, [ClientEvent.spawnKeepAliveListenKey], ?_, ?_⟩
    · simp only [hreg]
    · intro ev hev
      simp only [List.mem_singleton] at hev
      exact Or.inr hev
  · rw [if_neg c]
    rcases hv with hv | ⟨body, result, hb, hr⟩
    · exact absurd hv c
    · rw [hb]
      simp only [hr, DefaultWebSocketClient.SendMessage, htm, ht, RWMutex.rlock,
        RWMutex.runlock, if_true, Nat.add_sub_cancel, Bool.true_eq_false, if_false]
      refine ⟨_, _, rfl, rfl, [ClientEvent.mintRequest, ClientEvent.spawnKeepAliveListenKey],
        ?_, ?_⟩
      · simp only [hreg, List.append_assoc, List.singleton_append]
      · intro ev hev
        simp only [List.mem_cons, List.mem_singleton, List.not_mem_nil, or_false] at hev
        exact hev

/-- A private `Unsubscribe*` on a ready world sends one message and returns the result of the
write, or sends nothing and returns nil. -/
theorem Futures.unsubscribePrivate_sends (w : World Futures.WebSocketBase)
    (remove : Futures.WebSocketBase → Futures.WebSocketBase) (id : String)
    (writeErr : Option String) (hrem : ∀ ws, (remove ws).events = ws.events)
    (hw : Futures.ready w) :
    ∃ w1 res, Futures.unsubscribePrivate w remove id writeErr = Outcome.returned w1 res ∧
      ((∃ msg, w1.transport.effects = w.transport.effects ++ [TransportEffect.writeText msg] ∧
          res = writeErr) ∨
        (w1.transport.effects = w.transport.effects ∧ res = none)) ∧
      w1.client.events = w.client.events := by
  obtain ⟨cl, tr⟩ := w
  obtain ⟨hc, hm, ht, htm⟩ := hw
  simp only at hc hm ht htm
  unfold Futures.unsubscribePrivate
  simp only [Futures.IsConnected, hm, hc, RWMutex.rlock, RWMutex.runlock, RWMutex.lock,
    and_self, if_true, Nat.add_sub_cancel]
  split
  · simp only [DefaultWebSocketClient.SendMessage, htm, ht, RWMutex.rlock, RWMutex.runlock,
      if_true, Nat.add_sub_cancel, Bool.true_eq_false, if_false]
    exact ⟨_, _, rfl, Or.inl ⟨_, rfl, rfl⟩, by simp only [hrem]⟩
  · exact ⟨_, _, rfl, Or.inr ⟨rfl, rfl⟩, by simp only [hrem]⟩

/-- A public call of the futures client on a ready world sends one message, returns the result
of the write and records no event. -/
theorem Futures.perform_public_sends (w : World Futures.WebSocketBase) (env : CallEnv)
    (r : Futures.Request) (slot : Family × String × Option (Option Nat))
    (hw : Futures.ready w) (hr : r.slot = some slot) :
    ∃ w1 msg, Futures.perform w env r = Outcome.returned w1 env.writeErr ∧
      w1.transport.effects = w.transport.effects ++ [TransportEffect.writeText msg] ∧
      w1.client.events = w.client.events := by
  obtain ⟨cl, tr⟩ := w
  obtain ⟨hc, hm, ht, htm⟩ := hw
  cases cl
  cases tr
  simp only at hc hm ht htm
  subst hc hm ht htm
  cases r <;> first
    | exact ⟨_, _, rfl, rfl, rfl⟩
    | exact absurd hr (by simp [Futures.Request.slot])

/-- A call of the spot client on a ready world sends one message, returns the result of the
write and records no event. -/
theorem Spot.perform_sends (w : World Spot.WebSocket) (id : String) (writeErr : Option String)
    (r : Spot.Request) (hw : Spot.ready w) :
    ∃ w1 msg, Spot.perform w id writeErr r = Outcome.returned w1 writeErr ∧
      w1.transport.effects = w.transport.effects ++ [TransportEffect.writeText msg] ∧
      w1.client.events = w.client.events := by
  obtain ⟨cl, tr⟩ := w
  obtain ⟨hc, hm, ht, htm⟩ := hw
  cases cl
  cases tr
  simp only at hc hm ht htm
  subst hc hm ht htm
  cases r <;> exact ⟨_, _, rfl, rfl, rfl⟩

/-- C14, counterexample: on the connected futures client, `SubscribeTicker` whose transport
write fails with `broken pipe` returns that error, not nil, and on the connected spot
client `UnsubscribeTrade` does the same; neither invokes a handler of the client. -/
theorem subscribe_returns_write_error :
    (∃ w, Futures.perform futuresReady (publicEnv "id" (some "broken pipe"))
          (Futures.Request.subscribeTicker btcusdt (some 7))
        = Outcome.returned w (some "broken pipe") ∧ w.client.events = []) ∧
      (∃ w, Spot.perform spotReady "id" (some "broken pipe")
          (Spot.Request.unsubscribeTrade btcusdt)
        = Outcome.returned w (some "broken pipe") ∧ w.client.events = []) :=
  ⟨⟨_, rfl, rfl⟩, ⟨_, rfl, rfl⟩⟩

/-- A private `Unsubscribe*` on a ready world whose removal leaves no private handler sends
one message and returns the result of the write; one that leaves a private handler sends
nothing and returns nil.  Neither records an event. -/
theorem Futures.unsubscribePrivate_tied (w : World Futures.WebSocketBase) (env : CallEnv)
    (r : Futures.Request) (hw : Futures.ready w)
    (hr : r ∈ [Futures.Request.unsubscribeOrder, Futures.Request.unsubscribePosition,
      Futures.Request.unsubscribeFuturesAccount]) :
    ∃ w1, Futures.perform w env r
          = Outcome.returned w1 (if Futures.sendsNothing w.client r then none else env.writeErr) ∧
      (if Futures.sendsNothing w.client r then w1.transport.effects = w.transport.effects
        else ∃ msg,
          w1.transport.effects = w.transport.effects ++ [TransportEffect.writeText msg]) ∧
      w1.client.events = w.client.events := by
  obtain ⟨cl, tr⟩ := w
  obtain ⟨hc, hm, ht, htm⟩ := hw
  cases cl
  cases tr
  simp only at hc hm ht htm
  subst hc hm ht htm
  simp only [List.mem_cons, List.mem_singleton, List.not_mem_nil, or_false] at hr
  rcases hr with rfl | rfl | rfl
  · simp only [Futures.perform, Futures.UnsubscribeOrder, Futures.unsubscribePrivate,
      Futures.sendsNothing, Futures.IsConnected, RWMutex.rlock, RWMutex.runlock, RWMutex.lock,
      RWMutex.unlock, if_true, and_self, Nat.add_sub_cancel, Futures.noPrivateHandler_iff]
    split
    · rename_i h
      simp only [h, and_self, not_true_eq_false, decide_False, Bool.false_eq_true, if_false,
        DefaultWebSocketClient.SendMessage, RWMutex.rlock, RWMutex.runlock, if_true,
        Nat.add_sub_cancel]
      exact ⟨_, rfl, ⟨_, rfl⟩, rfl⟩
    · rename_i h
      simp only [h, not_false_eq_true, decide_True, if_true]
      exact ⟨_, rfl, rfl, rfl⟩
  · simp only [Futures.perform, Futures.UnsubscribePosition, Futures.unsubscribePrivate,
      Futures.sendsNothing, Futures.IsConnected, RWMutex.rlock, RWMutex.runlock, RWMutex.lock,
      RWMutex.unlock, if_true, and_self, Nat.add_sub_cancel, Futures.noPrivateHandler_iff]
    split
    · rename_i h
      simp only [h, and_self, not_true_eq_false, decide_False, Bool.false_eq_true, if_false,
        DefaultWebSocketClient.SendMessage, RWMutex.rlock, RWMutex.runlock, if_true,
        Nat.add_sub_cancel]
      exact ⟨_, rfl, ⟨_, rfl⟩, rfl⟩
    · rename_i h
      simp only [h, not_false_eq_true, decide_True, if_true]
      exact ⟨_, rfl, rfl, rfl⟩
  · simp only [Futures.perform, Futures.UnsubscribeFuturesAccount, Futures.unsubscribePrivate,
      Futures.sendsNothing, Futures.IsConnected, RWMutex.rlock, RWMutex.runlock, RWMutex.lock,
      RWMutex.unlock, if_true, and_self, Nat.add_sub_cancel, Futures.noPrivateHandler_iff]
    split
    · rename_i h
      simp only [h, and_self, not_true_eq_false, decide_False, Bool.false_eq_true, if_false,
        DefaultWebSocketClient.SendMessage, RWMutex.rlock, RWMutex.runlock, if_true,
        Nat.add_sub_cancel]
      exact ⟨_, rfl, ⟨_, rfl⟩, rfl⟩
    · rename_i h
      simp only [h, not_false_eq_true, decide_True, if_true]
      exact ⟨_, rfl, rfl, rfl⟩

/-- C14, amended: every `Subscribe*` or `Unsubscribe*` call of the futures and spot clients
made while connected, with no lock held and with its preconditions met sends its one
control message and returns the result of the transport write, nil when the write succeeds
and the write error when it fails; the one exception is a private `Unsubscribe*` that
leaves a private handler, which sends nothing and returns nil.  The call invokes no handler
of the client: besides the mint request and the start of the renewal task it records no
event. -/
theorem subscribe_returns_write_result
    (fw : World Futures.WebSocketBase) (sw : World Spot.WebSocket)
    (hfw : Futures.ready fw) (hsw : Spot.ready sw) (env : CallEnv)
    (r : Futures.Request) (s : Spot.Request)
    (hp : Futures.preconditionsMet fw.client env r) :
    (∃ w, Futures.perform fw env r
          = Outcome.returned w
              (if Futures.sendsNothing fw.client r then none else env.writeErr) ∧
        (if Futures.sendsNothing fw.client r then w.transport.effects = fw.transport.effects
          else ∃ msg,
            w.transport.effects = fw.transport.effects ++ [TransportEffect.writeText msg]) ∧
        ∃ extra, w.client.events = fw.client.events ++ extra ∧
          ∀ ev ∈ extra,
            ev = ClientEvent.mintRequest ∨ ev = ClientEvent.spawnKeepAliveListenKey) ∧
      (∃ w msg, Spot.perform sw env.id env.writeErr s = Outcome.returned w env.writeErr ∧
        w.transport.effects = sw.transport.effects ++ [TransportEffect.writeText msg] ∧
        w.client.events = sw.client.events) := by
  refine ⟨?_, Spot.perform_sends sw env.id env.writeErr s hsw⟩
  have pub : ∀ slot, r.slot = some slot → Futures.sendsNothing fw.client r = false →
      ∃ w, Futures.perform fw env r
          = Outcome.returned w
              (if Futures.sendsNothing fw.client r then none else env.writeErr) ∧
        (if Futures.sendsNothing fw.client r then w.transport.effects = fw.transport.effects
          else ∃ msg,
            w.transport.effects = fw.transport.effects ++ [TransportEffect.writeText msg]) ∧
        ∃ extra, w.client.events = fw.client.events ++ extra ∧
          ∀ ev ∈ extra,
            ev = ClientEvent.mintRequest ∨ ev = ClientEvent.spawnKeepAliveListenKey := by
    intro slot hs hn
    obtain ⟨w, msg, h1, h2, h3⟩ := Futures.perform_public_sends fw env r slot hfw hs
    rw [hn]
    exact ⟨w, h1, ⟨msg, h2⟩, [], by simp [h3], by simp⟩
  have sub : ∀ register : Futures.WebSocketBase → Futures.WebSocketBase,
      (∀ ws, (register ws).events = ws.events) → Futures.sessionKeyAvailable fw.client env →
      ∃ w, Futures.subscribePrivate fw register env
          = Outcome.returned w (if false = true then none else env.writeErr) ∧
        (if false = true then w.transport.effects = fw.transport.effects
          else ∃ msg,
            w.transport.effects = fw.transport.effects ++ [TransportEffect.writeText msg]) ∧
        ∃ extra, w.client.events = fw.client.events ++ extra ∧
          ∀ ev ∈ extra,
            ev = ClientEvent.mintRequest ∨ ev = ClientEvent.spawnKeepAliveListenKey := by
    intro register hreg hk
    obtain ⟨w, msg, h1, h2, h3⟩ := Futures.subscribePrivate_sends fw register env hreg hfw hk
    exact ⟨w, h1, ⟨msg, h2⟩, h3⟩
  have unsub : r ∈ [Futures.Request.unsubscribeOrder, Futures.Request.unsubscribePosition,
        Futures.Request.unsubscribeFuturesAccount] →
      ∃ w, Futures.perform fw env r
          = Outcome.returned w
              (if Futures.sendsNothing fw.client r then none else env.writeErr) ∧
        (if Futures.sendsNothing fw.client r then w.transport.effects = fw.transport.effects
          else ∃ msg,
            w.transport.effects = fw.transport.effects ++ [TransportEffect.writeText msg]) ∧
        ∃ extra, w.client.events = fw.client.events ++ extra ∧
          ∀ ev ∈ extra,
            ev = ClientEvent.mintRequest ∨ ev = ClientEvent.spawnKeepAliveListenKey := by
    intro hr
    obtain ⟨w, h1, h2, h3⟩ := Futures.unsubscribePrivate_tied fw env r hfw hr
    exact ⟨w, h1, h2, [], by simp [h3], by simp⟩
  cases r with
  | subscribeAccount => exact absurd hp id
  | unsubscribeAccount => exact absurd hp id
  | subscribeOrder handler =>
    exact sub (fun ws => { ws with orderHandlers := mapSet ws.orderHandlers "order" handler })
      (fun _ => rfl) hp
  | subscribePosition handler =>
    exact sub
      (fun ws => { ws with positionHandlers := mapSet ws.positionHandlers "position" handler })
      (fun _ => rfl) hp
  | subscribeFuturesAccount handler =>
    exact sub
      (fun ws => { ws with accountHandlers := mapSet ws.accountHandlers "account" handler })
      (fun _ => rfl) hp
  | unsubscribeOrder => exact unsub (by simp)
  | unsubscribePosition => exact unsub (by simp)
  | unsubscribeFuturesAccount => exact unsub (by simp)
  | _ => exact pub _ rfl rfl

/-- Witness of C14: with a transport write that fails, `SubscribeOrder` on a connected
client with credentials and a valid session key, and the spot `SubscribeDepth`, return the
write error; `UnsubscribeOrder` on the same futures client, which keeps its position
handler, sends nothing and returns nil. -/
theorem subscribe_returns_write_result_witness :
    ((∃ w,
        Futures.perform privateWorld
            ⟨"id", some "broken pipe", 99, 101, RestOutcome.failed "not consulted"⟩
            (Futures.Request.subscribeOrder (some 3))
          = Outcome.returned w (some "broken pipe") ∧
        (∃ msg,
          w.transport.effects
            = privateWorld.transport.effects ++ [TransportEffect.writeText msg]) ∧
        ∃ extra, w.client.events = privateWorld.client.events ++ extra ∧
          ∀ ev ∈ extra,
            ev = ClientEvent.mintRequest ∨ ev = ClientEvent.spawnKeepAliveListenKey) ∧
      (∃ w msg,
        Spot.perform spotReady "id" (some "broken pipe")
            (Spot.Request.subscribeDepth btcusdt 5 (some 1) [])
          = Outcome.returned w (some "broken pipe") ∧
        w.transport.effects = spotReady.transport.effects ++ [TransportEffect.writeText msg] ∧
        w.client.events = spotReady.client.events)) ∧
    (∃ w,
      Futures.perform privateWorld
          ⟨"id", some "broken pipe", 99, 101, RestOutcome.failed "not consulted"⟩
          Futures.Request.unsubscribeOrder
        = Outcome.returned w none ∧
      w.transport.effects = privateWorld.transport.effects ∧
      ∃ extra, w.client.events = privateWorld.client.events ++ extra ∧
        ∀ ev ∈ extra,
          ev = ClientEvent.mintRequest ∨ ev = ClientEvent.spawnKeepAliveListenKey) :=
  ⟨subscribe_returns_write_result privateWorld spotReady ⟨rfl, rfl, rfl, rfl⟩
      ⟨rfl, rfl, rfl, rfl⟩
      ⟨"id", some "broken pipe", 99, 101, RestOutcome.failed "not consulted"⟩
      (Futures.Request.subscribeOrder (some 3))
      (Spot.Request.subscribeDepth btcusdt 5 (some 1) []) ⟨by decide, Or.inl (by decide)⟩,
    (subscribe_returns_write_result privateWorld spotReady ⟨rfl, rfl, rfl, rfl⟩
      ⟨rfl, rfl, rfl, rfl⟩
      ⟨"id", some "broken pipe", 99, 101, RestOutcome.failed "not consulted"⟩
      Futures.Request.unsubscribeOrder
      (Spot.Request.subscribeDepth btcusdt 5 (some 1) []) trivial).1⟩

/-- The test `hasPrivateSub` holds exactly when one of the three private maps is not empty. -/
theorem Futures.hasPrivateSub_iff (ws : Futures.WebSocketBase) :
    Futures.hasPrivateSub ws = true
      ↔ ws.orderHandlers ≠ [] ∨ ws.positionHandlers ≠ [] ∨ ws.accountHandlers ≠ [] := by
  simp [Futures.hasPrivateSub, List.length_pos, or_assoc]

/-- A record of events differs from itself with one more event. -/
theorem events_ne_append (l : List ClientEvent) (e : ClientEvent) : l ≠ l ++ [e] := by
  intro h
  have := congrArg List.length h
  simp at this

/-- A tick after which the renewal task goes on has issued a renewal request. -/
theorem Futures.keepAliveListenKeyTick_continue (ws ws1 : Futures.WebSocketBase)
    (renew : RestOutcome) (nowAfter : Int)
    (h : Futures.keepAliveListenKeyTick ws renew nowAfter = Outcome.returned ws1 true) :
    ws1.events = ws.events ++ [ClientEvent.renewRequest] := by
  unfold Futures.keepAliveListenKeyTick at h
  simp only [] at h
  cases hr : ws.mutex.rlock with
  | none => simp [hr] at h
  | some m =>
    simp only [hr] at h
    by_cases c : ws.connected = false
    · simp [c] at h
    · rw [if_neg c] at h
      by_cases p : Futures.hasPrivateSub ws = false
      · simp [p] at h
      · rw [if_neg p] at h
        cases renew with
        | panicked => simp at h
        | failed e =>
          simp only [Outcome.returned.injEq, and_true] at h
          rw [← h]
        | responded body =>
          simp only [] at h
          split at h
          · simp at h
          · simp only [Outcome.returned.injEq, and_true] at h
            rw [← h]

/-- In a run of the renewal task, no request follows a tick without a request. -/
theorem Futures.keepAliveListenKey_exit (ticks : List Futures.Tick) (ws : Futures.WebSocketBase)
    (pre post : List Bool) (h : Futures.keepAliveListenKey ticks ws = pre ++ false :: post) :
    ∀ b ∈ post, b = false := by
  induction ticks generalizing ws pre with
  | nil =>
    simp [Futures.keepAliveListenKey] at h
  | cons t rest ih =>
    unfold Futures.keepAliveListenKey at h
    split at h
    · rename_i ws1 heq
      cases pre with
      | nil =>
        simp only [List.nil_append, List.cons.injEq] at h
        have := Futures.keepAliveListenKeyTick_continue _ _ _ _ heq
        simp [Futures.issuedRequest, this] at h
      | cons p pre1 =>
        simp only [List.cons_append, List.cons.injEq] at h
        exact ih ws1 pre1 h.2
    · cases pre with
      | nil =>
        simp only [List.nil_append, List.cons.injEq] at h
        intro b hb
        rw [← h.2] at hb
        simp only [List.mem_map] at hb
        obtain ⟨_, _, rfl⟩ := hb
        rfl
      | cons p pre1 =>
        simp only [List.cons_append, List.cons.injEq] at h
        intro b hb
        have : b ∈ List.map (fun _ => false) rest := by
          rw [h.2]
          simp [hb]
        simp only [List.mem_map] at this
        obtain ⟨_, _, rfl⟩ := this
        rfl

/-- A tick on a client that is not connected or holds no private handler ends the task and
changes nothing. -/
theorem Futures.keepAliveListenKeyTick_exit (ws : Futures.WebSocketBase) (renew : RestOutcome)
    (nowAfter : Int) (hm : ws.mutex = {})
    (h : ¬(ws.connected = true ∧ Futures.hasPrivateSub ws = true)) :
    Futures.keepAliveListenKeyTick ws renew nowAfter = Outcome.returned ws false := by
  cases ws
  simp only at hm h
  subst hm
  unfold Futures.keepAliveListenKeyTick
  simp only [RWMutex.rlock, RWMutex.runlock, if_true, Nat.add_sub_cancel]
  rename_i connected _ _ _ _ _ _ _ _ _ _ _ _ _ _ _ _ _
  cases connected with
  | false => rfl
  | true =>
    simp only [Bool.true_eq_false, if_false]
    simp only [true_and, Bool.not_eq_true] at h
    rw [if_pos h]

/-- A tick on a connected client that holds a private handler issues a renewal request. -/
theorem Futures.keepAliveListenKeyTick_issues (ws : Futures.WebSocketBase) (renew : RestOutcome)
    (nowAfter : Int) (hm : ws.mutex = {})
    (h : ws.connected = true ∧ Futures.hasPrivateSub ws = true) :
    Futures.issuedRequest ws (Futures.keepAliveListenKeyTick ws renew nowAfter) = true := by
  obtain ⟨c, p⟩ := h
  unfold Futures.keepAliveListenKeyTick
  simp only [hm, RWMutex.rlock, RWMutex.runlock, RWMutex.lock, if_true, Nat.add_sub_cancel, c, p,
    Bool.true_eq_false, if_false, and_self]
  cases renew <;> simp [Futures.issuedRequest]

/-- C16, counterexample: a client that holds an order handler but is not connected issues no
renewal request at a tick; the task exits. -/
theorem renewal_skipped_when_disconnected :
    offlineWithOrder.orderHandlers ≠ [] ∧
      Futures.keepAliveListenKeyTick offlineWithOrder quietTick.renew quietTick.nowAfter
        = Outcome.returned offlineWithOrder false ∧
      Futures.keepAliveListenKey [quietTick, quietTick] offlineWithOrder = [false, false] := by
  refine ⟨by decide, rfl, by decide⟩

/-- C16, amended: at a tick of `keepAliveListenKey` with the mutex free, a renewal request is
issued if and only if the client is connected and at least one order, position or account
handler is registered at that tick; otherwise the task exits at that tick with the client
unchanged, so without a request; and over any sequence of ticks, after a tick without a
request no later tick issues one. -/
theorem renewal_decision (ws start : Futures.WebSocketBase) (hm : ws.mutex = {})
    (renew : RestOutcome) (nowAfter : Int) (ticks : List Futures.Tick) :
    (Futures.issuedRequest ws (Futures.keepAliveListenKeyTick ws renew nowAfter) = true
        ↔ ws.connected = true ∧
          (ws.orderHandlers ≠ [] ∨ ws.positionHandlers ≠ [] ∨ ws.accountHandlers ≠ [])) ∧
      (¬(ws.connected = true ∧
          (ws.orderHandlers ≠ [] ∨ ws.positionHandlers ≠ [] ∨ ws.accountHandlers ≠ [])) →
        Futures.keepAliveListenKeyTick ws renew nowAfter = Outcome.returned ws false) ∧
      (∀ pre post, Futures.keepAliveListenKey ticks start = pre ++ false :: post →
        ∀ b ∈ post, b = false) := by
  rw [← Futures.hasPrivateSub_iff]
  refine ⟨⟨fun h => ?_, Futures.keepAliveListenKeyTick_issues ws renew nowAfter hm⟩,
    Futures.keepAliveListenKeyTick_exit ws renew nowAfter hm,
    fun pre post h => Futures.keepAliveListenKey_exit ticks start pre post h⟩
  by_contra hn
  rw [Futures.keepAliveListenKeyTick_exit ws renew nowAfter hm hn] at h
  simp [Futures.issuedRequest, events_ne_append] at h

/-- Witness of C16: the connected client with an order and a position handler. -/
theorem renewal_decision_witness :
    (Futures.issuedRequest privateWorld.client
          (Futures.keepAliveListenKeyTick privateWorld.client quietTick.renew 200) = true
        ↔ privateWorld.client.connected = true ∧
          (privateWorld.client.orderHandlers ≠ [] ∨ privateWorld.client.positionHandlers ≠ [] ∨
            privateWorld.client.accountHandlers ≠ [])) ∧
      (¬(privateWorld.client.connected = true ∧
          (privateWorld.client.orderHandlers ≠ [] ∨ privateWorld.client.positionHandlers ≠ [] ∨
            privateWorld.client.accountHandlers ≠ [])) →
        Futures.keepAliveListenKeyTick privateWorld.client quietTick.renew 200
          = Outcome.returned privateWorld.client false) ∧
      (∀ pre post,
        Futures.keepAliveListenKey [quietTick, quietTick] offlineWithOrder = pre ++ false :: post →
        ∀ b ∈ post, b = false) :=
  renewal_decision privateWorld.client offlineWithOrder rfl quietTick.renew 200
    [quietTick, quietTick]

/-- C17: the heartbeat does not treat a failed ping write as the receive loop treats a
failed read.  On a connected transport with the mutex free and the `done` channel open,
whose error handler returns, `keepAlive` at a failing ping write invokes the error handler
and returns, and nothing else: the connected flag stays set, `done` stays open and the
disconnected handler is not invoked.  `receiveMessages` at a failing read invokes the error
handler, clears the flag, closes the socket and `done`, and invokes the disconnected
handler. -/
theorem heartbeat_failure_skips_disconnect (C : Type) (w : World C) (err : String)
    (afterError afterDisconnected : C)
    (hc : w.transport.connected = true) (hm : w.transport.mutex = {})
    (hd : w.transport.doneClosed = false)
    (he : DefaultWebSocketClient.runCallback (w.transport.errorHandler.map (fun f => f err))
        w.client = Outcome.returned afterError ())
    (hdis : DefaultWebSocketClient.runCallback
        (w.transport.disconnectedHandler.map (fun f => f (some "connection closed")))
        afterError = Outcome.returned afterDisconnected ()) :
    DefaultWebSocketClient.keepAliveTick w (some err)
        = Outcome.returned
            { client := afterError,
              transport :=
                { w.transport with
                  effects := w.transport.effects ++ [TransportEffect.writePing] } }
            false ∧
      DefaultWebSocketClient.receiveFailure w err
        = Outcome.returned
            { client := afterDisconnected,
              transport :=
                { w.transport with
                  connected := false, doneClosed := true,
                  effects := w.transport.effects ++
                    (if w.transport.conn then [TransportEffect.closeConn] else []) ++
                    [TransportEffect.closeDone w.transport.doneGeneration] } }
            () := by
  obtain ⟨cl, tr⟩ := w
  cases tr
  simp only at hc hm hd he hdis
  subst hc hm hd
  constructor
  · unfold DefaultWebSocketClient.keepAliveTick
    simp only [RWMutex.rlock, RWMutex.runlock, if_true, Nat.add_sub_cancel, Bool.true_eq_false,
      if_false, he]
  · unfold DefaultWebSocketClient.receiveFailure
    simp only [he]
    unfold DefaultWebSocketClient.receiveExit
    rename_i conn _ _ _ _ _ _ _ _
    cases conn <;>
      simp only [RWMutex.lock, RWMutex.unlock, and_self, if_true, Bool.false_eq_true, if_false,
        hdis, List.append_nil, List.append_assoc]

/-- Witness of C17: the connected futures world and the error `broken pipe`. -/
theorem heartbeat_failure_skips_disconnect_witness :
    DefaultWebSocketClient.keepAliveTick liveFutures (some "broken pipe")
        = Outcome.returned
            { client :=
                { liveFutures.client with events := [ClientEvent.logError "broken pipe"] },
              transport :=
                { liveFutures.transport with effects := [TransportEffect.writePing] } }
            false ∧
      DefaultWebSocketClient.receiveFailure liveFutures "broken pipe"
        = Outcome.returned
            { client :=
                { liveFutures.client with
                  connected := false,
                  events := [ClientEvent.logError "broken pipe",
                    ClientEvent.logDisconnected (some "connection closed")] },
              transport :=
                { liveFutures.transport with
                  connected := false, doneClosed := true,
                  effects := [TransportEffect.closeConn, TransportEffect.closeDone 1] } }
            () :=
  heartbeat_failure_skips_disconnect Futures.WebSocketBase liveFutures "broken pipe"
    { liveFutures.client with events := [ClientEvent.logError "broken pipe"] }
    { liveFutures.client with
      connected := false,
      events := [ClientEvent.logError "broken pipe",
        ClientEvent.logDisconnected (some "connection closed")] }
    rfl rfl rfl rfl rfl

/-- The method `SendMessage` does not touch the saved subscriptions. -/
theorem DefaultWebSocketClient.SendMessage_subscriptions {C : Type} (w : World C)
    (message : ControlMessage) (writeErr : Option String) :
    (DefaultWebSocketClient.SendMessage w message writeErr).state.transport.subscriptions
      = w.transport.subscriptions := by
  unfold DefaultWebSocketClient.SendMessage
  simp only []
  split
  · rfl
  · split <;> rfl

/-- The public `Subscribe*` methods of the futures client save no subscription. -/
theorem Futures.subscribe_subscriptions (w : World Futures.WebSocketBase)
    (register : Futures.WebSocketBase → Futures.WebSocketBase) (channel id : String)
    (writeErr : Option String) :
    (Futures.subscribe w register channel id writeErr).state.transport.subscriptions
      = w.transport.subscriptions := by
  unfold Futures.subscribe
  split
  · rfl
  · rfl
  · rfl
  · split
    · rfl
    · exact DefaultWebSocketClient.SendMessage_subscriptions _ _ _

/-- The public `Unsubscribe*` methods of the futures client do not touch the saved
subscriptions. -/
theorem Futures.unsubscribe_subscriptions (w : World Futures.WebSocketBase)
    (remove : Futures.WebSocketBase → Futures.WebSocketBase) (channel id : String)
    (writeErr : Option String) :
    (Futures.unsubscribe w remove channel id writeErr).state.transport.subscriptions
      = w.transport.subscriptions := by
  unfold Futures.unsubscribe
  split
  · rfl
  · rfl
  · rfl
  · split
    · rfl
    · exact DefaultWebSocketClient.SendMessage_subscriptions _ _ _

/-- The private `Subscribe*` methods of the futures client save no subscription. -/
theorem Futures.subscribePrivate_subscriptions (w : World Futures.WebSocketBase)
    (register : Futures.WebSocketBase → Futures.WebSocketBase) (env : CallEnv) :
    (Futures.subscribePrivate w register env).state.transport.subscriptions
      = w.transport.subscriptions := by
  unfold Futures.subscribePrivate
  split
  · rfl
  · rfl
  · rfl
  · split
    · rfl
    · split
      · rfl
      · rfl
      · rfl
      · split
        · rfl
        · exact DefaultWebSocketClient.SendMessage_subscriptions _ _ _

/-- The private `Unsubscribe*` methods of the futures client do not touch the saved
subscriptions. -/
theorem Futures.unsubscribePrivate_subscriptions (w : World Futures.WebSocketBase)
    (remove : Futures.WebSocketBase → Futures.WebSocketBase) (id : String)
    (writeErr : Option String) :
    (Futures.unsubscribePrivate w remove id writeErr).state.transport.subscriptions
      = w.transport.subscriptions := by
  unfold Futures.unsubscribePrivate
  split
  · rfl
  · rfl
  · rfl
  · split
    · rfl
    · simp only []
      split
      · exact DefaultWebSocketClient.SendMessage_subscriptions _ _ _
      · rfl

/-- The `Subscribe*` methods of the spot client save no subscription. -/
theorem Spot.subscribe_keeps_subscriptions (w : World Spot.WebSocket)
    (register : Spot.WebSocket → Spot.WebSocket) (channel id : String)
    (writeErr : Option String) :
    (Spot.subscribe w register channel id writeErr).state.transport.subscriptions
      = w.transport.subscriptions := by
  unfold Spot.subscribe
  split
  · rfl
  · rfl
  · rfl
  · split
    · rfl
    · exact DefaultWebSocketClient.SendMessage_subscriptions _ _ _

/-- The `Unsubscribe*` methods of the spot client do not touch the saved subscriptions. -/
theorem Spot.unsubscribe_keeps_subscriptions (w : World Spot.WebSocket)
    (remove : Spot.WebSocket → Spot.WebSocket) (channel id : String)
    (writeErr : Option String) :
    (Spot.unsubscribe w remove channel id writeErr).state.transport.subscriptions
      = w.transport.subscriptions := by
  unfold Spot.unsubscribe
  split
  · rfl
  · rfl
  · rfl
  · split
    · rfl
    · exact DefaultWebSocketClient.SendMessage_subscriptions _ _ _

/-- No call of the futures client changes the saved subscriptions of the transport. -/
theorem Futures.perform_subscriptions (w : World Futures.WebSocketBase) (env : CallEnv)
    (r : Futures.Request) :
    (Futures.perform w env r).state.transport.subscriptions = w.transport.subscriptions := by
  cases r <;>
    simp only [Futures.perform, Futures.SubscribeDepth, Futures.SubscribeTicker,
      Futures.SubscribeKline, Futures.SubscribeTrade, Futures.SubscribeFundingRate,
      Futures.SubscribeOrder, Futures.SubscribeAccount, Futures.SubscribePosition,
      Futures.SubscribeFuturesAccount, Futures.UnsubscribeDepth, Futures.UnsubscribeTicker,
      Futures.UnsubscribeKline, Futures.UnsubscribeTrade, Futures.UnsubscribeFundingRate,
      Futures.UnsubscribeOrder, Futures.UnsubscribeAccount, Futures.UnsubscribePosition,
      Futures.UnsubscribeFuturesAccount, Futures.subscribe_subscriptions,
      Futures.unsubscribe_subscriptions, Futures.subscribePrivate_subscriptions,
      Futures.unsubscribePrivate_subscriptions] <;>
    rfl

/-- No call of the spot client changes the saved subscriptions of the transport. -/
theorem Spot.perform_keeps_subscriptions (w : World Spot.WebSocket) (id : String)
    (writeErr : Option String) (r : Spot.Request) :
    (Spot.perform w id writeErr r).state.transport.subscriptions = w.transport.subscriptions := by
  cases r <;>
    simp only [Spot.perform, Spot.SubscribeDepth, Spot.SubscribeTicker, Spot.SubscribeKline,
      Spot.SubscribeTrade, Spot.UnsubscribeDepth, Spot.UnsubscribeTicker,
      Spot.UnsubscribeKline, Spot.UnsubscribeTrade, Spot.subscribe_keeps_subscriptions,
      Spot.unsubscribe_keeps_subscriptions]

/-- The method `Subscribe` of the transport has no effect on the network. -/
theorem DefaultWebSocketClient.Subscribe_effects {C : Type} (c : DefaultWebSocketClient C)
    (channel : String) (pairs : List CurrencyPair) :
    (DefaultWebSocketClient.Subscribe c channel pairs).state.effects = c.effects := by
  unfold DefaultWebSocketClient.Subscribe
  split
  · rfl
  · simp only []
    split
    · rfl
    · split <;> rfl

/-- The loop of `resubscribe` has no effect on the network. -/
theorem DefaultWebSocketClient.resubscribeLoop_effects {C : Type}
    (subs : List (String × List CurrencyPair)) (c : DefaultWebSocketClient C) :
    (DefaultWebSocketClient.resubscribeLoop subs c).state.effects = c.effects := by
  induction subs generalizing c with
  | nil => rfl
  | cons e rest ih =>
    obtain ⟨channel, pairs⟩ := e
    have h := DefaultWebSocketClient.Subscribe_effects c channel pairs
    unfold DefaultWebSocketClient.resubscribeLoop
    cases hs : DefaultWebSocketClient.Subscribe c channel pairs with
    | returned c1 r =>
      rw [hs] at h
      simp only [Outcome.state] at h
      simp only [ih c1, h]
    | blocked c1 =>
      rw [hs] at h
      exact h
    | panicked c1 =>
      rw [hs] at h
      exact h

/-- The method `resubscribe` has no effect on the network. -/
theorem DefaultWebSocketClient.resubscribe_effects {C : Type} (c : DefaultWebSocketClient C) :
    (DefaultWebSocketClient.resubscribe c).state.effects = c.effects := by
  unfold DefaultWebSocketClient.resubscribe
  cases c.subscriptionsMutex.rlock with
  | none => rfl
  | some sm =>
    have h := DefaultWebSocketClient.resubscribeLoop_effects c.subscriptions
      { c with subscriptionsMutex := sm }
    simp only []
    cases hs : DefaultWebSocketClient.resubscribeLoop c.subscriptions
        { c with subscriptionsMutex := sm } with
    | returned c1 r =>
      rw [hs] at h
      exact h
    | blocked c1 =>
      rw [hs] at h
      exact h
    | panicked c1 =>
      rw [hs] at h
      exact h

/-- The method `Connect` of the transport writes no control message. -/
theorem DefaultWebSocketClient.Connect_written {C : Type} (w : World C) (url : String)
    (dialErr : Option String) :
    (DefaultWebSocketClient.Connect w url dialErr).state.transport.written
      = w.transport.written := by
  unfold DefaultWebSocketClient.Connect
  simp only []
  cases w.transport.mutex.lock with
  | none => rfl
  | some m =>
    simp only []
    split
    · rfl
    · cases dialErr with
      | some e =>
        simp [Outcome.state, DefaultWebSocketClient.written, TransportEffect.isWriteText]
      | none =>
        simp only []
        split
        · simp [Outcome.state, DefaultWebSocketClient.written, TransportEffect.isWriteText]
        · simp [Outcome.state, DefaultWebSocketClient.written, TransportEffect.isWriteText]
        · rename_i cl _ _
          generalize hc2 : ({ w.transport with
              mutex := m, url := url,
              effects := w.transport.effects ++ [TransportEffect.dial url] ++
                [TransportEffect.setReadLimit, TransportEffect.spawnReceiveMessages,
                  TransportEffect.spawnKeepAlive],
              conn := true, connected := true,
              doneGeneration := w.transport.doneGeneration + 1, doneClosed := false } :
              DefaultWebSocketClient C) = c2
          have h := DefaultWebSocketClient.resubscribe_effects c2
          have he : c2.effects.filter TransportEffect.isWriteText
              = w.transport.effects.filter TransportEffect.isWriteText := by
            rw [← hc2]
            simp [TransportEffect.isWriteText]
          cases hs : DefaultWebSocketClient.resubscribe c2 with
          | returned c3 r =>
            rw [hs] at h
            simp only [Outcome.state] at h
            simp only [Outcome.state, DefaultWebSocketClient.written, h, he]
          | blocked c3 =>
            rw [hs] at h
            simp only [Outcome.state] at h
            simp only [Outcome.state, DefaultWebSocketClient.written, h, he]
          | panicked c3 =>
            rw [hs] at h
            simp only [Outcome.state] at h
            simp only [Outcome.state, DefaultWebSocketClient.written, h, he]

/-- The method `Connect` of the futures client writes no control message. -/
theorem Futures.Connect_writes_nothing (w : World Futures.WebSocketBase)
    (exchangeInfo : Except String (List (String × CurrencyPair))) (dialErr : Option String) :
    (Futures.Connect w exchangeInfo dialErr).state.transport.written = w.transport.written := by
  unfold Futures.Connect
  simp only []
  cases w.client.mutex.lock with
  | none => rfl
  | some m =>
    simp only []
    split
    · rfl
    · cases exchangeInfo with
      | error e => rfl
      | ok cache =>
        simp only []
        have h := DefaultWebSocketClient.Connect_written
          { w with client :=
              { w.client with
                mutex := m, events := w.client.events ++ [ClientEvent.exchangeInfoRequest],
                currencyPairM := cache } }
          w.client.baseURL dialErr
        revert h
        cases DefaultWebSocketClient.Connect
          { w with client :=
              { w.client with
                mutex := m, events := w.client.events ++ [ClientEvent.exchangeInfoRequest],
                currencyPairM := cache } }
          w.client.baseURL dialErr <;> exact fun h => h

/-- The method `Connect` of the spot client writes no control message. -/
theorem Spot.Connect_sends_nothing (w : World Spot.WebSocket)
    (exchangeInfo : Except String (List (String × CurrencyPair))) (dialErr : Option String) :
    (Spot.Connect w exchangeInfo dialErr).state.transport.written = w.transport.written := by
  unfold Spot.Connect
  simp only []
  cases w.client.mutex.lock with
  | none => rfl
  | some m =>
    simp only []
    split
    · rfl
    · cases exchangeInfo with
      | error e => rfl
      | ok cache =>
        simp only []
        have h := DefaultWebSocketClient.Connect_written
          { w with client :=
              { w.client with
                mutex := m, events := w.client.events ++ [ClientEvent.exchangeInfoRequest],
                currencyPairM := cache } }
          w.client.baseURL dialErr
        revert h
        cases DefaultWebSocketClient.Connect
          { w with client :=
              { w.client with
                mutex := m, events := w.client.events ++ [ClientEvent.exchangeInfoRequest],
                currencyPairM := cache } }
          w.client.baseURL dialErr <;> exact fun h => h

/-- C11: a reconnect re-issues no `SUBSCRIBE` command.  No `Subscribe*` or `Unsubscribe*`
call of the futures or spot client saves a subscription in the transport, whose
`resubscribe` replays only the saved ones; and `Connect` of the transport, of the futures
client and of the spot client writes no control message, whatever is saved.  So after
`SubscribeTicker` for BTCUSDT and a failed read, the ticker handler is still registered,
the transport is disconnected, and a `Connect` of the transport that succeeds dials and
starts the two goroutines without writing a message: the one `SUBSCRIBE` that the
transport has written is that of the first subscription. -/
theorem reconnect_reissues_no_subscribe :
    (∀ (w : World Futures.WebSocketBase) (env : CallEnv) (r : Futures.Request),
      (Futures.perform w env r).state.transport.subscriptions = w.transport.subscriptions) ∧
    (∀ (w : World Spot.WebSocket) (id : String) (writeErr : Option String) (r : Spot.Request),
      (Spot.perform w id writeErr r).state.transport.subscriptions
        = w.transport.subscriptions) ∧
    (∀ (C : Type) (w : World C) (url : String) (dialErr : Option String),
      (DefaultWebSocketClient.Connect w url dialErr).state.transport.written
        = w.transport.written) ∧
    (∀ (w : World Futures.WebSocketBase)
        (exchangeInfo : Except String (List (String × CurrencyPair))) (dialErr : Option String),
      (Futures.Connect w exchangeInfo dialErr).state.transport.written = w.transport.written) ∧
    (∀ (w : World Spot.WebSocket)
        (exchangeInfo : Except String (List (String × CurrencyPair))) (dialErr : Option String),
      (Spot.Connect w exchangeInfo dialErr).state.transport.written = w.transport.written) ∧
    (afterDisconnect.client.tickerHandlers.find "btcusdt" = some 7 ∧
      afterDisconnect.transport.connected = false ∧
      afterDisconnect.transport.subscriptions = [] ∧
      ∃ w, DefaultWebSocketClient.Connect afterDisconnect "wss://fstream.binance.com/ws" none
          = Outcome.returned w none ∧
        w.transport.connected = true ∧
        w.transport.effects = afterDisconnect.transport.effects ++
          [TransportEffect.dial "wss://fstream.binance.com/ws", TransportEffect.setReadLimit,
            TransportEffect.spawnReceiveMessages, TransportEffect.spawnKeepAlive] ∧
        w.transport.written
          = [TransportEffect.writeText ⟨"SUBSCRIBE", ["btcusdt@ticker"], "id"⟩]) :=
  ⟨Futures.perform_subscriptions, Spot.perform_keeps_subscriptions,
    fun _ w url dialErr => DefaultWebSocketClient.Connect_written w url dialErr,
    Futures.Connect_writes_nothing, Spot.Connect_sends_nothing,
    by decide, rfl, rfl, ⟨_, rfl, rfl, rfl, by decide⟩⟩

/-- The status switch of `handleOrderUpdateMessage` computes the status of the
specification. -/
theorem Futures.orderStatusOf_expected (x : Option JSON) :
    Futures.orderStatusOf ((asString x).getD "") = expectedOrderStatus x := by
  unfold Futures.orderStatusOf expectedOrderStatus
  match x with
  | some (JSON.str s) => rfl
  | none => rfl
  | some JSON.null => rfl
  | some (JSON.bool _) => rfl
  | some (JSON.num _) => rfl
  | some (JSON.arr _) => rfl
  | some (JSON.obj _) => rfl

/-- C22: for an `ORDER_TRADE_UPDATE` frame whose `o` member is an object with a cached
symbol, the dispatcher invokes the order handler, if one is registered, with one order
whose status is, for the value of the `X` field: Pending for NEW, PartFinished for
PARTIALLY_FILLED, Finished for FILLED, Canceled for CANCELED, for REJECTED and for EXPIRED,
and Pending for any other value and for a missing one; so the status is one of Pending,
PartFinished, Finished and Canceled. -/
theorem order_status_mapping (ws : Futures.WebSocketBase) (msg data : JObj)
    (pair : CurrencyPair)
    (hcode : asFloat64 (msg.get "code") = none) (hstream : asString (msg.get "stream") = none)
    (he : asString (msg.get "e") = some "ORDER_TRADE_UPDATE")
    (ho : asObject (msg.get "o") = some data)
    (hp : ws.currencyPairM.lookup ((asString (data.get "s")).getD "") = some pair) :
    (∃ order : Order,
      Futures.handleMessage ws (Except.ok msg)
        = Except.ok (none, invoke ws.orderHandlers "order" (fun h => Call.order h order)) ∧
      order.Status = expectedOrderStatus (data.get "X") ∧
      order.Status ∈ [OrderStatus_Pending, OrderStatus_PartFinished, OrderStatus_Finished,
        OrderStatus_Canceled]) ∧
    List.map Futures.orderStatusOf
        ["NEW", "PARTIALLY_FILLED", "FILLED", "CANCELED", "REJECTED", "EXPIRED", "", "OTHER"]
      = [OrderStatus_Pending, OrderStatus_PartFinished, OrderStatus_Finished,
          OrderStatus_Canceled, OrderStatus_Canceled, OrderStatus_Canceled,
          OrderStatus_Pending, OrderStatus_Pending] := by
  refine ⟨?_, by decide⟩
  refine
    ⟨{ Pair := pair,
       CId := (asString (data.get "c")).getD "",
       Id := formatInt (ToInt64 (data.get "i")).1,
       Price := (ToFloat64 (data.get "p")).1,
       Qty := (ToFloat64 (data.get "q")).1,
       ExecutedQty := (ToFloat64 (data.get "z")).1,
       PriceAvg := (ToFloat64 (data.get "ap")).1,
       OrderTy := Futures.orderTypeOf ((asString (data.get "o")).getD ""),
       Side := if (asString (data.get "S")).getD "" = "BUY" then BUY else SELL,
       Status := Futures.orderStatusOf ((asString (data.get "X")).getD ""),
       CreatedAt := (ToInt64 (data.get "T")).1 }, ?_,
      Futures.orderStatusOf_expected (data.get "X"), ?_⟩
  · unfold Futures.handleMessage
    simp only [hcode, hstream, he, if_true]
    unfold Futures.handleOrderUpdateMessage
    simp only [ho, hp]
    rfl
  · simp only [Futures.orderStatusOf]
    split_ifs <;> decide

/-- Witness of C22: the order update for BTCUSDT with the status REJECTED, on a client that
caches BTCUSDT and holds the order handler 7. -/
theorem order_status_mapping_witness :
    (∃ order : Order,
      Futures.handleMessage { futuresReady.client with orderHandlers := [("order", some 7)] }
          (Except.ok (orderUpdate "REJECTED"))
        = Except.ok (none, invoke [("order", some 7)] "order" (fun h => Call.order h order)) ∧
      order.Status = expectedOrderStatus (JObj.get (orderFields "REJECTED") "X") ∧
      order.Status ∈ [OrderStatus_Pending, OrderStatus_PartFinished, OrderStatus_Finished,
        OrderStatus_Canceled]) ∧
    List.map Futures.orderStatusOf
        ["NEW", "PARTIALLY_FILLED", "FILLED", "CANCELED", "REJECTED", "EXPIRED", "", "OTHER"]
      = [OrderStatus_Pending, OrderStatus_PartFinished, OrderStatus_Finished,
          OrderStatus_Canceled, OrderStatus_Canceled, OrderStatus_Canceled,
          OrderStatus_Pending, OrderStatus_Pending] :=
  order_status_mapping { futuresReady.client with orderHandlers := [("order", some 7)] }
    (orderUpdate "REJECTED") (orderFields "REJECTED") btcusdt rfl rfl rfl rfl (by decide)

/-- C30: the leverage of a streamed position is read from its amount.  For every position
entry with a cached symbol, the delivered `Lever` is the integer reading of the `pa` field,
the field from which `Qty` is read; so the account updates for BTCUSDT whose position
entries differ only in `pa`, `1` and `2`, deliver positions with the levers 1 and 2, and a
`pa` of `0.5`, which is not an integer, delivers the lever 0. -/
theorem lever_is_read_from_amount :
    (∀ (ws : Futures.WebSocketBase) (pos : JObj),
      (Futures.positionOf ws (JSON.obj pos)).map (fun p => p.Lever)
        = (ws.currencyPairM.lookup ((asString (pos.get "s")).getD "")).map
            (fun _ => F64.ofInt (ToInt (pos.get "pa")).1)) ∧
    deliveredLevers
        (Futures.handleMessage
          { futuresReady.client with positionHandlers := [("position", some 7)] }
          (Except.ok (accountUpdate [positionEntry "1"]))) = [F64.fin 1 0] ∧
    deliveredLevers
        (Futures.handleMessage
          { futuresReady.client with positionHandlers := [("position", some 7)] }
          (Except.ok (accountUpdate [positionEntry "2"]))) = [F64.fin 2 0] ∧
    deliveredLevers
        (Futures.handleMessage
          { futuresReady.client with positionHandlers := [("position", some 7)] }
          (Except.ok (accountUpdate [positionEntry "0.5"]))) = [F64.fin 0 0] ∧
    deliveredQuantities
        (Futures.handleMessage
          { futuresReady.client with positionHandlers := [("position", some 7)] }
          (Except.ok (accountUpdate [positionEntry "1", positionEntry "2"])))
      = [F64.fin 1 0, F64.fin 2 0] := by
  refine ⟨fun ws pos => ?_, by decide, by decide, by decide, by decide⟩
  unfold Futures.positionOf
  simp only [asObject]
  cases ws.currencyPairM.lookup ((asString (pos.get "s")).getD "") <;> rfl

/-- C29: the streaming and the REST mapping of the position side disagree for BOTH.  For
every amount `q`, both give long for LONG and short for SHORT; for BOTH the REST
unmarshaler gives short when the amount is negative and long otherwise, and the streaming
handler gives short whatever the amount.  So the hedge-less position BOTH with the amount
`1` is long over REST and short in the stream. -/
theorem position_side_both_disagrees :
    (∀ q : String,
      streamedDirections "LONG" q = [some Direction.long] ∧
      restDirections "LONG" q = [some Direction.long]) ∧
    (∀ q : String,
      streamedDirections "SHORT" q = [some Direction.short] ∧
      restDirections "SHORT" q = [some Direction.short]) ∧
    (∀ q : String,
      streamedDirections "BOTH" q = [some Direction.short] ∧
      restDirections "BOTH" q
        = [some (if (Futures.decimalCast.ToFloat64 q).isNeg then Direction.short
            else Direction.long)]) ∧
    streamedDirections "BOTH" "1" = [some Direction.short] ∧
    restDirections "BOTH" "1" = [some Direction.long] := by
  refine ⟨fun q => ⟨rfl, rfl⟩, fun q => ⟨rfl, rfl⟩, fun q => ⟨rfl, ?_⟩, by decide, by decide⟩
  unfold restDirections
  cases h : (Futures.decimalCast.ToFloat64 q).isNeg <;>
    simp [restPositions, Futures.UnmarshalGetPositionsResponse, Futures.addPosition,
      Futures.applyPositionMembers, Futures.withPosSide, Futures.Raw.text, h, directionOf,
      Futures_OpenBuy, Futures_OpenSell, BUY, SELL]

/-- Strings that agree before and after a middle part agree on the middle part. -/
theorem append_middle_cancel (p a b s : String)
    (h : p ++ a ++ "@" ++ s = p ++ b ++ "@" ++ s) : a = b := by
  have h1 := congrArg String.data h
  simp only [String.data_append, List.append_assoc] at h1
  have h2 := List.append_cancel_left h1
  rw [← List.append_assoc, ← List.append_assoc] at h2
  have h3 := List.append_cancel_right h2
  have h4 := List.append_cancel_right h3
  exact String.ext h4

/-- The speed of the futures `UnsubscribeDepth` is the speed of `SubscribeDepth`. -/
theorem Futures.unsubscribeDepthParams_speed (opts : List OptionParameter)
    (speed depthLevel : String) :
    (Futures.unsubscribeDepthParams opts (speed, depthLevel)).1
      = Futures.speedOf opts speed := by
  induction opts generalizing speed depthLevel with
  | nil => rfl
  | cons o rest ih =>
    unfold Futures.unsubscribeDepthParams Futures.speedOf
    by_cases c : o.Key = "speed"
    · rw [if_pos c, if_pos c]
      exact ih _ _
    · rw [if_neg c, if_neg c]
      by_cases d : o.Key = "depth_level"
      · rw [if_pos d]
        exact ih _ _
      · rw [if_neg d]
        exact ih _ _

/-- The speed of the spot `UnsubscribeDepth` is the speed of the spot `SubscribeDepth`. -/
theorem Spot.unsubscribeDepthParams_same_speed (opts : List OptionParameter)
    (speed depthLevel : String) :
    (Spot.unsubscribeDepthParams opts (speed, depthLevel)).1 = Spot.speedOf opts speed := by
  induction opts generalizing speed depthLevel with
  | nil => rfl
  | cons o rest ih =>
    unfold Spot.unsubscribeDepthParams Spot.speedOf
    by_cases c : o.Key = "speed"
    · rw [if_pos c, if_pos c]
      exact ih _ _
    · rw [if_neg c, if_neg c]
      by_cases d : o.Key = "depth_level"
      · rw [if_pos d]
        exact ih _ _
      · rw [if_neg d]
        exact ih _ _

/-- C28: `UnsubscribeDepth` does not target the channel that `SubscribeDepth` subscribed.
In both clients the two channel strings are equal exactly when the level of
`UnsubscribeDepth`, the value of the last `depth_level` option or `20`, is the level that
`SubscribeDepth` derives from the size; the speed is the same.  For BTCUSDT, size 5 and no
option, the connected futures client sends `SUBSCRIBE` for `btcusdt@depth5@100ms` and then
`UNSUBSCRIBE` for `btcusdt@depth20@100ms`, and so does the spot client. -/
theorem depth_unsubscribe_other_channel :
    (∀ (pair : CurrencyPair) (size : Int) (opts : List OptionParameter),
      Futures.unsubscribeDepthChannel pair opts = Futures.depthChannel pair size opts
        ↔ (Futures.unsubscribeDepthParams opts ("100ms", "20")).2
            = Futures.depthLevelOf size) ∧
    (∀ (pair : CurrencyPair) (size : Int) (opts : List OptionParameter),
      Spot.unsubscribeDepthChannel pair opts = Spot.depthChannel pair size opts
        ↔ (Spot.unsubscribeDepthParams opts ("100ms", "20")).2 = Spot.depthLevelOf size) ∧
    (Futures.perform
        (Futures.perform futuresReady (publicEnv "a" none)
          (Futures.Request.subscribeDepth btcusdt 5 (some 7) [])).state
        (publicEnv "b" none)
        (Futures.Request.unsubscribeDepth btcusdt [])).state.transport.effects
      = [TransportEffect.writeText ⟨"SUBSCRIBE", ["btcusdt@depth5@100ms"], "a"⟩,
         TransportEffect.writeText ⟨"UNSUBSCRIBE", ["btcusdt@depth20@100ms"], "b"⟩] ∧
    (Spot.perform
        (Spot.perform spotReady "a" none
          (Spot.Request.subscribeDepth btcusdt 5 (some 7) [])).state
        "b" none (Spot.Request.unsubscribeDepth btcusdt [])).state.transport.effects
      = [TransportEffect.writeText ⟨"SUBSCRIBE", ["btcusdt@depth5@100ms"], "a"⟩,
         TransportEffect.writeText ⟨"UNSUBSCRIBE", ["btcusdt@depth20@100ms"], "b"⟩] := by
  refine ⟨fun pair size opts => ?_, fun pair size opts => ?_, by decide, by decide⟩
  · unfold Futures.unsubscribeDepthChannel Futures.depthChannel
    rw [Futures.unsubscribeDepthParams_speed]
    constructor
    · intro h
      exact append_middle_cancel (ToLower pair.Symbol ++ "@depth") _ _ _ h
    · intro h
      rw [h]
  · unfold Spot.unsubscribeDepthChannel Spot.depthChannel
    rw [Spot.unsubscribeDepthParams_same_speed]
    constructor
    · intro h
      exact append_middle_cancel (ToLower pair.Symbol ++ "@depth") _ _ _ h
    · intro h
      rw [h]

/-- C26: `DoAuthRequest` panics on the arguments the streaming client passes.  Whatever
`SignParams`, `Encode` and the HTTP client do, the call with `params = nil` panics: either
in `SignParams`, or at `params.Encode()`, which dereferences the nil pointer.  So
`getListenKey` on a client without a valid cached key panics after starting its request,
and so does a tick of `keepAliveListenKey` on a connected client with a private handler;
with a pointer to a map, as the REST methods pass it, the same collaborators answer. -/
theorem do_auth_request_nil_params_panics :
    (∀ (env : AuthCollaborators) (ac : AuthClient) (method reqUrl : String)
        (header : Option (List (String × String))),
      AuthClient.DoAuthRequest env ac method reqUrl none header = RestOutcome.panicked) ∧
    (∀ env : AuthCollaborators,
      Futures.getListenKey keyless 99 (Futures.listenKeyRequest env keyless "POST") 101
        = Outcome.panicked { keyless with events := [ClientEvent.mintRequest] }) ∧
    (∀ env : AuthCollaborators,
      Futures.keepAliveListenKeyTick privateWorld.client
          (Futures.listenKeyRequest env privateWorld.client "PUT") 200
        = Outcome.panicked
            { privateWorld.client with events := [ClientEvent.renewRequest] }) ∧
    AuthClient.DoAuthRequest quietCollaborators ⟨"key", "secret"⟩ "GET"
        "https://fapi.binance.com/fapi/v2/account" (some []) none
      = RestOutcome.responded mintBody := by
  have nilPanics : ∀ (env : AuthCollaborators) (ac : AuthClient) (method reqUrl : String)
      (header : Option (List (String × String))),
      AuthClient.DoAuthRequest env ac method reqUrl none header = RestOutcome.panicked := by
    intro env ac method reqUrl header
    unfold AuthClient.DoAuthRequest
    simp only []
    cases env.SignParams none ac.Secret <;> rfl
  refine ⟨nilPanics, fun env => ?_, fun env => ?_, rfl⟩
  · unfold Futures.listenKeyRequest
    rw [nilPanics]
    rfl
  · unfold Futures.listenKeyRequest
    rw [nilPanics]
    rfl

/-- The body of `getListenKey` past its request, with the outcome of the request taken as a
parameter: were the request to answer with the body of an error reply, a well-formed object
without a `listenKey` member, or with `{}` or `null`, the function would return nil and
cache the empty string with a fresh expiry, and `SubscribeOrder` would send the `SUBSCRIBE`
message whose one parameter is the empty string.  The request that the client issues never
answers (`Futures.listenKeyRequest_panics`). -/
theorem Futures.getListenKey_unchecked_key :
    Futures.getListenKey keyless 99 (RestOutcome.responded errorReply) 101
        = Outcome.returned
            { keyless with
              events := [ClientEvent.mintRequest], listenKey := "",
              listenKeyExpireTime := 101 + Futures.thirtyMinutes }
            none ∧
      Futures.getListenKey keyless 99 (RestOutcome.responded (Except.ok (JSON.obj []))) 101
        = Outcome.returned
            { keyless with
              events := [ClientEvent.mintRequest], listenKey := "",
              listenKeyExpireTime := 101 + Futures.thirtyMinutes }
            none ∧
      Futures.getListenKey keyless 99 (RestOutcome.responded (Except.ok JSON.null)) 101
        = Outcome.returned
            { keyless with
              events := [ClientEvent.mintRequest], listenKey := "",
              listenKeyExpireTime := 101 + Futures.thirtyMinutes }
            none ∧
      Futures.perform (connectedWorld Futures.WebSocketBase keyless) (mintEnv errorReply)
          (Futures.Request.subscribeOrder (some 7))
        = Outcome.returned
            { client :=
                { keyless with
                  events := [ClientEvent.mintRequest, ClientEvent.spawnKeepAliveListenKey],
                  listenKey := "", listenKeyExpireTime := 101 + Futures.thirtyMinutes,
                  orderHandlers := [("order", some 7)] },
              transport :=
                { (connectedWorld Futures.WebSocketBase keyless).transport with
                  effects := [TransportEffect.writeText ⟨"SUBSCRIBE", [""], "id"⟩] } }
            none :=
  ⟨rfl, rfl, rfl, rfl⟩

/-- C25: the `done` channel is closed twice.  On a connected transport with the mutex free
and `done` open, `Close` closes the `done` channel of the connection and the socket and
returns; the receive loop then returns, because `done` is observed or because the read on
the closed socket fails, and its deferred function closes the same `done` channel again,
which panics.  The second close comes before the disconnected handler, which is not
invoked. -/
theorem done_closed_twice (C : Type) (w : World C) (closeErr : Option String)
    (hc : w.transport.connected = true) (hm : w.transport.mutex = {})
    (hd : w.transport.doneClosed = false) :
    ∃ closed : World C,
      DefaultWebSocketClient.Close w closeErr = Outcome.returned closed closeErr ∧
      closed.client = w.client ∧
      closed.transport.doneGeneration = w.transport.doneGeneration ∧
      closed.transport.doneClosed = true ∧
      closed.transport.effects = w.transport.effects ++
        [TransportEffect.writeClose, TransportEffect.closeDone w.transport.doneGeneration,
          TransportEffect.closeConn] ∧
      (∃ crashed : World C,
        DefaultWebSocketClient.receiveExit closed = Outcome.panicked crashed ∧
        crashed.client = w.client) ∧
      (∀ (err : String) (afterError : C),
        DefaultWebSocketClient.runCallback (w.transport.errorHandler.map (fun f => f err))
            w.client = Outcome.returned afterError () →
        ∃ crashed : World C,
          DefaultWebSocketClient.receiveFailure closed err = Outcome.panicked crashed ∧
          crashed.client = afterError) := by
  obtain ⟨cl, tr⟩ := w
  cases tr
  simp only at hc hm hd
  subst hc hm hd
  rename_i conn _ _ _ _ _ _ _ _
  refine ⟨_, rfl, rfl, rfl, rfl, rfl, ?_, ?_⟩
  · cases conn <;> exact ⟨_, rfl, rfl⟩
  · intro err afterError he
    simp only at he
    unfold DefaultWebSocketClient.receiveFailure
    simp only [he]
    cases conn <;> exact ⟨_, rfl, rfl⟩

/-- Witness of C25: the connected futures world is closed, and the receive loop returns. -/
theorem done_closed_twice_witness :
    ∃ closed : World Futures.WebSocketBase,
      DefaultWebSocketClient.Close liveFutures none = Outcome.returned closed none ∧
      closed.client = liveFutures.client ∧
      closed.transport.doneGeneration = liveFutures.transport.doneGeneration ∧
      closed.transport.doneClosed = true ∧
      closed.transport.effects = liveFutures.transport.effects ++
        [TransportEffect.writeClose,
          TransportEffect.closeDone liveFutures.transport.doneGeneration,
          TransportEffect.closeConn] ∧
      (∃ crashed : World Futures.WebSocketBase,
        DefaultWebSocketClient.receiveExit closed = Outcome.panicked crashed ∧
        crashed.client = liveFutures.client) ∧
      (∀ (err : String) (afterError : Futures.WebSocketBase),
        DefaultWebSocketClient.runCallback
            (liveFutures.transport.errorHandler.map (fun f => f err))
            liveFutures.client = Outcome.returned afterError () →
        ∃ crashed : World Futures.WebSocketBase,
          DefaultWebSocketClient.receiveFailure closed err = Outcome.panicked crashed ∧
          crashed.client = afterError) :=
  done_closed_twice Futures.WebSocketBase liveFutures none rfl rfl rfl

/-- C23: `UnmarshalCancelOrderResponse` lets the error replies of the exchange pass.  For a
response that is an object it returns an error, whose text is the whole response, exactly
when the first `code` member is a JSON string; for a `code` member of another type, as the
numeric code of the reply `{"code":-2011,"msg":"Unknown order sent."}`, it returns nil, as
it does for an object without a `code` member. -/
theorem cancel_order_numeric_code_passes :
    (∀ (text : String) (fields : List (String × Futures.Raw)),
      Futures.UnmarshalCancelOrderResponse (Futures.Raw.object text fields)
        = match fields.lookup "code" with
          | some (Futures.Raw.string _) => some text
          | _ => none) ∧
    Futures.UnmarshalCancelOrderResponse unknownOrderReply = none ∧
    Futures.UnmarshalCancelOrderResponse stringCodeReply = some stringCodeReply.text := by
  refine ⟨fun text fields => ?_, rfl, rfl⟩
  unfold Futures.UnmarshalCancelOrderResponse Futures.getStringChecked
  simp only []
  cases h : fields.lookup "code" with
  | none => rfl
  | some v => cases v <;> rfl

/-- C21, counterexample: after `SubscribeDepth` for BTCUSDT with size 5 and handler 1 and
with size 20 and handler 2, two channels are subscribed but the one entry `btcusdt` of the
depth map holds handler 2; a depth frame of the first channel, `btcusdt@depth5@100ms`, and
a direct depth event are delivered to handler 2. -/
theorem second_depth_handler_replaces_first :
    twoDepthSubscriptions.transport.effects
        = [TransportEffect.writeText ⟨"SUBSCRIBE", ["btcusdt@depth5@100ms"], "a"⟩,
           TransportEffect.writeText ⟨"SUBSCRIBE", ["btcusdt@depth20@100ms"], "b"⟩] ∧
      twoDepthSubscriptions.client.depthHandlers = [("btcusdt", some 2)] ∧
      (callsOf (Futures.handleMessage twoDepthSubscriptions.client
          (Except.ok (envelope "btcusdt@depth5@100ms" depthPayload)))).map Call.handler = [2] ∧
      (callsOf (Futures.handleMessage twoDepthSubscriptions.client
          (Except.ok ((asObject (some depthPayload)).getD [])))).map Call.handler = [2] := by
  decide

/-- C21, amended: the key of a depth subscription is the lower-case symbol alone.  On a
connected futures client with no lock held, two `SubscribeDepth` calls for the same symbol,
whatever their sizes, options and handlers, send their two `SUBSCRIBE` messages and leave
one entry for the symbol in the depth map, the handler of the later call; a depth event
for a cached symbol with that key is delivered to that handler, if it is not nil, and to no
other. -/
theorem depth_key_is_symbol (w : World Futures.WebSocketBase) (hw : Futures.ready w)
    (pair cached : CurrencyPair) (size1 size2 : Int) (h1 h2 : Option Nat)
    (opts1 opts2 : List OptionParameter) (e1 e2 : CallEnv) (msg : JObj)
    (hs : ToLower ((asString (msg.get "s")).getD "") = ToLower pair.Symbol)
    (hp : w.client.currencyPairM.lookup ((asString (msg.get "s")).getD "") = some cached) :
    ∃ w1 w2 : World Futures.WebSocketBase,
      Futures.perform w e1 (Futures.Request.subscribeDepth pair size1 h1 opts1)
        = Outcome.returned w1 e1.writeErr ∧
      Futures.perform w1 e2 (Futures.Request.subscribeDepth pair size2 h2 opts2)
        = Outcome.returned w2 e2.writeErr ∧
      w2.transport.effects = w.transport.effects ++
        [TransportEffect.writeText
            ⟨"SUBSCRIBE", [Futures.depthChannel pair size1 opts1], e1.id⟩,
          TransportEffect.writeText
            ⟨"SUBSCRIBE", [Futures.depthChannel pair size2 opts2], e2.id⟩] ∧
      w2.client.depthHandlers.lookup (ToLower pair.Symbol) = some h2 ∧
      Futures.handleDepthUpdateMessage w2.client msg
        = Except.ok (none,
            match h2 with
            | some h =>
              [Call.depth h
                { Pair := cached, UTime := depthTime msg,
                  Asks := zeroFilledLevels ((asArray (msg.get "a")).getD []),
                  Bids := zeroFilledLevels ((asArray (msg.get "b")).getD []) }]
            | none => []) := by
  obtain ⟨cl, tr⟩ := w
  obtain ⟨hc, hm, ht, htm⟩ := hw
  cases cl
  cases tr
  simp only at hc hm ht htm hp
  subst hc hm ht htm
  refine ⟨_, _, rfl, rfl, ?_, lookup_mapSet_self _ _ _, ?_⟩
  · simp only [List.append_assoc, List.singleton_append]
  · unfold Futures.handleDepthUpdateMessage
    simp only [hp, hs, Futures.depthLevels_zeroFilled, bind, Except.bind, pure, Except.pure,
      invoke, Handlers.find, lookup_mapSet_self, depthTime]
    cases h2 <;> rfl

/-- Witness of C21: `SubscribeDepth` for BTCUSDT with sizes 5 and 20 and handlers 1 and 2,
and the depth event of `depthPayload`. -/
theorem depth_key_is_symbol_witness :
    ∃ w1 w2 : World Futures.WebSocketBase,
      Futures.perform futuresReady (publicEnv "a" none)
          (Futures.Request.subscribeDepth btcusdt 5 (some 1) [])
        = Outcome.returned w1 none ∧
      Futures.perform w1 (publicEnv "b" none)
          (Futures.Request.subscribeDepth btcusdt 20 (some 2) [])
        = Outcome.returned w2 none ∧
      w2.transport.effects = futuresReady.transport.effects ++
        [TransportEffect.writeText ⟨"SUBSCRIBE", [Futures.depthChannel btcusdt 5 []], "a"⟩,
          TransportEffect.writeText ⟨"SUBSCRIBE", [Futures.depthChannel btcusdt 20 []], "b"⟩] ∧
      w2.client.depthHandlers.lookup (ToLower btcusdt.Symbol) = some (some 2) ∧
      Futures.handleDepthUpdateMessage w2.client ((asObject (some depthPayload)).getD [])
        = Except.ok (none,
            [Call.depth 2
              { Pair := btcusdt, UTime := 1700000000000000000, Asks := [],
                Bids := [⟨F64.fin 650001 1, F64.fin 2 0⟩] }]) :=
  depth_key_is_symbol futuresReady ⟨rfl, rfl, rfl, rfl⟩ btcusdt btcusdt 5 20 (some 1) (some 2)
    [] [] (publicEnv "a" none) (publicEnv "b" none) ((asObject (some depthPayload)).getD [])
    (by decide) (by decide)

/-- The keys of a map after `m[key] = v`. -/
theorem keys_mapSet {α : Type} (m : List (String × α)) (key : String) (v : α) :
    (mapSet m key v).map Prod.fst = key :: (m.map Prod.fst).filter (fun k => k != key) := by
  simp [mapSet, List.filter_map, Function.comp_def]

/-- The assignment `m[key] = v` keeps the keys of a map distinct. -/
theorem nodup_keys_mapSet {α : Type} (m : List (String × α)) (key : String) (v : α)
    (h : (m.map Prod.fst).Nodup) : ((mapSet m key v).map Prod.fst).Nodup := by
  rw [keys_mapSet]
  refine List.nodup_cons.2 ⟨?_, h.filter _⟩
  simp [List.mem_filter]

/-- The balance loop keeps the keys of the account map distinct. -/
theorem Futures.nodup_keys_balances (balances : List JSON)
    (acc : List (String × FuturesAccount)) (h : (acc.map Prod.fst).Nodup) :
    ((balances.foldl Futures.balanceInto acc).map Prod.fst).Nodup := by
  induction balances generalizing acc with
  | nil => exact h
  | cons b rest ih =>
    simp only [List.foldl_cons]
    apply ih
    unfold Futures.balanceInto
    cases b with
    | obj bal => exact nodup_keys_mapSet _ _ _ h
    | _ => exact h

/-- The keys of the account map after the balance loop are the keys it had and the assets
of the balances. -/
theorem Futures.mem_keys_balances (balances : List JSON)
    (acc : List (String × FuturesAccount)) (asset : String) :
    asset ∈ (balances.foldl Futures.balanceInto acc).map Prod.fst
      ↔ asset ∈ acc.map Prod.fst ∨ asset ∈ assetsOf balances := by
  induction balances generalizing acc with
  | nil => simp [assetsOf]
  | cons b rest ih =>
    simp only [List.foldl_cons]
    rw [ih]
    unfold Futures.balanceInto
    cases b with
    | obj bal =>
      simp only [asObject, keys_mapSet, assetsOf, List.filterMap_cons, List.mem_cons,
        List.mem_filter, bne_iff_ne, ne_eq, decide_not]
      by_cases c : asset = (asString (JObj.get bal "a")).getD ""
      · simp [c]
      · simp [c]
    | _ => simp [asObject, assetsOf, List.filterMap_cons]

/-- The pairs of the positions that the position loop builds are the cache entries of the
items that are objects with a cached symbol. -/
theorem Futures.positionOf_pairs (ws : Futures.WebSocketBase) (positions : List JSON) :
    (positions.filterMap (Futures.positionOf ws)).map (fun p => p.Pair)
      = cachedPairs ws positions := by
  unfold cachedPairs
  rw [List.map_filterMap]
  congr 1
  funext item
  unfold Futures.positionOf
  cases item with
  | obj pos =>
    simp only [asObject]
    cases ws.currencyPairM.lookup ((asString (JObj.get pos "s")).getD "") <;> rfl
  | _ => rfl

/-- C24: for an `ACCOUNT_UPDATE` frame the dispatcher returns nil and invokes at most the
position handler and then the account handler, each at most once.  The position handler is
invoked only with a non-empty list, whose pairs are the instrument-cache entries of the
items of `P` that are objects with a cached symbol, in input order; the account handler is
invoked only with a non-empty map, whose keys are distinct and are the assets of the items
of `B` that are objects. -/
theorem account_update_dispatch (ws : Futures.WebSocketBase) (data : JObj)
    (hcode : asFloat64 (data.get "code") = none)
    (hstream : asString (data.get "stream") = none)
    (he : asString (data.get "e") = some "ACCOUNT_UPDATE") :
    ∃ positionCalls accountCalls : List Call,
      Futures.handleMessage ws (Except.ok data)
        = Except.ok (none, positionCalls ++ accountCalls) ∧
      (positionCalls = [] ∨
        ∃ h ps, positionCalls = [Call.position h ps] ∧
          ws.positionHandlers.find "position" = some h ∧ ps ≠ [] ∧
          ps.map (fun p => p.Pair)
            = cachedPairs ws
                ((asArray (JObj.get ((asObject (data.get "a")).getD []) "P")).getD [])) ∧
      (accountCalls = [] ∨
        ∃ h m, accountCalls = [Call.account h m] ∧
          ws.accountHandlers.find "account" = some h ∧ m ≠ [] ∧
          (m.map Prod.fst).Nodup ∧
          ∀ asset, asset ∈ m.map Prod.fst
            ↔ asset ∈ assetsOf
                ((asArray (JObj.get ((asObject (data.get "a")).getD []) "B")).getD [])) := by
  have hd : Futures.handleMessage ws (Except.ok data)
      = Futures.noError (Futures.handleAccountUpdateMessage ws data) := by
    unfold Futures.handleMessage
    simp only [hcode, hstream, he]
    rw [if_neg (by decide), if_pos trivial]
  rw [hd]
  unfold Futures.handleAccountUpdateMessage
  cases ha : asObject (data.get "a") with
  | none => exact ⟨[], [], rfl, Or.inl rfl, Or.inl rfl⟩
  | some acc =>
    simp only [Option.getD_some]
    refine ⟨_, _, rfl, ?_, ?_⟩
    · cases hP : asArray (JObj.get acc "P") with
      | none => exact Or.inl rfl
      | some positions =>
        simp only [Option.getD_some]
        by_cases c : 0 < positions.length
        · rw [if_pos c]
          cases hf : ws.positionHandlers.find "position" with
          | none => exact Or.inl rfl
          | some h =>
            simp only []
            by_cases d : 0 < (positions.filterMap (Futures.positionOf ws)).length
            · rw [if_pos d]
              exact Or.inr ⟨h, _, rfl, rfl, List.ne_nil_of_length_pos d,
                Futures.positionOf_pairs ws positions⟩
            · rw [if_neg d]
              exact Or.inl rfl
        · rw [if_neg c]
          exact Or.inl rfl
    · cases hB : asArray (JObj.get acc "B") with
      | none => exact Or.inl rfl
      | some balances =>
        simp only [Option.getD_some]
        by_cases c : 0 < balances.length
        · rw [if_pos c]
          cases hf : ws.accountHandlers.find "account" with
          | none => exact Or.inl rfl
          | some h =>
            simp only []
            by_cases d : 0 < (balances.foldl Futures.balanceInto []).length
            · rw [if_pos d]
              refine Or.inr ⟨h, _, rfl, rfl, List.ne_nil_of_length_pos d,
                Futures.nodup_keys_balances balances [] List.nodup_nil, fun asset => ?_⟩
              rw [Futures.mem_keys_balances]
              simp
            · rw [if_neg d]
              exact Or.inl rfl
        · rw [if_neg c]
          exact Or.inl rfl

/-- Witness of C24: the account update with three position items and three balances, on a
client that caches BTCUSDT and holds both handlers. -/
theorem account_update_dispatch_witness :
    (callsOf (Futures.handleMessage accountListener (Except.ok mixedAccountUpdate))).map
        Call.handler = [7, 8] ∧
    ∃ positionCalls accountCalls : List Call,
      Futures.handleMessage accountListener (Except.ok mixedAccountUpdate)
        = Except.ok (none, positionCalls ++ accountCalls) ∧
      (positionCalls = [] ∨
        ∃ h ps, positionCalls = [Call.position h ps] ∧
          accountListener.positionHandlers.find "position" = some h ∧ ps ≠ [] ∧
          ps.map (fun p => p.Pair)
            = cachedPairs accountListener
                ((asArray (JObj.get ((asObject (JObj.get mixedAccountUpdate "a")).getD [])
                  "P")).getD [])) ∧
      (accountCalls = [] ∨
        ∃ h m, accountCalls = [Call.account h m] ∧
          accountListener.accountHandlers.find "account" = some h ∧ m ≠ [] ∧
          (m.map Prod.fst).Nodup ∧
          ∀ asset, asset ∈ m.map Prod.fst
            ↔ asset ∈ assetsOf
                ((asArray (JObj.get ((asObject (JObj.get mixedAccountUpdate "a")).getD [])
                  "B")).getD [])) :=
  ⟨by decide, account_update_dispatch accountListener mixedAccountUpdate rfl rfl rfl⟩

/-- With `params = nil`, as the streaming client calls it, `DoAuthRequest` panics whatever
its collaborators do. -/
theorem AuthClient.DoAuthRequest_nil (env : AuthCollaborators) (ac : AuthClient)
    (method reqUrl : String) (header : Option (List (String × String))) :
    AuthClient.DoAuthRequest env ac method reqUrl none header = RestOutcome.panicked := by
  unfold AuthClient.DoAuthRequest
  simp only []
  cases env.SignParams none ac.Secret <;> rfl

/-- The request that `getListenKey` and `keepAliveListenKey` issue panics. -/
theorem Futures.listenKeyRequest_panics (env : AuthCollaborators) (ws : Futures.WebSocketBase)
    (method : String) : Futures.listenKeyRequest env ws method = RestOutcome.panicked :=
  AuthClient.DoAuthRequest_nil env _ method _ _

/-- With the request that the client issues, `getListenKey` returns only from its cache
branch: the key it leaves is the cached one, which is not empty. -/
theorem Futures.getListenKey_returned (env : AuthCollaborators) (ws ws1 : Futures.WebSocketBase)
    (now nowAfter : Int) (res : Option String)
    (h : Futures.getListenKey ws now (Futures.listenKeyRequest env ws "POST") nowAfter
      = Outcome.returned ws1 res) :
    res = none ∧ ws1.listenKey = ws.listenKey ∧ ws.listenKey ≠ "" := by
  rw [Futures.listenKeyRequest_panics] at h
  unfold Futures.getListenKey at h
  cases hl : ws.mutex.lock with
  | none =>
    rw [hl] at h
    cases h
  | some m =>
    rw [hl] at h
    simp only [] at h
    by_cases c : ws.listenKey ≠ "" ∧ now < ws.listenKeyExpireTime
    · rw [if_pos c] at h
      cases h
      exact ⟨rfl, rfl, c.1⟩
    · rw [if_neg c] at h
      cases h

/-- With the request that the client issues, a private `Subscribe*` sends nothing, or it
sends the one `SUBSCRIBE` message for the cached session key, which is not empty. -/
theorem Futures.subscribePrivate_key (env : AuthCollaborators) (w : World Futures.WebSocketBase)
    (register : Futures.WebSocketBase → Futures.WebSocketBase)
    (hreg : ∀ ws, (register ws).listenKey = ws.listenKey)
    (id : String) (writeErr : Option String) (now nowAfter : Int) :
    (Futures.subscribePrivate w register
        ⟨id, writeErr, now, nowAfter, Futures.listenKeyRequest env w.client "POST"⟩
      ).state.transport.effects = w.transport.effects ∨
    ((Futures.subscribePrivate w register
        ⟨id, writeErr, now, nowAfter, Futures.listenKeyRequest env w.client "POST"⟩
      ).state.transport.effects
        = w.transport.effects
            ++ [TransportEffect.writeText ⟨"SUBSCRIBE", [w.client.listenKey], id⟩] ∧
      w.client.listenKey ≠ "") := by
  rw [Futures.listenKeyRequest_panics]
  unfold Futures.subscribePrivate
  simp only [Futures.IsConnected]
  cases hr : w.client.mutex.rlock with
  | none => exact Or.inl rfl
  | some m0 =>
    simp only []
    cases hc : w.client.connected with
    | false => exact Or.inl rfl
    | true =>
      simp only []
      split
      · exact Or.inl rfl
      · unfold Futures.getListenKey
        simp only []
        cases hl : (m0.runlock).lock with
        | none => exact Or.inl rfl
        | some m =>
          simp only []
          by_cases c : w.client.listenKey ≠ "" ∧ now < w.client.listenKeyExpireTime
          · rw [if_pos c]
            simp only []
            cases hl2 : (m.unlock).lock with
            | none => exact Or.inl rfl
            | some m2 =>
              simp only [DefaultWebSocketClient.SendMessage]
              cases ht : w.transport.mutex.rlock with
              | none => exact Or.inl rfl
              | some m3 =>
                simp only []
                cases htc : w.transport.connected with
                | false => exact Or.inl rfl
                | true =>
                  refine Or.inr ⟨?_, c.1⟩
                  simp [Outcome.state, hreg]
          · rw [if_neg c]
            exact Or.inl rfl

/-- C27: with the request that the client issues, `DoAuthRequest` with `params = nil`, and
whatever the signer, the encoder and the HTTP client answer: whenever `getListenKey`
returns nil, the session key it leaves is the key that was cached before the call, and it is
not empty; and `SubscribeOrder`, `SubscribePosition` and `SubscribeFuturesAccount`, on any
client and transport, send nothing or send the one `SUBSCRIBE` message whose one parameter
is that cached key, which is not empty. -/
theorem acquired_listen_key_nonempty (env : AuthCollaborators)
    (w : World Futures.WebSocketBase) (id : String) (writeErr : Option String)
    (now nowAfter : Int) :
    (∀ ws1,
      Futures.getListenKey w.client now (Futures.listenKeyRequest env w.client "POST") nowAfter
          = Outcome.returned ws1 none →
        ws1.listenKey = w.client.listenKey ∧ ws1.listenKey ≠ "") ∧
    ∀ handler r,
      r ∈ [Futures.Request.subscribeOrder handler, Futures.Request.subscribePosition handler,
        Futures.Request.subscribeFuturesAccount handler] →
      (Futures.perform w
          ⟨id, writeErr, now, nowAfter, Futures.listenKeyRequest env w.client "POST"⟩ r
        ).state.transport.effects = w.transport.effects ∨
      ((Futures.perform w
          ⟨id, writeErr, now, nowAfter, Futures.listenKeyRequest env w.client "POST"⟩ r
        ).state.transport.effects
          = w.transport.effects
              ++ [TransportEffect.writeText ⟨"SUBSCRIBE", [w.client.listenKey], id⟩] ∧
        w.client.listenKey ≠ "") := by
  refine ⟨fun ws1 h => ?_, fun handler r hr => ?_⟩
  · obtain ⟨_, h2, h3⟩ := Futures.getListenKey_returned env w.client ws1 now nowAfter none h
    exact ⟨h2, h2 ▸ h3⟩
  · simp only [List.mem_cons, List.mem_singleton, List.not_mem_nil, or_false] at hr
    rcases hr with rfl | rfl | rfl
    · exact Futures.subscribePrivate_key env w
        (fun ws => { ws with orderHandlers := mapSet ws.orderHandlers "order" handler })
        (fun _ => rfl) id writeErr now nowAfter
    · exact Futures.subscribePrivate_key env w
        (fun ws => { ws with positionHandlers := mapSet ws.positionHandlers "position" handler })
        (fun _ => rfl) id writeErr now nowAfter
    · exact Futures.subscribePrivate_key env w
        (fun ws => { ws with accountHandlers := mapSet ws.accountHandlers "account" handler })
        (fun _ => rfl) id writeErr now nowAfter

/-- Witness of C27: on the connected client with the cached key `abc`, valid at instant 99,
`getListenKey` returns nil and leaves the key `abc`, and `SubscribeOrder` sends the
`SUBSCRIBE` message for `abc`; on the client without a cached key, `getListenKey` does not
return and `SubscribeOrder` sends nothing. -/
theorem acquired_listen_key_nonempty_witness :
    Futures.getListenKey keyed 99 (Futures.listenKeyRequest quietCollaborators keyed "POST") 101
        = Outcome.returned keyed none ∧
      (keyed.listenKey = "abc" ∧ keyed.listenKey ≠ "") ∧
      (Futures.perform (connectedWorld Futures.WebSocketBase keyed)
          ⟨"id", none, 99, 101, Futures.listenKeyRequest quietCollaborators keyed "POST"⟩
          (Futures.Request.subscribeOrder (some 7))).state.transport.effects
        = [TransportEffect.writeText ⟨"SUBSCRIBE", ["abc"], "id"⟩] ∧
      Futures.getListenKey keyless 99
          (Futures.listenKeyRequest quietCollaborators keyless "POST") 101
        = Outcome.panicked { keyless with events := [ClientEvent.mintRequest] } ∧
      (Futures.perform (connectedWorld Futures.WebSocketBase keyless)
          ⟨"id", none, 99, 101, Futures.listenKeyRequest quietCollaborators keyless "POST"⟩
          (Futures.Request.subscribeOrder (some 7))).state.transport.effects = [] :=
  ⟨rfl,
    (acquired_listen_key_nonempty quietCollaborators (connectedWorld Futures.WebSocketBase keyed)
      "id" none 99 101).1 keyed rfl,
    rfl, rfl, rfl⟩

end BinanceGo
